import Mathlib

/-!
# Universal Integer System — formal model

A shallow embedding of the Universal-Integer-System repository:
the discovery/translation engine (`src/core/discovery.py`), its
request-dispatch layer, the self-sustaining learning service
(`src/core/self_sustaining.py`), the container consumer's topic
construction (`src/transports/pulsar/pulsar_consumer.py`) and the
database configuration defaults (`src/transports/pulsar/config.py`).

Python values are modelled by `PyVal`; Python strings by `String`
with helper functions that mirror the `str` methods the code uses
(implemented over the character list so that proofs reduce well).
Stateful methods are modelled by explicit state passing; Python
exceptions by `Except`.  Wall-clock readings (`time.time()`,
`time.perf_counter()`) are modelled as explicit numeric arguments
or omitted where nothing depends on them.
-/

/-! ## Python string helpers -/

/-- ASCII lower-casing of one character, written as an explicit 26-way
case chain.  Extensionally equal to `Char.toLower` (which maps exactly
`A`–`Z` and leaves every other character unchanged). -/
def asciiLower (c : Char) : Char :=
  if c == 'A' then 'a' else if c == 'B' then 'b' else if c == 'C' then 'c'
  else if c == 'D' then 'd' else if c == 'E' then 'e' else if c == 'F' then 'f'
  else if c == 'G' then 'g' else if c == 'H' then 'h' else if c == 'I' then 'i'
  else if c == 'J' then 'j' else if c == 'K' then 'k' else if c == 'L' then 'l'
  else if c == 'M' then 'm' else if c == 'N' then 'n' else if c == 'O' then 'o'
  else if c == 'P' then 'p' else if c == 'Q' then 'q' else if c == 'R' then 'r'
  else if c == 'S' then 's' else if c == 'T' then 't' else if c == 'U' then 'u'
  else if c == 'V' then 'v' else if c == 'W' then 'w' else if c == 'X' then 'x'
  else if c == 'Y' then 'y' else if c == 'Z' then 'z' else c

/-- Python `str.lower()` (ASCII case mapping, which covers every string
the repository manipulates). -/
def pyLower (s : String) : String :=
  String.mk (s.data.map asciiLower)

/-- Python `str.startswith(pre)`. -/
def pyStartsWith (s pre : String) : Bool :=
  pre.data.isPrefixOf s.data

/-- Python `str.strip()` (whitespace on both ends). -/
def pyStrip (s : String) : String :=
  String.mk (((s.data.dropWhile Char.isWhitespace).reverse.dropWhile Char.isWhitespace).reverse)

/-- Python `len(s)` (number of code points). -/
def pyLen (s : String) : Nat :=
  s.data.length

/-- Python slicing `s[n:]` (by code points). -/
def pyDrop (s : String) (n : Nat) : String :=
  String.mk (s.data.drop n)

/-- Helper for `pySplit`: split a character list on whitespace runs. -/
def splitWsAux : List Char → List Char → List String
  | [], acc => if acc.isEmpty then [] else [String.mk acc.reverse]
  | c :: cs, acc =>
    if c.isWhitespace then
      if acc.isEmpty then splitWsAux cs [] else String.mk acc.reverse :: splitWsAux cs []
    else splitWsAux cs (c :: acc)

/-- Python `str.split()` with no argument: split on whitespace runs,
dropping empty pieces. -/
def pySplit (s : String) : List String :=
  splitWsAux s.data []

/-- Substring test on character lists. -/
def listContainsSub (sub : List Char) : List Char → Bool
  | [] => sub.isEmpty
  | c :: cs => sub.isPrefixOf (c :: cs) || listContainsSub sub cs

/-- Python `sub in s` for strings. -/
def strContains (s sub : String) : Bool :=
  listContainsSub sub.data s.data

/-- Python `str.isdigit()` restricted to ASCII digits (the repository only
ever feeds it ASCII command strings). -/
def pyIsDigit (s : String) : Bool :=
  !s.data.isEmpty && s.data.all Char.isDigit

/-- Decimal digits with single underscores between digits, as accepted by
Python `int()` after an optional sign: nonempty, no leading/trailing
underscore, no doubled underscore. -/
def digitsWithUnderscores : List Char → Bool
  | [] => false
  | [c] => c.isDigit
  | c :: d :: cs =>
    if c.isDigit then
      if d == '_' then
        match cs with
        | [] => false
        | e :: _ => e.isDigit && digitsWithUnderscores (d :: cs).tail
      else digitsWithUnderscores (d :: cs)
    else false

/-- Digit list to natural number, ignoring underscores. -/
def digitsToNat : List Char → Nat → Nat
  | [], acc => acc
  | c :: cs, acc =>
    if c == '_' then digitsToNat cs acc
    else digitsToNat cs (acc * 10 + (c.toNat - '0'.toNat))

/-- Python `int(token)` on a whitespace-free token: optional sign, ASCII
decimal digits, single underscores allowed between digits; `none` models
the `ValueError` path. -/
def pyIntParse (s : String) : Option Int :=
  match s.data with
  | '+' :: rest => if digitsWithUnderscores rest then some (Int.ofNat (digitsToNat rest 0)) else none
  | '-' :: rest => if digitsWithUnderscores rest then some (-(Int.ofNat (digitsToNat rest 0))) else none
  | rest => if digitsWithUnderscores rest then some (Int.ofNat (digitsToNat rest 0)) else none

/-! ## Python values -/

/-- The Python values the request layer can receive or produce.  `bool` is
kept distinct from `int` (as in Python) but participates in integer
dispatch because `bool` is a subclass of `int`. -/
inductive PyVal where
  | none
  | bool (b : Bool)
  | int (n : Int)
  | str (s : String)
  | list (xs : List PyVal)
  | dict (entries : List (PyVal × PyVal))

/-- Python `type(x).__name__`. -/
def pyTypeName : PyVal → String
  | .none => "NoneType"
  | .bool _ => "bool"
  | .int _ => "int"
  | .str _ => "str"
  | .list _ => "list"
  | .dict _ => "dict"

/-- Python truthiness. -/
def pyTruthy : PyVal → Bool
  | .none => false
  | .bool b => b
  | .int n => n != 0
  | .str s => !s.data.isEmpty
  | .list xs => !xs.isEmpty
  | .dict es => !es.isEmpty

/-- The numeric value of a Python `int` or `bool` (`True == 1`,
`False == 0`), `none` otherwise. -/
def pyNum : PyVal → Option Int
  | .bool b => some (if b then 1 else 0)
  | .int n => some n
  | _ => Option.none

mutual

/-- Python `==` on the values we model: numeric cross-type equality for
`bool`/`int`, structural equality for strings and lists, `False` across
types.  Dicts compare structurally in Python, but `==` on two dicts is
never exercised by the modelled code (dicts are unhashable so they never
appear as lookup keys, and every `==` in the dispatch compares strings),
so dict/dict comparison is conservatively `false` here. -/
def pyEq : PyVal → PyVal → Bool
  | .none, .none => true
  | .bool a, .bool b => a == b
  | .bool a, .int n => (if a then (1 : Int) else 0) == n
  | .int n, .bool a => n == (if a then (1 : Int) else 0)
  | .int a, .int b => a == b
  | .str a, .str b => a == b
  | .list xs, .list ys => pyEqList xs ys
  | _, _ => false

/-- Elementwise Python `==` on lists. -/
def pyEqList : List PyVal → List PyVal → Bool
  | [], [] => true
  | x :: xs, y :: ys => pyEq x y && pyEqList xs ys
  | _, _ => false

end

/-- Python `d.get(k)` for a string key on a dict; `none` for a missing key
or a non-dict receiver. -/
def pyGet (v : PyVal) (k : String) : Option PyVal :=
  match v with
  | .dict es => (es.find? (fun p => pyEq p.fst (.str k))).map Prod.snd
  | _ => Option.none

/-- Python `d[k] = val` for a string key: overwrite in place if present,
else append (dict insertion order). -/
def pyDictSet (v : PyVal) (k : String) (val : PyVal) : PyVal :=
  match v with
  | .dict es =>
    if es.any (fun p => pyEq p.fst (.str k)) then
      .dict (es.map (fun p => if pyEq p.fst (.str k) then (p.fst, val) else p))
    else
      .dict (es ++ [(.str k, val)])
  | other => other

/-! ## Range definitions (`_build_accurate_range_definitions`) -/

/-- One entry of the discovery range table; `stop` models the inclusive
`"end"` bound (`end` is a Lean keyword). -/
structure RangeInfo where
  start : Int
  stop : Int
  descr : String

/-- The range table of
`StreamlinedDiscoveryTranslator._build_accurate_range_definitions`, in
source (dict-insertion) order. -/
def rangeDefinitions : List (String × RangeInfo) := [
  ("universal_foundation", ⟨0, 99, "Universal Status/Priority/Severity/Result"⟩),
  ("system_events", ⟨100, 199, "Core System Events"⟩),
  ("user_events", ⟨200, 299, "User Interaction Events"⟩),
  ("workflow_events", ⟨300, 399, "Workflow and Process Events"⟩),
  ("error_events", ⟨400, 499, "Error and Exception Events"⟩),
  ("communication_events", ⟨500, 599, "Inter-service Communication"⟩),
  ("state_change_events", ⟨600, 699, "Entity State Changes"⟩),
  ("integration_events", ⟨700, 799, "External System Integration"⟩),
  ("reserved_extension", ⟨800, 899, "Reserved for Extensions"⟩),
  ("system_metadata", ⟨900, 999, "System Metadata Events"⟩),
  ("auth_system", ⟨1000, 1999, "Authentication & Authorization"⟩),
  ("infrastructure", ⟨2000, 3999, "Infrastructure & Containers"⟩),
  ("data_storage", ⟨4000, 4999, "Data & Storage Systems"⟩),
  ("ai_ml", ⟨5000, 5999, "AI & Machine Learning"⟩),
  ("business_logic", ⟨6000, 6999, "Business Logic & Workflows"⟩),
  ("monitoring", ⟨7000, 7999, "Monitoring & Observability"⟩),
  ("integration", ⟨8000, 8999, "Integration & External Systems"⟩),
  ("application", ⟨9000, 9999, "Application-Specific"⟩),
  ("industry_specific", ⟨10000, 14999, "Industry-Specific Codes"⟩),
  ("behavioral_ai", ⟨15000, 19999, "Behavioral Prediction & Advanced AI"⟩),
  ("company_specific", ⟨20000, 29999, "Company-Specific Extensions"⟩),
  ("future_expansion", ⟨30000, 99999, "Future Expansion Space"⟩)
]

/-- `_determine_system_from_code`: linear scan of the range table, first
containing range wins, `"unknown_range"` if none matches. -/
def determineSystem (code : Int) : String :=
  match rangeDefinitions.find? (fun p => p.snd.start ≤ code && code ≤ p.snd.stop) with
  | some p => p.fst
  | Option.none => "unknown_range"

/-! ## Code discovery (`_discover_all_codes`) -/

/-- One discovered enum member: numeric value, lower-cased member name,
defining class name. -/
structure RawCode where
  value : Int
  name : String
  cls : String

/-- The per-code record stored in `_code_registry`. -/
structure CodeInfo where
  name : String
  enumClassName : String
  system : String

/-- The registry record built for one discovered member (mirrors the dict
literal at `discovery.py` lines 78–82). -/
def mkCodeInfo (e : RawCode) : CodeInfo :=
  ⟨e.name, e.cls, determineSystem e.value⟩

/-- Python dict assignment `d[k] = v` on an association list keyed by
integers: overwrite in place when the key exists, else append (dicts keep
insertion order). -/
def assocSet {β : Type} (l : List (Int × β)) (k : Int) (v : β) : List (Int × β) :=
  if l.any (fun p => p.fst == k) then
    l.map (fun p => if p.fst == k then (k, v) else p)
  else l ++ [(k, v)]

/-- `_discover_all_codes`: register every discovered member in order.
The structural `try/except` of the scan collects no errors on the actual
module (every attribute is either a well-formed `IntEnum` or skipped by
the `isinstance` guard), so the error list is not modelled. -/
def discoverAllCodes (raw : List RawCode) : List (Int × CodeInfo) :=
  raw.foldl (fun reg e => assocSet reg e.value (mkCodeInfo e)) []

/-- Chunked literal of every `IntEnum` member discovered in
`universal_integer_system.py` (see `actualRawCodes`). -/
def rawCodesChunk0 : List RawCode := [
  ⟨5500, "agent_created", "AIAgentEvent"⟩,
  ⟨5501, "agent_initialized", "AIAgentEvent"⟩,
  ⟨5502, "agent_started", "AIAgentEvent"⟩,
  ⟨5503, "agent_ready", "AIAgentEvent"⟩,
  ⟨5504, "agent_busy", "AIAgentEvent"⟩,
  ⟨5505, "agent_idle", "AIAgentEvent"⟩,
  ⟨5506, "agent_stopped", "AIAgentEvent"⟩,
  ⟨5507, "agent_terminated", "AIAgentEvent"⟩,
  ⟨5520, "agent_received_message", "AIAgentEvent"⟩,
  ⟨5521, "agent_processing", "AIAgentEvent"⟩,
  ⟨5522, "agent_responded", "AIAgentEvent"⟩,
  ⟨5523, "agent_delegated", "AIAgentEvent"⟩,
  ⟨5524, "agent_escalated", "AIAgentEvent"⟩,
  ⟨5525, "agent_collaborated", "AIAgentEvent"⟩,
  ⟨5540, "agent_learned", "AIAgentEvent"⟩,
  ⟨5541, "agent_adapted", "AIAgentEvent"⟩,
  ⟨5542, "agent_improved", "AIAgentEvent"⟩,
  ⟨5543, "pattern_recognized", "AIAgentEvent"⟩,
  ⟨5544, "behavior_modified", "AIAgentEvent"⟩,
  ⟨5545, "skill_acquired", "AIAgentEvent"⟩,
  ⟨5560, "context_loaded", "AIAgentEvent"⟩,
  ⟨5561, "context_saved", "AIAgentEvent"⟩,
  ⟨5562, "memory_updated", "AIAgentEvent"⟩,
  ⟨5563, "state_checkpoint", "AIAgentEvent"⟩,
  ⟨5564, "personality_adjusted", "AIAgentEvent"⟩,
  ⟨5565, "goal_updated", "AIAgentEvent"⟩,
  ⟨5400, "chat_agent", "AIAgentType"⟩,
  ⟨5401, "voice_assistant", "AIAgentType"⟩,
  ⟨5402, "customer_service", "AIAgentType"⟩,
  ⟨5403, "personal_assistant", "AIAgentType"⟩,
  ⟨5404, "therapy_agent", "AIAgentType"⟩,
  ⟨5405, "education_agent", "AIAgentType"⟩,
  ⟨5420, "code_agent", "AIAgentType"⟩,
  ⟨5421, "research_agent", "AIAgentType"⟩,
  ⟨5422, "analysis_agent", "AIAgentType"⟩,
  ⟨5423, "writing_agent", "AIAgentType"⟩,
  ⟨5424, "design_agent", "AIAgentType"⟩,
  ⟨5425, "planning_agent", "AIAgentType"⟩,
  ⟨5440, "trading_agent", "AIAgentType"⟩,
  ⟨5441, "medical_agent", "AIAgentType"⟩,
  ⟨5442, "legal_agent", "AIAgentType"⟩,
  ⟨5443, "creative_agent", "AIAgentType"⟩,
  ⟨5444, "gaming_agent", "AIAgentType"⟩,
  ⟨5460, "monitoring_agent", "AIAgentType"⟩,
  ⟨5461, "security_agent", "AIAgentType"⟩,
  ⟨5462, "optimization_agent", "AIAgentType"⟩,
  ⟨5463, "orchestration_agent", "AIAgentType"⟩,
  ⟨5464, "learning_agent", "AIAgentType"⟩,
  ⟨5000, "gpt", "AIModelType"⟩,
  ⟨5001, "bert", "AIModelType"⟩,
  ⟨5002, "t5", "AIModelType"⟩,
  ⟨5003, "llama", "AIModelType"⟩,
  ⟨5004, "claude", "AIModelType"⟩,
  ⟨5005, "gemini", "AIModelType"⟩,
  ⟨5020, "cnn", "AIModelType"⟩,
  ⟨5021, "yolo", "AIModelType"⟩,
  ⟨5022, "resnet", "AIModelType"⟩,
  ⟨5023, "vit", "AIModelType"⟩,
  ⟨5024, "gan", "AIModelType"⟩,
  ⟨5040, "rnn", "AIModelType"⟩
]

def rawCodesChunk1 : List RawCode := [
  ⟨5041, "lstm", "AIModelType"⟩,
  ⟨5042, "transformer", "AIModelType"⟩,
  ⟨5043, "diffusion", "AIModelType"⟩,
  ⟨5044, "vae", "AIModelType"⟩,
  ⟨5060, "recommendation", "AIModelType"⟩,
  ⟨5061, "classification", "AIModelType"⟩,
  ⟨5062, "regression", "AIModelType"⟩,
  ⟨5063, "clustering", "AIModelType"⟩,
  ⟨5064, "anomaly_detection", "AIModelType"⟩,
  ⟨5100, "training_started", "AIOperation"⟩,
  ⟨5101, "training_epoch", "AIOperation"⟩,
  ⟨5102, "training_checkpoint", "AIOperation"⟩,
  ⟨5103, "training_completed", "AIOperation"⟩,
  ⟨5104, "training_failed", "AIOperation"⟩,
  ⟨5105, "validation_performed", "AIOperation"⟩,
  ⟨5120, "inference_requested", "AIOperation"⟩,
  ⟨5121, "inference_started", "AIOperation"⟩,
  ⟨5122, "inference_completed", "AIOperation"⟩,
  ⟨5123, "inference_failed", "AIOperation"⟩,
  ⟨5124, "batch_inference", "AIOperation"⟩,
  ⟨5125, "streaming_inference", "AIOperation"⟩,
  ⟨5140, "model_loaded", "AIOperation"⟩,
  ⟨5141, "model_unloaded", "AIOperation"⟩,
  ⟨5142, "model_deployed", "AIOperation"⟩,
  ⟨5143, "model_versioned", "AIOperation"⟩,
  ⟨5144, "model_archived", "AIOperation"⟩,
  ⟨5145, "model_optimized", "AIOperation"⟩,
  ⟨5160, "data_preprocessing", "AIOperation"⟩,
  ⟨5161, "data_augmentation", "AIOperation"⟩,
  ⟨5162, "feature_extraction", "AIOperation"⟩,
  ⟨5163, "embedding_generated", "AIOperation"⟩,
  ⟨5164, "tokenization", "AIOperation"⟩,
  ⟨5200, "dataset_loaded", "AITrainingEvent"⟩,
  ⟨5201, "dataset_split", "AITrainingEvent"⟩,
  ⟨5202, "hyperparameter_set", "AITrainingEvent"⟩,
  ⟨5203, "optimizer_initialized", "AITrainingEvent"⟩,
  ⟨5204, "loss_calculated", "AITrainingEvent"⟩,
  ⟨5205, "gradient_computed", "AITrainingEvent"⟩,
  ⟨5206, "weights_updated", "AITrainingEvent"⟩,
  ⟨5220, "epoch_started", "AITrainingEvent"⟩,
  ⟨5221, "epoch_completed", "AITrainingEvent"⟩,
  ⟨5222, "batch_processed", "AITrainingEvent"⟩,
  ⟨5223, "learning_rate_adjusted", "AITrainingEvent"⟩,
  ⟨5224, "early_stopping", "AITrainingEvent"⟩,
  ⟨5225, "convergence_detected", "AITrainingEvent"⟩,
  ⟨5240, "validation_started", "AITrainingEvent"⟩,
  ⟨5241, "test_started", "AITrainingEvent"⟩,
  ⟨5242, "metric_calculated", "AITrainingEvent"⟩,
  ⟨5243, "accuracy_improved", "AITrainingEvent"⟩,
  ⟨5244, "overfitting_detected", "AITrainingEvent"⟩,
  ⟨5245, "underfitting_detected", "AITrainingEvent"⟩,
  ⟨5260, "gpu_allocated", "AITrainingEvent"⟩,
  ⟨5261, "gpu_memory_full", "AITrainingEvent"⟩,
  ⟨5262, "distributed_training", "AITrainingEvent"⟩,
  ⟨5263, "checkpoint_saved", "AITrainingEvent"⟩,
  ⟨5264, "training_resumed", "AITrainingEvent"⟩,
  ⟨8000, "api_registered", "APIIntegration"⟩,
  ⟨8001, "api_deployed", "APIIntegration"⟩,
  ⟨8002, "api_updated", "APIIntegration"⟩,
  ⟨8003, "api_deprecated", "APIIntegration"⟩
]

def rawCodesChunk2 : List RawCode := [
  ⟨8004, "api_retired", "APIIntegration"⟩,
  ⟨8005, "api_versioned", "APIIntegration"⟩,
  ⟨8020, "api_request", "APIIntegration"⟩,
  ⟨8021, "api_response", "APIIntegration"⟩,
  ⟨8022, "api_error", "APIIntegration"⟩,
  ⟨8023, "api_timeout", "APIIntegration"⟩,
  ⟨8024, "api_rate_limited", "APIIntegration"⟩,
  ⟨8025, "api_throttled", "APIIntegration"⟩,
  ⟨8040, "api_authenticated", "APIIntegration"⟩,
  ⟨8041, "api_authorized", "APIIntegration"⟩,
  ⟨8042, "api_unauthorized", "APIIntegration"⟩,
  ⟨8043, "api_key_generated", "APIIntegration"⟩,
  ⟨8044, "api_key_revoked", "APIIntegration"⟩,
  ⟨8045, "api_token_expired", "APIIntegration"⟩,
  ⟨8060, "endpoint_created", "APIIntegration"⟩,
  ⟨8061, "endpoint_updated", "APIIntegration"⟩,
  ⟨8062, "endpoint_deleted", "APIIntegration"⟩,
  ⟨8063, "route_configured", "APIIntegration"⟩,
  ⟨8064, "policy_applied", "APIIntegration"⟩,
  ⟨8065, "quota_enforced", "APIIntegration"⟩,
  ⟨7400, "info_alert", "AlertType"⟩,
  ⟨7401, "warning_alert", "AlertType"⟩,
  ⟨7402, "error_alert", "AlertType"⟩,
  ⟨7403, "critical_alert", "AlertType"⟩,
  ⟨7404, "emergency_alert", "AlertType"⟩,
  ⟨7420, "performance_alert", "AlertType"⟩,
  ⟨7421, "availability_alert", "AlertType"⟩,
  ⟨7422, "security_alert", "AlertType"⟩,
  ⟨7423, "capacity_alert", "AlertType"⟩,
  ⟨7424, "compliance_alert", "AlertType"⟩,
  ⟨7425, "business_alert", "AlertType"⟩,
  ⟨7440, "alert_triggered", "AlertType"⟩,
  ⟨7441, "alert_acknowledged", "AlertType"⟩,
  ⟨7442, "alert_escalated", "AlertType"⟩,
  ⟨7443, "alert_resolved", "AlertType"⟩,
  ⟨7444, "alert_expired", "AlertType"⟩,
  ⟨7445, "alert_suppressed", "AlertType"⟩,
  ⟨7460, "notification_sent", "AlertType"⟩,
  ⟨7461, "incident_created", "AlertType"⟩,
  ⟨7462, "runbook_executed", "AlertType"⟩,
  ⟨7463, "auto_remediation", "AlertType"⟩,
  ⟨7464, "manual_intervention", "AlertType"⟩,
  ⟨16000, "life_coach", "AppType"⟩,
  ⟨16001, "therapist", "AppType"⟩,
  ⟨16002, "fitness", "AppType"⟩,
  ⟨16003, "couples", "AppType"⟩,
  ⟨16004, "companion", "AppType"⟩,
  ⟨16005, "career_strategist", "AppType"⟩,
  ⟨16006, "executive_coach", "AppType"⟩,
  ⟨16007, "financial_wellness", "AppType"⟩,
  ⟨16008, "spiritual_guide", "AppType"⟩,
  ⟨16009, "accountability_partner", "AppType"⟩,
  ⟨16010, "creativity_coach", "AppType"⟩,
  ⟨16011, "parent_coach", "AppType"⟩,
  ⟨16012, "transition_guide", "AppType"⟩,
  ⟨16013, "performance_coach", "AppType"⟩,
  ⟨16014, "habits_tracker", "AppType"⟩,
  ⟨16015, "nutrition_coach", "AppType"⟩,
  ⟨16016, "sleep_coach", "AppType"⟩,
  ⟨16017, "stress_management", "AppType"⟩
]

def rawCodesChunk3 : List RawCode := [
  ⟨16018, "addiction_recovery", "AppType"⟩,
  ⟨16019, "chronic_illness", "AppType"⟩,
  ⟨16020, "mental_health", "AppType"⟩,
  ⟨16021, "study_coach", "AppType"⟩,
  ⟨16022, "language_coach", "AppType"⟩,
  ⟨16023, "skill_development", "AppType"⟩,
  ⟨16024, "reading_coach", "AppType"⟩,
  ⟨16025, "memory_coach", "AppType"⟩,
  ⟨16030, "dating_coach", "AppType"⟩,
  ⟨16031, "family_coach", "AppType"⟩,
  ⟨16032, "social_skills", "AppType"⟩,
  ⟨16033, "divorce_coach", "AppType"⟩,
  ⟨16034, "conflict_resolution", "AppType"⟩,
  ⟨16040, "prepper_coach", "AppType"⟩,
  ⟨16041, "retirement_coach", "AppType"⟩,
  ⟨16042, "student_coach", "AppType"⟩,
  ⟨16043, "aging_coach", "AppType"⟩,
  ⟨16044, "grief_counselor", "AppType"⟩,
  ⟨16045, "trauma_recovery", "AppType"⟩,
  ⟨16046, "crisis_support", "AppType"⟩,
  ⟨16050, "entrepreneur_coach", "AppType"⟩,
  ⟨16051, "remote_work_coach", "AppType"⟩,
  ⟨16052, "communication_coach", "AppType"⟩,
  ⟨16053, "decision_coach", "AppType"⟩,
  ⟨16054, "procrastination_coach", "AppType"⟩,
  ⟨16055, "confidence_coach", "AppType"⟩,
  ⟨16060, "travel_coach", "AppType"⟩,
  ⟨16061, "hobby_coach", "AppType"⟩,
  ⟨16062, "minimalism_coach", "AppType"⟩,
  ⟨16063, "sustainability_coach", "AppType"⟩,
  ⟨16064, "digital_wellness", "AppType"⟩,
  ⟨16070, "custom_coach", "AppType"⟩,
  ⟨16200, "admin_dashboard", "AppType"⟩,
  ⟨16201, "analytics_hub", "AppType"⟩,
  ⟨16202, "coach_training", "AppType"⟩,
  ⟨16203, "user_onboarding", "AppType"⟩,
  ⟨16300, "api_gateway", "AppType"⟩,
  ⟨16301, "webhook_manager", "AppType"⟩,
  ⟨16302, "data_sync", "AppType"⟩,
  ⟨1300, "login_attempted", "AuthenticationEvent"⟩,
  ⟨1301, "login_succeeded", "AuthenticationEvent"⟩,
  ⟨1302, "login_failed", "AuthenticationEvent"⟩,
  ⟨1303, "login_blocked", "AuthenticationEvent"⟩,
  ⟨1304, "login_rate_limited", "AuthenticationEvent"⟩,
  ⟨1305, "logout_initiated", "AuthenticationEvent"⟩,
  ⟨1306, "logout_completed", "AuthenticationEvent"⟩,
  ⟨1320, "token_issued", "AuthenticationEvent"⟩,
  ⟨1321, "token_validated", "AuthenticationEvent"⟩,
  ⟨1322, "token_refreshed", "AuthenticationEvent"⟩,
  ⟨1323, "token_expired", "AuthenticationEvent"⟩,
  ⟨1324, "token_revoked", "AuthenticationEvent"⟩,
  ⟨1325, "token_blacklisted", "AuthenticationEvent"⟩,
  ⟨1340, "password_reset_requested", "AuthenticationEvent"⟩,
  ⟨1341, "password_reset_completed", "AuthenticationEvent"⟩,
  ⟨1342, "password_changed", "AuthenticationEvent"⟩,
  ⟨1343, "account_locked", "AuthenticationEvent"⟩,
  ⟨1344, "account_unlocked", "AuthenticationEvent"⟩,
  ⟨1345, "suspicious_activity", "AuthenticationEvent"⟩,
  ⟨1346, "brute_force_detected", "AuthenticationEvent"⟩
]

def rawCodesChunk4 : List RawCode := [
  ⟨1360, "mfa_challenged", "AuthenticationEvent"⟩,
  ⟨1361, "mfa_verified", "AuthenticationEvent"⟩,
  ⟨1362, "mfa_failed", "AuthenticationEvent"⟩,
  ⟨1363, "mfa_enabled", "AuthenticationEvent"⟩,
  ⟨1364, "mfa_disabled", "AuthenticationEvent"⟩,
  ⟨1365, "mfa_method_added", "AuthenticationEvent"⟩,
  ⟨1366, "mfa_method_removed", "AuthenticationEvent"⟩,
  ⟨1200, "password", "AuthenticationMethod"⟩,
  ⟨1201, "pin", "AuthenticationMethod"⟩,
  ⟨1202, "biometric", "AuthenticationMethod"⟩,
  ⟨1203, "two_factor", "AuthenticationMethod"⟩,
  ⟨1204, "multi_factor", "AuthenticationMethod"⟩,
  ⟨1205, "passwordless", "AuthenticationMethod"⟩,
  ⟨1206, "magic_link", "AuthenticationMethod"⟩,
  ⟨1220, "session_token", "AuthenticationMethod"⟩,
  ⟨1221, "jwt", "AuthenticationMethod"⟩,
  ⟨1222, "oauth2", "AuthenticationMethod"⟩,
  ⟨1223, "api_key", "AuthenticationMethod"⟩,
  ⟨1224, "bearer_token", "AuthenticationMethod"⟩,
  ⟨1225, "refresh_token", "AuthenticationMethod"⟩,
  ⟨1226, "access_token", "AuthenticationMethod"⟩,
  ⟨1240, "google", "AuthenticationMethod"⟩,
  ⟨1241, "facebook", "AuthenticationMethod"⟩,
  ⟨1242, "github", "AuthenticationMethod"⟩,
  ⟨1243, "microsoft", "AuthenticationMethod"⟩,
  ⟨1244, "apple", "AuthenticationMethod"⟩,
  ⟨1245, "twitter", "AuthenticationMethod"⟩,
  ⟨1246, "linkedin", "AuthenticationMethod"⟩,
  ⟨1247, "saml", "AuthenticationMethod"⟩,
  ⟨1248, "ldap", "AuthenticationMethod"⟩,
  ⟨1249, "active_directory", "AuthenticationMethod"⟩,
  ⟨1260, "certificate", "AuthenticationMethod"⟩,
  ⟨1261, "smart_card", "AuthenticationMethod"⟩,
  ⟨1262, "hardware_token", "AuthenticationMethod"⟩,
  ⟨1263, "blockchain", "AuthenticationMethod"⟩,
  ⟨1264, "webauthn", "AuthenticationMethod"⟩,
  ⟨1265, "fido2", "AuthenticationMethod"⟩,
  ⟨1400, "access_granted", "AuthorizationEvent"⟩,
  ⟨1401, "access_denied", "AuthorizationEvent"⟩,
  ⟨1402, "access_revoked", "AuthorizationEvent"⟩,
  ⟨1403, "access_expired", "AuthorizationEvent"⟩,
  ⟨1404, "permission_check", "AuthorizationEvent"⟩,
  ⟨1405, "role_check", "AuthorizationEvent"⟩,
  ⟨1406, "policy_evaluated", "AuthorizationEvent"⟩,
  ⟨1420, "role_created", "AuthorizationEvent"⟩,
  ⟨1421, "role_assigned", "AuthorizationEvent"⟩,
  ⟨1422, "role_removed", "AuthorizationEvent"⟩,
  ⟨1423, "role_updated", "AuthorizationEvent"⟩,
  ⟨1424, "role_deleted", "AuthorizationEvent"⟩,
  ⟨1425, "role_inherited", "AuthorizationEvent"⟩,
  ⟨1426, "role_hierarchy_changed", "AuthorizationEvent"⟩,
  ⟨1440, "permission_granted", "AuthorizationEvent"⟩,
  ⟨1441, "permission_revoked", "AuthorizationEvent"⟩,
  ⟨1442, "permission_updated", "AuthorizationEvent"⟩,
  ⟨1443, "permission_inherited", "AuthorizationEvent"⟩,
  ⟨1444, "permission_overridden", "AuthorizationEvent"⟩,
  ⟨1445, "permission_delegated", "AuthorizationEvent"⟩,
  ⟨1460, "policy_created", "AuthorizationEvent"⟩,
  ⟨1461, "policy_updated", "AuthorizationEvent"⟩,
  ⟨1462, "policy_deleted", "AuthorizationEvent"⟩
]

def rawCodesChunk5 : List RawCode := [
  ⟨1463, "policy_attached", "AuthorizationEvent"⟩,
  ⟨1464, "policy_detached", "AuthorizationEvent"⟩,
  ⟨1465, "policy_violation", "AuthorizationEvent"⟩,
  ⟨1466, "policy_enforced", "AuthorizationEvent"⟩,
  ⟨4800, "full_backup", "BackupOperation"⟩,
  ⟨4801, "incremental_backup", "BackupOperation"⟩,
  ⟨4802, "differential_backup", "BackupOperation"⟩,
  ⟨4803, "snapshot_backup", "BackupOperation"⟩,
  ⟨4804, "continuous_backup", "BackupOperation"⟩,
  ⟨4820, "backup_scheduled", "BackupOperation"⟩,
  ⟨4821, "backup_started", "BackupOperation"⟩,
  ⟨4822, "backup_progress", "BackupOperation"⟩,
  ⟨4823, "backup_completed", "BackupOperation"⟩,
  ⟨4824, "backup_failed", "BackupOperation"⟩,
  ⟨4825, "backup_verified", "BackupOperation"⟩,
  ⟨4840, "restore_requested", "BackupOperation"⟩,
  ⟨4841, "restore_started", "BackupOperation"⟩,
  ⟨4842, "restore_progress", "BackupOperation"⟩,
  ⟨4843, "restore_completed", "BackupOperation"⟩,
  ⟨4844, "restore_failed", "BackupOperation"⟩,
  ⟨4845, "point_in_time_restore", "BackupOperation"⟩,
  ⟨4860, "retention_policy_applied", "BackupOperation"⟩,
  ⟨4861, "backup_expired", "BackupOperation"⟩,
  ⟨4862, "backup_deleted", "BackupOperation"⟩,
  ⟨4863, "backup_archived", "BackupOperation"⟩,
  ⟨4864, "backup_replicated", "BackupOperation"⟩,
  ⟨5700, "physical_fitness", "BehavioralDomain"⟩,
  ⟨5701, "nutrition_habits", "BehavioralDomain"⟩,
  ⟨5702, "sleep_quality", "BehavioralDomain"⟩,
  ⟨5703, "energy_management", "BehavioralDomain"⟩,
  ⟨5704, "body_awareness", "BehavioralDomain"⟩,
  ⟨5705, "chronic_condition_management", "BehavioralDomain"⟩,
  ⟨5710, "emotional_regulation", "BehavioralDomain"⟩,
  ⟨5711, "stress_response", "BehavioralDomain"⟩,
  ⟨5712, "anxiety_management", "BehavioralDomain"⟩,
  ⟨5713, "depression_coping", "BehavioralDomain"⟩,
  ⟨5714, "trauma_healing", "BehavioralDomain"⟩,
  ⟨5715, "grief_processing", "BehavioralDomain"⟩,
  ⟨5720, "focus_concentration", "BehavioralDomain"⟩,
  ⟨5721, "memory_retention", "BehavioralDomain"⟩,
  ⟨5722, "learning_strategies", "BehavioralDomain"⟩,
  ⟨5723, "skill_acquisition", "BehavioralDomain"⟩,
  ⟨5724, "problem_solving", "BehavioralDomain"⟩,
  ⟨5725, "decision_making", "BehavioralDomain"⟩,
  ⟨5730, "habit_formation", "BehavioralDomain"⟩,
  ⟨5731, "habit_breaking", "BehavioralDomain"⟩,
  ⟨5732, "routine_optimization", "BehavioralDomain"⟩,
  ⟨5733, "procrastination_patterns", "BehavioralDomain"⟩,
  ⟨5734, "motivation_sustaining", "BehavioralDomain"⟩,
  ⟨5740, "communication_patterns", "BehavioralDomain"⟩,
  ⟨5741, "conflict_navigation", "BehavioralDomain"⟩,
  ⟨5742, "intimacy_building", "BehavioralDomain"⟩,
  ⟨5743, "boundary_setting", "BehavioralDomain"⟩,
  ⟨5744, "social_confidence", "BehavioralDomain"⟩,
  ⟨5745, "family_dynamics", "BehavioralDomain"⟩,
  ⟨5750, "career_navigation", "BehavioralDomain"⟩,
  ⟨5751, "leadership_development", "BehavioralDomain"⟩,
  ⟨5752, "performance_optimization", "BehavioralDomain"⟩,
  ⟨5753, "professional_relationships", "BehavioralDomain"⟩,
  ⟨5754, "work_life_balance", "BehavioralDomain"⟩
]

def rawCodesChunk6 : List RawCode := [
  ⟨5755, "entrepreneurial_mindset", "BehavioralDomain"⟩,
  ⟨5760, "spending_patterns", "BehavioralDomain"⟩,
  ⟨5761, "saving_discipline", "BehavioralDomain"⟩,
  ⟨5762, "financial_planning", "BehavioralDomain"⟩,
  ⟨5763, "money_mindset", "BehavioralDomain"⟩,
  ⟨5764, "investment_behavior", "BehavioralDomain"⟩,
  ⟨5765, "self_awareness", "BehavioralDomain"⟩,
  ⟨5766, "confidence_building", "BehavioralDomain"⟩,
  ⟨5767, "identity_development", "BehavioralDomain"⟩,
  ⟨5768, "purpose_finding", "BehavioralDomain"⟩,
  ⟨5769, "value_alignment", "BehavioralDomain"⟩,
  ⟨5770, "change_adaptation", "BehavioralDomain"⟩,
  ⟨5771, "transition_navigation", "BehavioralDomain"⟩,
  ⟨5772, "loss_adjustment", "BehavioralDomain"⟩,
  ⟨5773, "new_phase_preparation", "BehavioralDomain"⟩,
  ⟨5774, "meaning_making", "BehavioralDomain"⟩,
  ⟨5775, "spiritual_practice", "BehavioralDomain"⟩,
  ⟨5776, "mindfulness_presence", "BehavioralDomain"⟩,
  ⟨5777, "existential_exploration", "BehavioralDomain"⟩,
  ⟨5778, "digital_boundaries", "BehavioralDomain"⟩,
  ⟨5779, "technology_balance", "BehavioralDomain"⟩,
  ⟨5780, "remote_work_adaptation", "BehavioralDomain"⟩,
  ⟨5781, "online_relationship_management", "BehavioralDomain"⟩,
  ⟨5782, "crisis_response", "BehavioralDomain"⟩,
  ⟨5783, "addiction_recovery", "BehavioralDomain"⟩,
  ⟨5784, "relapse_prevention", "BehavioralDomain"⟩,
  ⟨5785, "emergency_preparedness", "BehavioralDomain"⟩,
  ⟨5786, "time_management", "BehavioralDomain"⟩,
  ⟨5787, "environment_optimization", "BehavioralDomain"⟩,
  ⟨5788, "minimalism_simplification", "BehavioralDomain"⟩,
  ⟨5789, "sustainability_practices", "BehavioralDomain"⟩,
  ⟨5790, "travel_adaptation", "BehavioralDomain"⟩,
  ⟨5791, "creative_flow", "BehavioralDomain"⟩,
  ⟨5792, "artistic_expression", "BehavioralDomain"⟩,
  ⟨5793, "innovation_thinking", "BehavioralDomain"⟩,
  ⟨5794, "hobby_engagement", "BehavioralDomain"⟩,
  ⟨5795, "aging_adaptation", "BehavioralDomain"⟩,
  ⟨5796, "retirement_transition", "BehavioralDomain"⟩,
  ⟨5797, "legacy_building", "BehavioralDomain"⟩,
  ⟨5798, "generational_wisdom", "BehavioralDomain"⟩,
  ⟨5900, "frequency_measure", "BehavioralMetric"⟩,
  ⟨5901, "intensity_level", "BehavioralMetric"⟩,
  ⟨5902, "duration_tracked", "BehavioralMetric"⟩,
  ⟨5903, "consistency_score", "BehavioralMetric"⟩,
  ⟨5904, "trend_direction", "BehavioralMetric"⟩,
  ⟨5905, "variability_index", "BehavioralMetric"⟩,
  ⟨5906, "baseline_established", "BehavioralMetric"⟩,
  ⟨5907, "deviation_detected", "BehavioralMetric"⟩,
  ⟨5908, "pattern_strength", "BehavioralMetric"⟩,
  ⟨5909, "habit_score", "BehavioralMetric"⟩,
  ⟨5920, "improvement_rate", "BehavioralMetric"⟩,
  ⟨5921, "goal_proximity", "BehavioralMetric"⟩,
  ⟨5922, "milestone_reached", "BehavioralMetric"⟩,
  ⟨5923, "setback_recorded", "BehavioralMetric"⟩,
  ⟨5924, "recovery_time", "BehavioralMetric"⟩,
  ⟨5925, "momentum_score", "BehavioralMetric"⟩,
  ⟨5926, "breakthrough_moment", "BehavioralMetric"⟩,
  ⟨5927, "plateau_detected", "BehavioralMetric"⟩,
  ⟨5940, "behavior_initiated", "BehavioralMetric"⟩,
  ⟨5941, "behavior_maintained", "BehavioralMetric"⟩
]

def rawCodesChunk7 : List RawCode := [
  ⟨5942, "behavior_strengthened", "BehavioralMetric"⟩,
  ⟨5943, "behavior_weakened", "BehavioralMetric"⟩,
  ⟨5944, "behavior_extinct", "BehavioralMetric"⟩,
  ⟨5945, "behavior_relapsed", "BehavioralMetric"⟩,
  ⟨5946, "behavior_transformed", "BehavioralMetric"⟩,
  ⟨5947, "behavior_integrated", "BehavioralMetric"⟩,
  ⟨5960, "intervention_applied", "BehavioralMetric"⟩,
  ⟨5961, "intervention_effective", "BehavioralMetric"⟩,
  ⟨5962, "intervention_ineffective", "BehavioralMetric"⟩,
  ⟨5963, "strategy_adjusted", "BehavioralMetric"⟩,
  ⟨5964, "support_activated", "BehavioralMetric"⟩,
  ⟨5965, "resistance_encountered", "BehavioralMetric"⟩,
  ⟨5966, "breakthrough_achieved", "BehavioralMetric"⟩,
  ⟨5980, "pattern_identified", "BehavioralMetric"⟩,
  ⟨5981, "correlation_found", "BehavioralMetric"⟩,
  ⟨5982, "prediction_generated", "BehavioralMetric"⟩,
  ⟨5983, "insight_discovered", "BehavioralMetric"⟩,
  ⟨5984, "recommendation_created", "BehavioralMetric"⟩,
  ⟨5985, "risk_assessed", "BehavioralMetric"⟩,
  ⟨5986, "opportunity_identified", "BehavioralMetric"⟩,
  ⟨15000, "pattern_detected", "BehavioralPrediction"⟩,
  ⟨15001, "behavior_predicted", "BehavioralPrediction"⟩,
  ⟨15002, "anomaly_identified", "BehavioralPrediction"⟩,
  ⟨15003, "trend_forecasted", "BehavioralPrediction"⟩,
  ⟨15004, "churn_risk_high", "BehavioralPrediction"⟩,
  ⟨15005, "engagement_declining", "BehavioralPrediction"⟩,
  ⟨15200, "intervention_recommended", "BehavioralPrediction"⟩,
  ⟨15201, "personalization_applied", "BehavioralPrediction"⟩,
  ⟨15202, "offer_triggered", "BehavioralPrediction"⟩,
  ⟨15203, "content_adapted", "BehavioralPrediction"⟩,
  ⟨15204, "workflow_optimized", "BehavioralPrediction"⟩,
  ⟨15400, "model_improved", "BehavioralPrediction"⟩,
  ⟨15401, "accuracy_increased", "BehavioralPrediction"⟩,
  ⟨15402, "false_positive_reduced", "BehavioralPrediction"⟩,
  ⟨15403, "prediction_validated", "BehavioralPrediction"⟩,
  ⟨15404, "feedback_incorporated", "BehavioralPrediction"⟩,
  ⟨6100, "transaction_initiated", "BusinessEvent"⟩,
  ⟨6101, "transaction_authorized", "BusinessEvent"⟩,
  ⟨6102, "transaction_completed", "BusinessEvent"⟩,
  ⟨6103, "transaction_failed", "BusinessEvent"⟩,
  ⟨6104, "transaction_reversed", "BusinessEvent"⟩,
  ⟨6105, "transaction_disputed", "BusinessEvent"⟩,
  ⟨6120, "order_placed", "BusinessEvent"⟩,
  ⟨6121, "order_confirmed", "BusinessEvent"⟩,
  ⟨6122, "order_processed", "BusinessEvent"⟩,
  ⟨6123, "order_shipped", "BusinessEvent"⟩,
  ⟨6124, "order_delivered", "BusinessEvent"⟩,
  ⟨6125, "order_cancelled", "BusinessEvent"⟩,
  ⟨6126, "order_returned", "BusinessEvent"⟩,
  ⟨6140, "customer_registered", "BusinessEvent"⟩,
  ⟨6141, "customer_verified", "BusinessEvent"⟩,
  ⟨6142, "customer_upgraded", "BusinessEvent"⟩,
  ⟨6143, "customer_downgraded", "BusinessEvent"⟩,
  ⟨6144, "customer_churned", "BusinessEvent"⟩,
  ⟨6145, "customer_reactivated", "BusinessEvent"⟩,
  ⟨6160, "invoice_generated", "BusinessEvent"⟩,
  ⟨6161, "payment_received", "BusinessEvent"⟩,
  ⟨6162, "payment_failed", "BusinessEvent"⟩,
  ⟨6163, "refund_issued", "BusinessEvent"⟩,
  ⟨6164, "credit_applied", "BusinessEvent"⟩
]

def rawCodesChunk8 : List RawCode := [
  ⟨6165, "subscription_renewed", "BusinessEvent"⟩,
  ⟨6000, "order_processing", "BusinessProcess"⟩,
  ⟨6001, "payment_processing", "BusinessProcess"⟩,
  ⟨6002, "inventory_management", "BusinessProcess"⟩,
  ⟨6003, "customer_onboarding", "BusinessProcess"⟩,
  ⟨6004, "account_management", "BusinessProcess"⟩,
  ⟨6005, "billing_cycle", "BusinessProcess"⟩,
  ⟨6020, "ticket_management", "BusinessProcess"⟩,
  ⟨6021, "complaint_handling", "BusinessProcess"⟩,
  ⟨6022, "refund_processing", "BusinessProcess"⟩,
  ⟨6023, "escalation_process", "BusinessProcess"⟩,
  ⟨6024, "feedback_collection", "BusinessProcess"⟩,
  ⟨6040, "approval_workflow", "BusinessProcess"⟩,
  ⟨6041, "document_processing", "BusinessProcess"⟩,
  ⟨6042, "compliance_check", "BusinessProcess"⟩,
  ⟨6043, "audit_process", "BusinessProcess"⟩,
  ⟨6044, "reporting_process", "BusinessProcess"⟩,
  ⟨6060, "data_analysis", "BusinessProcess"⟩,
  ⟨6061, "report_generation", "BusinessProcess"⟩,
  ⟨6062, "dashboard_update", "BusinessProcess"⟩,
  ⟨6063, "kpi_calculation", "BusinessProcess"⟩,
  ⟨6064, "trend_analysis", "BusinessProcess"⟩,
  ⟨6600, "field_validation", "BusinessRule"⟩,
  ⟨6601, "format_validation", "BusinessRule"⟩,
  ⟨6602, "range_validation", "BusinessRule"⟩,
  ⟨6603, "dependency_validation", "BusinessRule"⟩,
  ⟨6604, "consistency_check", "BusinessRule"⟩,
  ⟨6605, "completeness_check", "BusinessRule"⟩,
  ⟨6620, "price_calculation", "BusinessRule"⟩,
  ⟨6621, "tax_calculation", "BusinessRule"⟩,
  ⟨6622, "discount_calculation", "BusinessRule"⟩,
  ⟨6623, "fee_calculation", "BusinessRule"⟩,
  ⟨6624, "commission_calculation", "BusinessRule"⟩,
  ⟨6625, "interest_calculation", "BusinessRule"⟩,
  ⟨6640, "access_policy", "BusinessRule"⟩,
  ⟨6641, "retention_policy", "BusinessRule"⟩,
  ⟨6642, "escalation_policy", "BusinessRule"⟩,
  ⟨6643, "approval_policy", "BusinessRule"⟩,
  ⟨6644, "security_policy", "BusinessRule"⟩,
  ⟨6645, "compliance_policy", "BusinessRule"⟩,
  ⟨6660, "limit_check", "BusinessRule"⟩,
  ⟨6661, "quota_check", "BusinessRule"⟩,
  ⟨6662, "capacity_check", "BusinessRule"⟩,
  ⟨6663, "availability_check", "BusinessRule"⟩,
  ⟨6664, "compatibility_check", "BusinessRule"⟩,
  ⟨4600, "cache_get", "CacheOperation"⟩,
  ⟨4601, "cache_set", "CacheOperation"⟩,
  ⟨4602, "cache_delete", "CacheOperation"⟩,
  ⟨4603, "cache_hit", "CacheOperation"⟩,
  ⟨4604, "cache_miss", "CacheOperation"⟩,
  ⟨4605, "cache_expired", "CacheOperation"⟩,
  ⟨4620, "cache_cleared", "CacheOperation"⟩,
  ⟨4621, "cache_warmed", "CacheOperation"⟩,
  ⟨4622, "cache_invalidated", "CacheOperation"⟩,
  ⟨4623, "cache_refreshed", "CacheOperation"⟩,
  ⟨4624, "cache_resized", "CacheOperation"⟩,
  ⟨4640, "lru_eviction", "CacheOperation"⟩,
  ⟨4641, "lfu_eviction", "CacheOperation"⟩,
  ⟨4642, "ttl_eviction", "CacheOperation"⟩,
  ⟨4643, "write_through", "CacheOperation"⟩
]

def rawCodesChunk9 : List RawCode := [
  ⟨4644, "write_back", "CacheOperation"⟩,
  ⟨4645, "write_around", "CacheOperation"⟩,
  ⟨4660, "cache_replicated", "CacheOperation"⟩,
  ⟨4661, "cache_partitioned", "CacheOperation"⟩,
  ⟨4662, "cache_node_added", "CacheOperation"⟩,
  ⟨4663, "cache_node_removed", "CacheOperation"⟩,
  ⟨4664, "cache_rebalanced", "CacheOperation"⟩,
  ⟨500, "message_sent", "CommunicationEvent"⟩,
  ⟨501, "message_received", "CommunicationEvent"⟩,
  ⟨502, "message_processed", "CommunicationEvent"⟩,
  ⟨503, "message_failed", "CommunicationEvent"⟩,
  ⟨504, "message_retry", "CommunicationEvent"⟩,
  ⟨505, "message_expired", "CommunicationEvent"⟩,
  ⟨506, "message_acknowledged", "CommunicationEvent"⟩,
  ⟨507, "message_rejected", "CommunicationEvent"⟩,
  ⟨520, "request_sent", "CommunicationEvent"⟩,
  ⟨521, "request_received", "CommunicationEvent"⟩,
  ⟨522, "response_sent", "CommunicationEvent"⟩,
  ⟨523, "response_received", "CommunicationEvent"⟩,
  ⟨524, "request_timeout", "CommunicationEvent"⟩,
  ⟨525, "request_cancelled", "CommunicationEvent"⟩,
  ⟨526, "response_cached", "CommunicationEvent"⟩,
  ⟨527, "cache_hit", "CommunicationEvent"⟩,
  ⟨528, "cache_miss", "CommunicationEvent"⟩,
  ⟨540, "stream_started", "CommunicationEvent"⟩,
  ⟨541, "stream_data", "CommunicationEvent"⟩,
  ⟨542, "stream_paused", "CommunicationEvent"⟩,
  ⟨543, "stream_resumed", "CommunicationEvent"⟩,
  ⟨544, "stream_ended", "CommunicationEvent"⟩,
  ⟨545, "stream_error", "CommunicationEvent"⟩,
  ⟨546, "buffer_full", "CommunicationEvent"⟩,
  ⟨547, "buffer_empty", "CommunicationEvent"⟩,
  ⟨560, "connection_established", "CommunicationEvent"⟩,
  ⟨561, "connection_lost", "CommunicationEvent"⟩,
  ⟨562, "connection_restored", "CommunicationEvent"⟩,
  ⟨563, "handshake_started", "CommunicationEvent"⟩,
  ⟨564, "handshake_completed", "CommunicationEvent"⟩,
  ⟨565, "handshake_failed", "CommunicationEvent"⟩,
  ⟨566, "protocol_error", "CommunicationEvent"⟩,
  ⟨567, "protocol_upgraded", "CommunicationEvent"⟩,
  ⟨2200, "container_requested", "ContainerLifecycle"⟩,
  ⟨2201, "container_provisioning", "ContainerLifecycle"⟩,
  ⟨2202, "container_created", "ContainerLifecycle"⟩,
  ⟨2203, "container_configured", "ContainerLifecycle"⟩,
  ⟨2204, "container_initializing", "ContainerLifecycle"⟩,
  ⟨2205, "container_initialized", "ContainerLifecycle"⟩,
  ⟨2220, "container_starting", "ContainerLifecycle"⟩,
  ⟨2221, "container_started", "ContainerLifecycle"⟩,
  ⟨2222, "container_ready", "ContainerLifecycle"⟩,
  ⟨2223, "container_healthy", "ContainerLifecycle"⟩,
  ⟨2224, "container_unhealthy", "ContainerLifecycle"⟩,
  ⟨2225, "container_degraded", "ContainerLifecycle"⟩,
  ⟨2240, "container_updating", "ContainerLifecycle"⟩,
  ⟨2241, "container_draining", "ContainerLifecycle"⟩,
  ⟨2242, "container_paused", "ContainerLifecycle"⟩,
  ⟨2243, "container_suspended", "ContainerLifecycle"⟩,
  ⟨2244, "container_hibernating", "ContainerLifecycle"⟩,
  ⟨2245, "container_maintenance", "ContainerLifecycle"⟩,
  ⟨2260, "container_stopping", "ContainerLifecycle"⟩,
  ⟨2261, "container_stopped", "ContainerLifecycle"⟩
]

def rawCodesChunk10 : List RawCode := [
  ⟨2262, "container_terminating", "ContainerLifecycle"⟩,
  ⟨2263, "container_terminated", "ContainerLifecycle"⟩,
  ⟨2264, "container_failed", "ContainerLifecycle"⟩,
  ⟨2265, "container_crashed", "ContainerLifecycle"⟩,
  ⟨2500, "deployment_started", "ContainerManagement"⟩,
  ⟨2501, "deployment_progress", "ContainerManagement"⟩,
  ⟨2502, "deployment_completed", "ContainerManagement"⟩,
  ⟨2503, "deployment_failed", "ContainerManagement"⟩,
  ⟨2504, "deployment_rolled_back", "ContainerManagement"⟩,
  ⟨2505, "blue_green_switch", "ContainerManagement"⟩,
  ⟨2506, "canary_deployed", "ContainerManagement"⟩,
  ⟨2520, "update_started", "ContainerManagement"⟩,
  ⟨2521, "update_downloading", "ContainerManagement"⟩,
  ⟨2522, "update_applying", "ContainerManagement"⟩,
  ⟨2523, "update_completed", "ContainerManagement"⟩,
  ⟨2524, "update_failed", "ContainerManagement"⟩,
  ⟨2525, "rollback_initiated", "ContainerManagement"⟩,
  ⟨2526, "rollback_completed", "ContainerManagement"⟩,
  ⟨2540, "backup_started", "ContainerManagement"⟩,
  ⟨2541, "backup_completed", "ContainerManagement"⟩,
  ⟨2542, "backup_failed", "ContainerManagement"⟩,
  ⟨2543, "restore_started", "ContainerManagement"⟩,
  ⟨2544, "restore_completed", "ContainerManagement"⟩,
  ⟨2545, "restore_failed", "ContainerManagement"⟩,
  ⟨2546, "snapshot_created", "ContainerManagement"⟩,
  ⟨2547, "snapshot_deleted", "ContainerManagement"⟩,
  ⟨2560, "migration_started", "ContainerManagement"⟩,
  ⟨2561, "migration_progress", "ContainerManagement"⟩,
  ⟨2562, "migration_completed", "ContainerManagement"⟩,
  ⟨2563, "migration_failed", "ContainerManagement"⟩,
  ⟨2564, "data_sync_started", "ContainerManagement"⟩,
  ⟨2565, "data_sync_completed", "ContainerManagement"⟩,
  ⟨2300, "container_scheduled", "ContainerOrchestration"⟩,
  ⟨2301, "container_rescheduled", "ContainerOrchestration"⟩,
  ⟨2302, "container_assigned", "ContainerOrchestration"⟩,
  ⟨2303, "container_evicted", "ContainerOrchestration"⟩,
  ⟨2304, "placement_constraint_met", "ContainerOrchestration"⟩,
  ⟨2305, "placement_constraint_failed", "ContainerOrchestration"⟩,
  ⟨2320, "scale_up_initiated", "ContainerOrchestration"⟩,
  ⟨2321, "scale_down_initiated", "ContainerOrchestration"⟩,
  ⟨2322, "replica_added", "ContainerOrchestration"⟩,
  ⟨2323, "replica_removed", "ContainerOrchestration"⟩,
  ⟨2324, "auto_scale_triggered", "ContainerOrchestration"⟩,
  ⟨2325, "scale_limit_reached", "ContainerOrchestration"⟩,
  ⟨2340, "load_balanced", "ContainerOrchestration"⟩,
  ⟨2341, "backend_added", "ContainerOrchestration"⟩,
  ⟨2342, "backend_removed", "ContainerOrchestration"⟩,
  ⟨2343, "health_check_passed", "ContainerOrchestration"⟩,
  ⟨2344, "health_check_failed", "ContainerOrchestration"⟩,
  ⟨2345, "circuit_breaker_open", "ContainerOrchestration"⟩,
  ⟨2346, "circuit_breaker_closed", "ContainerOrchestration"⟩,
  ⟨2360, "service_registered", "ContainerOrchestration"⟩,
  ⟨2361, "service_deregistered", "ContainerOrchestration"⟩,
  ⟨2362, "service_discovered", "ContainerOrchestration"⟩,
  ⟨2363, "endpoint_added", "ContainerOrchestration"⟩,
  ⟨2364, "endpoint_removed", "ContainerOrchestration"⟩,
  ⟨2365, "dns_updated", "ContainerOrchestration"⟩,
  ⟨2400, "cpu_allocated", "ContainerResource"⟩,
  ⟨2401, "cpu_limit_set", "ContainerResource"⟩,
  ⟨2402, "cpu_throttled", "ContainerResource"⟩
]

def rawCodesChunk11 : List RawCode := [
  ⟨2403, "cpu_burst", "ContainerResource"⟩,
  ⟨2404, "cpu_quota_exceeded", "ContainerResource"⟩,
  ⟨2420, "memory_allocated", "ContainerResource"⟩,
  ⟨2421, "memory_limit_set", "ContainerResource"⟩,
  ⟨2422, "memory_pressure", "ContainerResource"⟩,
  ⟨2423, "memory_oom", "ContainerResource"⟩,
  ⟨2424, "memory_swap_enabled", "ContainerResource"⟩,
  ⟨2440, "storage_allocated", "ContainerResource"⟩,
  ⟨2441, "storage_mounted", "ContainerResource"⟩,
  ⟨2442, "storage_unmounted", "ContainerResource"⟩,
  ⟨2443, "storage_full", "ContainerResource"⟩,
  ⟨2444, "storage_expanded", "ContainerResource"⟩,
  ⟨2460, "network_attached", "ContainerResource"⟩,
  ⟨2461, "network_detached", "ContainerResource"⟩,
  ⟨2462, "bandwidth_allocated", "ContainerResource"⟩,
  ⟨2463, "bandwidth_throttled", "ContainerResource"⟩,
  ⟨2464, "port_allocated", "ContainerResource"⟩,
  ⟨2465, "port_released", "ContainerResource"⟩,
  ⟨2000, "web_server", "ContainerType"⟩,
  ⟨2001, "app_server", "ContainerType"⟩,
  ⟨2002, "api_gateway", "ContainerType"⟩,
  ⟨2003, "load_balancer", "ContainerType"⟩,
  ⟨2004, "reverse_proxy", "ContainerType"⟩,
  ⟨2005, "cdn_node", "ContainerType"⟩,
  ⟨2006, "edge_server", "ContainerType"⟩,
  ⟨2020, "database_primary", "ContainerType"⟩,
  ⟨2021, "database_replica", "ContainerType"⟩,
  ⟨2022, "database_cache", "ContainerType"⟩,
  ⟨2023, "database_shard", "ContainerType"⟩,
  ⟨2024, "database_proxy", "ContainerType"⟩,
  ⟨2040, "message_broker", "ContainerType"⟩,
  ⟨2041, "queue_worker", "ContainerType"⟩,
  ⟨2042, "event_bus", "ContainerType"⟩,
  ⟨2043, "stream_processor", "ContainerType"⟩,
  ⟨2060, "metrics_collector", "ContainerType"⟩,
  ⟨2061, "log_aggregator", "ContainerType"⟩,
  ⟨2062, "trace_collector", "ContainerType"⟩,
  ⟨2063, "health_monitor", "ContainerType"⟩,
  ⟨2064, "alert_manager", "ContainerType"⟩,
  ⟨2080, "firewall", "ContainerType"⟩,
  ⟨2081, "ids", "ContainerType"⟩,
  ⟨2082, "ips", "ContainerType"⟩,
  ⟨2083, "waf", "ContainerType"⟩,
  ⟨2084, "security_scanner", "ContainerType"⟩,
  ⟨2100, "file_storage", "ContainerType"⟩,
  ⟨2101, "object_storage", "ContainerType"⟩,
  ⟨2102, "block_storage", "ContainerType"⟩,
  ⟨2103, "backup_storage", "ContainerType"⟩,
  ⟨2120, "compute_node", "ContainerType"⟩,
  ⟨2121, "batch_processor", "ContainerType"⟩,
  ⟨2122, "job_scheduler", "ContainerType"⟩,
  ⟨2123, "task_runner", "ContainerType"⟩,
  ⟨2140, "network_router", "ContainerType"⟩,
  ⟨2141, "vpn_gateway", "ContainerType"⟩,
  ⟨2142, "nat_gateway", "ContainerType"⟩,
  ⟨2143, "dns_server", "ContainerType"⟩,
  ⟨2144, "dhcp_server", "ContainerType"⟩,
  ⟨4400, "extract_started", "DataOperation"⟩,
  ⟨4401, "transform_started", "DataOperation"⟩,
  ⟨4402, "load_started", "DataOperation"⟩
]

def rawCodesChunk12 : List RawCode := [
  ⟨4403, "etl_completed", "DataOperation"⟩,
  ⟨4404, "etl_failed", "DataOperation"⟩,
  ⟨4420, "data_validated", "DataOperation"⟩,
  ⟨4421, "data_cleansed", "DataOperation"⟩,
  ⟨4422, "data_enriched", "DataOperation"⟩,
  ⟨4423, "data_deduplicated", "DataOperation"⟩,
  ⟨4424, "data_standardized", "DataOperation"⟩,
  ⟨4440, "data_imported", "DataOperation"⟩,
  ⟨4441, "data_exported", "DataOperation"⟩,
  ⟨4442, "data_migrated", "DataOperation"⟩,
  ⟨4443, "data_synced", "DataOperation"⟩,
  ⟨4444, "data_archived", "DataOperation"⟩,
  ⟨4445, "data_purged", "DataOperation"⟩,
  ⟨4460, "aggregation_started", "DataOperation"⟩,
  ⟨4461, "calculation_performed", "DataOperation"⟩,
  ⟨4462, "report_generated", "DataOperation"⟩,
  ⟨4463, "dashboard_updated", "DataOperation"⟩,
  ⟨4464, "metric_calculated", "DataOperation"⟩,
  ⟨4100, "db_connect", "DatabaseOperation"⟩,
  ⟨4101, "db_disconnect", "DatabaseOperation"⟩,
  ⟨4102, "db_query", "DatabaseOperation"⟩,
  ⟨4103, "db_insert", "DatabaseOperation"⟩,
  ⟨4104, "db_update", "DatabaseOperation"⟩,
  ⟨4105, "db_delete", "DatabaseOperation"⟩,
  ⟨4106, "db_transaction_start", "DatabaseOperation"⟩,
  ⟨4107, "db_transaction_commit", "DatabaseOperation"⟩,
  ⟨4108, "db_transaction_rollback", "DatabaseOperation"⟩,
  ⟨4120, "db_backup", "DatabaseOperation"⟩,
  ⟨4121, "db_restore", "DatabaseOperation"⟩,
  ⟨4122, "db_replicate", "DatabaseOperation"⟩,
  ⟨4123, "db_migrate", "DatabaseOperation"⟩,
  ⟨4124, "db_optimize", "DatabaseOperation"⟩,
  ⟨4125, "db_vacuum", "DatabaseOperation"⟩,
  ⟨4126, "db_analyze", "DatabaseOperation"⟩,
  ⟨4140, "index_create", "DatabaseOperation"⟩,
  ⟨4141, "index_drop", "DatabaseOperation"⟩,
  ⟨4142, "index_rebuild", "DatabaseOperation"⟩,
  ⟨4143, "index_optimize", "DatabaseOperation"⟩,
  ⟨4144, "index_scan", "DatabaseOperation"⟩,
  ⟨4160, "schema_create", "DatabaseOperation"⟩,
  ⟨4161, "schema_alter", "DatabaseOperation"⟩,
  ⟨4162, "schema_drop", "DatabaseOperation"⟩,
  ⟨4163, "schema_migrate", "DatabaseOperation"⟩,
  ⟨4164, "schema_validate", "DatabaseOperation"⟩,
  ⟨4000, "postgresql", "DatabaseType"⟩,
  ⟨4001, "mysql", "DatabaseType"⟩,
  ⟨4002, "mariadb", "DatabaseType"⟩,
  ⟨4003, "oracle", "DatabaseType"⟩,
  ⟨4004, "sql_server", "DatabaseType"⟩,
  ⟨4005, "sqlite", "DatabaseType"⟩,
  ⟨4020, "mongodb", "DatabaseType"⟩,
  ⟨4021, "cassandra", "DatabaseType"⟩,
  ⟨4022, "dynamodb", "DatabaseType"⟩,
  ⟨4023, "couchdb", "DatabaseType"⟩,
  ⟨4024, "redis", "DatabaseType"⟩,
  ⟨4025, "elasticsearch", "DatabaseType"⟩,
  ⟨4040, "timeseries_db", "DatabaseType"⟩,
  ⟨4041, "graph_db", "DatabaseType"⟩,
  ⟨4042, "vector_db", "DatabaseType"⟩,
  ⟨4043, "document_db", "DatabaseType"⟩
]

def rawCodesChunk13 : List RawCode := [
  ⟨4044, "key_value_db", "DatabaseType"⟩,
  ⟨4045, "object_db", "DatabaseType"⟩,
  ⟨4060, "snowflake", "DatabaseType"⟩,
  ⟨4061, "redshift", "DatabaseType"⟩,
  ⟨4062, "bigquery", "DatabaseType"⟩,
  ⟨4063, "synapse", "DatabaseType"⟩,
  ⟨4064, "clickhouse", "DatabaseType"⟩,
  ⟨6400, "approval_pending", "DecisionPoint"⟩,
  ⟨6401, "approval_granted", "DecisionPoint"⟩,
  ⟨6402, "approval_denied", "DecisionPoint"⟩,
  ⟨6403, "approval_escalated", "DecisionPoint"⟩,
  ⟨6404, "approval_expired", "DecisionPoint"⟩,
  ⟨6405, "approval_delegated", "DecisionPoint"⟩,
  ⟨6420, "credit_check", "DecisionPoint"⟩,
  ⟨6421, "risk_assessment", "DecisionPoint"⟩,
  ⟨6422, "eligibility_check", "DecisionPoint"⟩,
  ⟨6423, "pricing_decision", "DecisionPoint"⟩,
  ⟨6424, "routing_decision", "DecisionPoint"⟩,
  ⟨6425, "priority_decision", "DecisionPoint"⟩,
  ⟨6440, "rule_evaluated", "DecisionPoint"⟩,
  ⟨6441, "threshold_checked", "DecisionPoint"⟩,
  ⟨6442, "policy_applied", "DecisionPoint"⟩,
  ⟨6443, "algorithm_executed", "DecisionPoint"⟩,
  ⟨6444, "ml_prediction", "DecisionPoint"⟩,
  ⟨6445, "score_calculated", "DecisionPoint"⟩,
  ⟨6460, "manual_review", "DecisionPoint"⟩,
  ⟨6461, "expert_opinion", "DecisionPoint"⟩,
  ⟨6462, "override_applied", "DecisionPoint"⟩,
  ⟨6463, "exception_granted", "DecisionPoint"⟩,
  ⟨6464, "waiver_approved", "DecisionPoint"⟩,
  ⟨3500, "rolling_update", "DeploymentType"⟩,
  ⟨3501, "blue_green", "DeploymentType"⟩,
  ⟨3502, "canary", "DeploymentType"⟩,
  ⟨3503, "feature_flag", "DeploymentType"⟩,
  ⟨3504, "a_b_testing", "DeploymentType"⟩,
  ⟨3505, "shadow", "DeploymentType"⟩,
  ⟨3520, "development", "DeploymentType"⟩,
  ⟨3521, "testing", "DeploymentType"⟩,
  ⟨3522, "staging", "DeploymentType"⟩,
  ⟨3523, "production", "DeploymentType"⟩,
  ⟨3524, "disaster_recovery", "DeploymentType"⟩,
  ⟨3525, "demo", "DeploymentType"⟩,
  ⟨3526, "sandbox", "DeploymentType"⟩,
  ⟨3540, "on_premise", "DeploymentType"⟩,
  ⟨3541, "cloud", "DeploymentType"⟩,
  ⟨3542, "hybrid", "DeploymentType"⟩,
  ⟨3543, "edge", "DeploymentType"⟩,
  ⟨3544, "mobile", "DeploymentType"⟩,
  ⟨3545, "iot", "DeploymentType"⟩,
  ⟨3560, "aws", "DeploymentType"⟩,
  ⟨3561, "azure", "DeploymentType"⟩,
  ⟨3562, "gcp", "DeploymentType"⟩,
  ⟨3563, "alibaba", "DeploymentType"⟩,
  ⟨3564, "ibm_cloud", "DeploymentType"⟩,
  ⟨3565, "oracle_cloud", "DeploymentType"⟩,
  ⟨3566, "digital_ocean", "DeploymentType"⟩,
  ⟨6800, "cart_updated", "DomainSpecific"⟩,
  ⟨6801, "checkout_started", "DomainSpecific"⟩,
  ⟨6802, "payment_processed", "DomainSpecific"⟩,
  ⟨6803, "inventory_updated", "DomainSpecific"⟩
]

def rawCodesChunk14 : List RawCode := [
  ⟨6804, "shipping_calculated", "DomainSpecific"⟩,
  ⟨6805, "tracking_updated", "DomainSpecific"⟩,
  ⟨6820, "appointment_scheduled", "DomainSpecific"⟩,
  ⟨6821, "prescription_created", "DomainSpecific"⟩,
  ⟨6822, "lab_result_received", "DomainSpecific"⟩,
  ⟨6823, "insurance_verified", "DomainSpecific"⟩,
  ⟨6824, "patient_admitted", "DomainSpecific"⟩,
  ⟨6825, "patient_discharged", "DomainSpecific"⟩,
  ⟨6840, "account_opened", "DomainSpecific"⟩,
  ⟨6841, "transaction_posted", "DomainSpecific"⟩,
  ⟨6842, "statement_generated", "DomainSpecific"⟩,
  ⟨6843, "fraud_detected", "DomainSpecific"⟩,
  ⟨6844, "loan_approved", "DomainSpecific"⟩,
  ⟨6845, "investment_executed", "DomainSpecific"⟩,
  ⟨6860, "production_started", "DomainSpecific"⟩,
  ⟨6861, "quality_check", "DomainSpecific"⟩,
  ⟨6862, "defect_detected", "DomainSpecific"⟩,
  ⟨6863, "batch_completed", "DomainSpecific"⟩,
  ⟨6864, "maintenance_scheduled", "DomainSpecific"⟩,
  ⟨6865, "equipment_failure", "DomainSpecific"⟩,
  ⟨400, "error_occurred", "ErrorEvent"⟩,
  ⟨401, "exception_thrown", "ErrorEvent"⟩,
  ⟨402, "validation_error", "ErrorEvent"⟩,
  ⟨403, "business_rule_violation", "ErrorEvent"⟩,
  ⟨404, "constraint_violation", "ErrorEvent"⟩,
  ⟨405, "data_integrity_error", "ErrorEvent"⟩,
  ⟨406, "concurrency_error", "ErrorEvent"⟩,
  ⟨407, "timeout_error", "ErrorEvent"⟩,
  ⟨420, "system_error", "ErrorEvent"⟩,
  ⟨421, "service_unavailable", "ErrorEvent"⟩,
  ⟨422, "dependency_error", "ErrorEvent"⟩,
  ⟨423, "network_error", "ErrorEvent"⟩,
  ⟨424, "database_error", "ErrorEvent"⟩,
  ⟨425, "file_system_error", "ErrorEvent"⟩,
  ⟨426, "memory_error", "ErrorEvent"⟩,
  ⟨427, "hardware_error", "ErrorEvent"⟩,
  ⟨440, "application_error", "ErrorEvent"⟩,
  ⟨441, "logic_error", "ErrorEvent"⟩,
  ⟨442, "state_error", "ErrorEvent"⟩,
  ⟨443, "configuration_error", "ErrorEvent"⟩,
  ⟨444, "permission_error", "ErrorEvent"⟩,
  ⟨445, "authentication_error", "ErrorEvent"⟩,
  ⟨446, "rate_limit_error", "ErrorEvent"⟩,
  ⟨447, "quota_exceeded_error", "ErrorEvent"⟩,
  ⟨460, "error_handled", "ErrorEvent"⟩,
  ⟨461, "error_logged", "ErrorEvent"⟩,
  ⟨462, "error_reported", "ErrorEvent"⟩,
  ⟨463, "recovery_attempted", "ErrorEvent"⟩,
  ⟨464, "recovery_succeeded", "ErrorEvent"⟩,
  ⟨465, "recovery_failed", "ErrorEvent"⟩,
  ⟨466, "fallback_activated", "ErrorEvent"⟩,
  ⟨467, "circuit_breaker_open", "ErrorEvent"⟩,
  ⟨468, "circuit_breaker_closed", "ErrorEvent"⟩,
  ⟨9000, "page_load", "FrontendEvent"⟩,
  ⟨9001, "page_view", "FrontendEvent"⟩,
  ⟨9002, "page_exit", "FrontendEvent"⟩,
  ⟨9003, "page_error", "FrontendEvent"⟩,
  ⟨9004, "page_refresh", "FrontendEvent"⟩,
  ⟨9005, "route_change", "FrontendEvent"⟩,
  ⟨9020, "click", "FrontendEvent"⟩
]

def rawCodesChunk15 : List RawCode := [
  ⟨9021, "double_click", "FrontendEvent"⟩,
  ⟨9022, "right_click", "FrontendEvent"⟩,
  ⟨9023, "hover", "FrontendEvent"⟩,
  ⟨9024, "focus", "FrontendEvent"⟩,
  ⟨9025, "blur", "FrontendEvent"⟩,
  ⟨9026, "scroll", "FrontendEvent"⟩,
  ⟨9027, "swipe", "FrontendEvent"⟩,
  ⟨9040, "form_submit", "FrontendEvent"⟩,
  ⟨9041, "form_reset", "FrontendEvent"⟩,
  ⟨9042, "field_change", "FrontendEvent"⟩,
  ⟨9043, "field_validate", "FrontendEvent"⟩,
  ⟨9044, "field_error", "FrontendEvent"⟩,
  ⟨9045, "file_upload", "FrontendEvent"⟩,
  ⟨9060, "modal_open", "FrontendEvent"⟩,
  ⟨9061, "modal_close", "FrontendEvent"⟩,
  ⟨9062, "dropdown_open", "FrontendEvent"⟩,
  ⟨9063, "tab_switch", "FrontendEvent"⟩,
  ⟨9064, "accordion_toggle", "FrontendEvent"⟩,
  ⟨9065, "notification_show", "FrontendEvent"⟩,
  ⟨7000, "healthy", "HealthStatus"⟩,
  ⟨7001, "degraded", "HealthStatus"⟩,
  ⟨7002, "unhealthy", "HealthStatus"⟩,
  ⟨7003, "critical", "HealthStatus"⟩,
  ⟨7004, "unknown", "HealthStatus"⟩,
  ⟨7005, "recovering", "HealthStatus"⟩,
  ⟨7020, "service_up", "HealthStatus"⟩,
  ⟨7021, "service_down", "HealthStatus"⟩,
  ⟨7022, "service_degraded", "HealthStatus"⟩,
  ⟨7023, "service_maintenance", "HealthStatus"⟩,
  ⟨7024, "partial_outage", "HealthStatus"⟩,
  ⟨7025, "full_outage", "HealthStatus"⟩,
  ⟨7040, "component_healthy", "HealthStatus"⟩,
  ⟨7041, "component_warning", "HealthStatus"⟩,
  ⟨7042, "component_error", "HealthStatus"⟩,
  ⟨7043, "component_failing", "HealthStatus"⟩,
  ⟨7044, "dependency_unhealthy", "HealthStatus"⟩,
  ⟨7060, "system_optimal", "HealthStatus"⟩,
  ⟨7061, "system_stressed", "HealthStatus"⟩,
  ⟨7062, "system_overloaded", "HealthStatus"⟩,
  ⟨7063, "system_failing", "HealthStatus"⟩,
  ⟨7064, "resource_exhausted", "HealthStatus"⟩,
  ⟨10000, "patient_admitted", "IndustrySpecific"⟩,
  ⟨10001, "patient_discharged", "IndustrySpecific"⟩,
  ⟨10002, "medication_prescribed", "IndustrySpecific"⟩,
  ⟨10003, "lab_test_ordered", "IndustrySpecific"⟩,
  ⟨10004, "diagnosis_recorded", "IndustrySpecific"⟩,
  ⟨10005, "insurance_claimed", "IndustrySpecific"⟩,
  ⟨11000, "trade_executed", "IndustrySpecific"⟩,
  ⟨11001, "portfolio_rebalanced", "IndustrySpecific"⟩,
  ⟨11002, "risk_calculated", "IndustrySpecific"⟩,
  ⟨11003, "compliance_checked", "IndustrySpecific"⟩,
  ⟨11004, "fraud_detected", "IndustrySpecific"⟩,
  ⟨11005, "kyc_completed", "IndustrySpecific"⟩,
  ⟨12000, "product_viewed", "IndustrySpecific"⟩,
  ⟨12001, "cart_abandoned", "IndustrySpecific"⟩,
  ⟨12002, "wishlist_updated", "IndustrySpecific"⟩,
  ⟨12003, "review_submitted", "IndustrySpecific"⟩,
  ⟨12004, "recommendation_shown", "IndustrySpecific"⟩,
  ⟨12005, "promotion_applied", "IndustrySpecific"⟩,
  ⟨13000, "student_enrolled", "IndustrySpecific"⟩
]

def rawCodesChunk16 : List RawCode := [
  ⟨13001, "assignment_submitted", "IndustrySpecific"⟩,
  ⟨13002, "grade_posted", "IndustrySpecific"⟩,
  ⟨13003, "attendance_marked", "IndustrySpecific"⟩,
  ⟨13004, "course_completed", "IndustrySpecific"⟩,
  ⟨13005, "degree_awarded", "IndustrySpecific"⟩,
  ⟨14000, "permit_issued", "IndustrySpecific"⟩,
  ⟨14001, "license_renewed", "IndustrySpecific"⟩,
  ⟨14002, "tax_filed", "IndustrySpecific"⟩,
  ⟨14003, "benefit_claimed", "IndustrySpecific"⟩,
  ⟨14004, "citation_issued", "IndustrySpecific"⟩,
  ⟨14005, "public_record_updated", "IndustrySpecific"⟩,
  ⟨3000, "physical_server", "InfrastructureComponent"⟩,
  ⟨3001, "virtual_machine", "InfrastructureComponent"⟩,
  ⟨3002, "container_host", "InfrastructureComponent"⟩,
  ⟨3003, "kubernetes_node", "InfrastructureComponent"⟩,
  ⟨3004, "compute_cluster", "InfrastructureComponent"⟩,
  ⟨3020, "network_switch", "InfrastructureComponent"⟩,
  ⟨3021, "network_router", "InfrastructureComponent"⟩,
  ⟨3022, "firewall_device", "InfrastructureComponent"⟩,
  ⟨3023, "load_balancer_device", "InfrastructureComponent"⟩,
  ⟨3024, "vpn_concentrator", "InfrastructureComponent"⟩,
  ⟨3040, "san", "InfrastructureComponent"⟩,
  ⟨3041, "nas", "InfrastructureComponent"⟩,
  ⟨3042, "storage_array", "InfrastructureComponent"⟩,
  ⟨3043, "backup_device", "InfrastructureComponent"⟩,
  ⟨3044, "tape_library", "InfrastructureComponent"⟩,
  ⟨3060, "kubernetes_master", "InfrastructureComponent"⟩,
  ⟨3061, "etcd_cluster", "InfrastructureComponent"⟩,
  ⟨3062, "container_registry", "InfrastructureComponent"⟩,
  ⟨3063, "artifact_repository", "InfrastructureComponent"⟩,
  ⟨3064, "ci_cd_server", "InfrastructureComponent"⟩,
  ⟨700, "api_call_started", "IntegrationEvent"⟩,
  ⟨701, "api_call_completed", "IntegrationEvent"⟩,
  ⟨702, "api_call_failed", "IntegrationEvent"⟩,
  ⟨703, "api_rate_limited", "IntegrationEvent"⟩,
  ⟨704, "api_authenticated", "IntegrationEvent"⟩,
  ⟨705, "api_unauthorized", "IntegrationEvent"⟩,
  ⟨706, "webhook_received", "IntegrationEvent"⟩,
  ⟨707, "webhook_processed", "IntegrationEvent"⟩,
  ⟨720, "sync_started", "IntegrationEvent"⟩,
  ⟨721, "sync_progress", "IntegrationEvent"⟩,
  ⟨722, "sync_completed", "IntegrationEvent"⟩,
  ⟨723, "sync_failed", "IntegrationEvent"⟩,
  ⟨724, "data_imported", "IntegrationEvent"⟩,
  ⟨725, "data_exported", "IntegrationEvent"⟩,
  ⟨726, "batch_processed", "IntegrationEvent"⟩,
  ⟨727, "record_synced", "IntegrationEvent"⟩,
  ⟨740, "integration_connected", "IntegrationEvent"⟩,
  ⟨741, "integration_disconnected", "IntegrationEvent"⟩,
  ⟨742, "integration_healthy", "IntegrationEvent"⟩,
  ⟨743, "integration_degraded", "IntegrationEvent"⟩,
  ⟨744, "integration_failed", "IntegrationEvent"⟩,
  ⟨745, "credentials_updated", "IntegrationEvent"⟩,
  ⟨746, "token_refreshed", "IntegrationEvent"⟩,
  ⟨747, "certificate_renewed", "IntegrationEvent"⟩,
  ⟨760, "data_transformed", "IntegrationEvent"⟩,
  ⟨761, "schema_mapped", "IntegrationEvent"⟩,
  ⟨762, "format_converted", "IntegrationEvent"⟩,
  ⟨763, "validation_passed", "IntegrationEvent"⟩,
  ⟨764, "validation_failed", "IntegrationEvent"⟩
]

def rawCodesChunk17 : List RawCode := [
  ⟨765, "enrichment_applied", "IntegrationEvent"⟩,
  ⟨766, "filter_applied", "IntegrationEvent"⟩,
  ⟨767, "aggregation_completed", "IntegrationEvent"⟩,
  ⟨9400, "device_registered", "IoTEvent"⟩,
  ⟨9401, "device_connected", "IoTEvent"⟩,
  ⟨9402, "device_disconnected", "IoTEvent"⟩,
  ⟨9403, "device_updated", "IoTEvent"⟩,
  ⟨9404, "device_removed", "IoTEvent"⟩,
  ⟨9405, "firmware_updated", "IoTEvent"⟩,
  ⟨9420, "sensor_reading", "IoTEvent"⟩,
  ⟨9421, "temperature_reading", "IoTEvent"⟩,
  ⟨9422, "humidity_reading", "IoTEvent"⟩,
  ⟨9423, "pressure_reading", "IoTEvent"⟩,
  ⟨9424, "motion_detected", "IoTEvent"⟩,
  ⟨9425, "location_updated", "IoTEvent"⟩,
  ⟨9440, "device_online", "IoTEvent"⟩,
  ⟨9441, "device_offline", "IoTEvent"⟩,
  ⟨9442, "battery_status", "IoTEvent"⟩,
  ⟨9443, "signal_strength", "IoTEvent"⟩,
  ⟨9444, "device_error", "IoTEvent"⟩,
  ⟨9445, "maintenance_required", "IoTEvent"⟩,
  ⟨9460, "command_sent", "IoTEvent"⟩,
  ⟨9461, "command_received", "IoTEvent"⟩,
  ⟨9462, "command_executed", "IoTEvent"⟩,
  ⟨9463, "command_failed", "IoTEvent"⟩,
  ⟨9464, "config_updated", "IoTEvent"⟩,
  ⟨9465, "reboot_initiated", "IoTEvent"⟩,
  ⟨5600, "supervised_learning", "LearningEvent"⟩,
  ⟨5601, "unsupervised_learning", "LearningEvent"⟩,
  ⟨5602, "reinforcement_learning", "LearningEvent"⟩,
  ⟨5603, "transfer_learning", "LearningEvent"⟩,
  ⟨5604, "meta_learning", "LearningEvent"⟩,
  ⟨5605, "continual_learning", "LearningEvent"⟩,
  ⟨5620, "learning_started", "LearningEvent"⟩,
  ⟨5621, "learning_progress", "LearningEvent"⟩,
  ⟨5622, "learning_completed", "LearningEvent"⟩,
  ⟨5623, "knowledge_gained", "LearningEvent"⟩,
  ⟨5624, "skill_improved", "LearningEvent"⟩,
  ⟨5625, "concept_mastered", "LearningEvent"⟩,
  ⟨5640, "adaptation_triggered", "LearningEvent"⟩,
  ⟨5641, "behavior_adapted", "LearningEvent"⟩,
  ⟨5642, "strategy_adjusted", "LearningEvent"⟩,
  ⟨5643, "preference_learned", "LearningEvent"⟩,
  ⟨5644, "pattern_adapted", "LearningEvent"⟩,
  ⟨5645, "context_adapted", "LearningEvent"⟩,
  ⟨5660, "feedback_received", "LearningEvent"⟩,
  ⟨5661, "reward_calculated", "LearningEvent"⟩,
  ⟨5662, "penalty_applied", "LearningEvent"⟩,
  ⟨5663, "performance_evaluated", "LearningEvent"⟩,
  ⟨5664, "improvement_measured", "LearningEvent"⟩,
  ⟨7600, "log_written", "LoggingEvent"⟩,
  ⟨7601, "log_rotated", "LoggingEvent"⟩,
  ⟨7602, "log_archived", "LoggingEvent"⟩,
  ⟨7603, "log_deleted", "LoggingEvent"⟩,
  ⟨7604, "log_shipped", "LoggingEvent"⟩,
  ⟨7605, "log_indexed", "LoggingEvent"⟩,
  ⟨7620, "log_trace", "LoggingEvent"⟩,
  ⟨7621, "log_debug", "LoggingEvent"⟩,
  ⟨7622, "log_info", "LoggingEvent"⟩,
  ⟨7623, "log_warn", "LoggingEvent"⟩
]

def rawCodesChunk18 : List RawCode := [
  ⟨7624, "log_error", "LoggingEvent"⟩,
  ⟨7625, "log_fatal", "LoggingEvent"⟩,
  ⟨7640, "audit_started", "LoggingEvent"⟩,
  ⟨7641, "audit_completed", "LoggingEvent"⟩,
  ⟨7642, "audit_finding", "LoggingEvent"⟩,
  ⟨7643, "audit_violation", "LoggingEvent"⟩,
  ⟨7644, "audit_cleared", "LoggingEvent"⟩,
  ⟨7645, "audit_report", "LoggingEvent"⟩,
  ⟨7660, "log_parsed", "LoggingEvent"⟩,
  ⟨7661, "log_filtered", "LoggingEvent"⟩,
  ⟨7662, "log_aggregated", "LoggingEvent"⟩,
  ⟨7663, "log_correlated", "LoggingEvent"⟩,
  ⟨7664, "pattern_extracted", "LoggingEvent"⟩,
  ⟨8200, "message_published", "MessageQueueEvent"⟩,
  ⟨8201, "message_consumed", "MessageQueueEvent"⟩,
  ⟨8202, "message_acknowledged", "MessageQueueEvent"⟩,
  ⟨8203, "message_rejected", "MessageQueueEvent"⟩,
  ⟨8204, "message_requested", "MessageQueueEvent"⟩,
  ⟨8205, "message_expired", "MessageQueueEvent"⟩,
  ⟨8220, "queue_created", "MessageQueueEvent"⟩,
  ⟨8221, "queue_deleted", "MessageQueueEvent"⟩,
  ⟨8222, "queue_purged", "MessageQueueEvent"⟩,
  ⟨8223, "queue_bound", "MessageQueueEvent"⟩,
  ⟨8224, "queue_unbound", "MessageQueueEvent"⟩,
  ⟨8225, "dlq_message", "MessageQueueEvent"⟩,
  ⟨8240, "topic_created", "MessageQueueEvent"⟩,
  ⟨8241, "topic_deleted", "MessageQueueEvent"⟩,
  ⟨8242, "subscription_created", "MessageQueueEvent"⟩,
  ⟨8243, "subscription_deleted", "MessageQueueEvent"⟩,
  ⟨8244, "exchange_declared", "MessageQueueEvent"⟩,
  ⟨8245, "routing_key_set", "MessageQueueEvent"⟩,
  ⟨8260, "consumer_started", "MessageQueueEvent"⟩,
  ⟨8261, "consumer_stopped", "MessageQueueEvent"⟩,
  ⟨8262, "consumer_error", "MessageQueueEvent"⟩,
  ⟨8263, "consumer_rebalance", "MessageQueueEvent"⟩,
  ⟨8264, "consumer_lag", "MessageQueueEvent"⟩,
  ⟨7200, "response_time", "MetricType"⟩,
  ⟨7201, "throughput", "MetricType"⟩,
  ⟨7202, "latency", "MetricType"⟩,
  ⟨7203, "error_rate", "MetricType"⟩,
  ⟨7204, "success_rate", "MetricType"⟩,
  ⟨7205, "availability", "MetricType"⟩,
  ⟨7220, "cpu_usage", "MetricType"⟩,
  ⟨7221, "memory_usage", "MetricType"⟩,
  ⟨7222, "disk_usage", "MetricType"⟩,
  ⟨7223, "network_usage", "MetricType"⟩,
  ⟨7224, "bandwidth_usage", "MetricType"⟩,
  ⟨7225, "connection_count", "MetricType"⟩,
  ⟨7240, "transaction_count", "MetricType"⟩,
  ⟨7241, "revenue", "MetricType"⟩,
  ⟨7242, "conversion_rate", "MetricType"⟩,
  ⟨7243, "user_count", "MetricType"⟩,
  ⟨7244, "session_duration", "MetricType"⟩,
  ⟨7245, "bounce_rate", "MetricType"⟩,
  ⟨7260, "custom_counter", "MetricType"⟩,
  ⟨7261, "custom_gauge", "MetricType"⟩,
  ⟨7262, "custom_histogram", "MetricType"⟩,
  ⟨7263, "custom_summary", "MetricType"⟩,
  ⟨7264, "custom_timer", "MetricType"⟩,
  ⟨9200, "app_installed", "MobileAppEvent"⟩
]

def rawCodesChunk19 : List RawCode := [
  ⟨9201, "app_launched", "MobileAppEvent"⟩,
  ⟨9202, "app_foreground", "MobileAppEvent"⟩,
  ⟨9203, "app_background", "MobileAppEvent"⟩,
  ⟨9204, "app_terminated", "MobileAppEvent"⟩,
  ⟨9205, "app_updated", "MobileAppEvent"⟩,
  ⟨9206, "app_crashed", "MobileAppEvent"⟩,
  ⟨9220, "device_rotated", "MobileAppEvent"⟩,
  ⟨9221, "network_changed", "MobileAppEvent"⟩,
  ⟨9222, "battery_low", "MobileAppEvent"⟩,
  ⟨9223, "memory_warning", "MobileAppEvent"⟩,
  ⟨9224, "permission_granted", "MobileAppEvent"⟩,
  ⟨9225, "permission_denied", "MobileAppEvent"⟩,
  ⟨9240, "push_received", "MobileAppEvent"⟩,
  ⟨9241, "push_opened", "MobileAppEvent"⟩,
  ⟨9242, "push_dismissed", "MobileAppEvent"⟩,
  ⟨9243, "push_action", "MobileAppEvent"⟩,
  ⟨9244, "token_registered", "MobileAppEvent"⟩,
  ⟨9245, "token_refreshed", "MobileAppEvent"⟩,
  ⟨9260, "screen_view", "MobileAppEvent"⟩,
  ⟨9261, "button_tap", "MobileAppEvent"⟩,
  ⟨9262, "gesture_detected", "MobileAppEvent"⟩,
  ⟨9263, "deeplink_opened", "MobileAppEvent"⟩,
  ⟨9264, "share_initiated", "MobileAppEvent"⟩,
  ⟨9265, "purchase_initiated", "MobileAppEvent"⟩,
  ⟨7100, "monitor_started", "MonitoringEvent"⟩,
  ⟨7101, "monitor_stopped", "MonitoringEvent"⟩,
  ⟨7102, "probe_executed", "MonitoringEvent"⟩,
  ⟨7103, "check_performed", "MonitoringEvent"⟩,
  ⟨7104, "metric_collected", "MonitoringEvent"⟩,
  ⟨7105, "sample_taken", "MonitoringEvent"⟩,
  ⟨7120, "anomaly_detected", "MonitoringEvent"⟩,
  ⟨7121, "pattern_detected", "MonitoringEvent"⟩,
  ⟨7122, "trend_detected", "MonitoringEvent"⟩,
  ⟨7123, "spike_detected", "MonitoringEvent"⟩,
  ⟨7124, "drop_detected", "MonitoringEvent"⟩,
  ⟨7125, "baseline_deviation", "MonitoringEvent"⟩,
  ⟨7140, "threshold_set", "MonitoringEvent"⟩,
  ⟨7141, "threshold_adjusted", "MonitoringEvent"⟩,
  ⟨7142, "threshold_exceeded", "MonitoringEvent"⟩,
  ⟨7143, "threshold_warning", "MonitoringEvent"⟩,
  ⟨7144, "threshold_critical", "MonitoringEvent"⟩,
  ⟨7145, "threshold_cleared", "MonitoringEvent"⟩,
  ⟨7160, "monitor_configured", "MonitoringEvent"⟩,
  ⟨7161, "monitor_updated", "MonitoringEvent"⟩,
  ⟨7162, "monitor_disabled", "MonitoringEvent"⟩,
  ⟨7163, "monitor_enabled", "MonitoringEvent"⟩,
  ⟨7164, "schedule_changed", "MonitoringEvent"⟩,
  ⟨5800, "forward_pass", "NeuralNetworkEvent"⟩,
  ⟨5801, "backward_pass", "NeuralNetworkEvent"⟩,
  ⟨5802, "weight_update", "NeuralNetworkEvent"⟩,
  ⟨5803, "bias_update", "NeuralNetworkEvent"⟩,
  ⟨5804, "activation_computed", "NeuralNetworkEvent"⟩,
  ⟨5805, "dropout_applied", "NeuralNetworkEvent"⟩,
  ⟨5820, "layer_added", "NeuralNetworkEvent"⟩,
  ⟨5821, "layer_removed", "NeuralNetworkEvent"⟩,
  ⟨5822, "layer_frozen", "NeuralNetworkEvent"⟩,
  ⟨5823, "layer_unfrozen", "NeuralNetworkEvent"⟩,
  ⟨5824, "attention_computed", "NeuralNetworkEvent"⟩,
  ⟨5825, "pooling_applied", "NeuralNetworkEvent"⟩,
  ⟨5840, "gradient_vanishing", "NeuralNetworkEvent"⟩
]

def rawCodesChunk20 : List RawCode := [
  ⟨5841, "gradient_exploding", "NeuralNetworkEvent"⟩,
  ⟨5842, "dead_neurons", "NeuralNetworkEvent"⟩,
  ⟨5843, "saturation_detected", "NeuralNetworkEvent"⟩,
  ⟨5844, "sparsity_increased", "NeuralNetworkEvent"⟩,
  ⟨5860, "pruning_applied", "NeuralNetworkEvent"⟩,
  ⟨5861, "quantization_applied", "NeuralNetworkEvent"⟩,
  ⟨5862, "distillation_performed", "NeuralNetworkEvent"⟩,
  ⟨5863, "architecture_search", "NeuralNetworkEvent"⟩,
  ⟨5864, "hyperparameter_tuned", "NeuralNetworkEvent"⟩,
  ⟨7500, "email_notification", "NotificationType"⟩,
  ⟨7501, "sms_notification", "NotificationType"⟩,
  ⟨7502, "push_notification", "NotificationType"⟩,
  ⟨7503, "webhook_notification", "NotificationType"⟩,
  ⟨7504, "slack_notification", "NotificationType"⟩,
  ⟨7505, "teams_notification", "NotificationType"⟩,
  ⟨7506, "pagerduty_notification", "NotificationType"⟩,
  ⟨7520, "notification_queued", "NotificationType"⟩,
  ⟨7521, "notification_sent", "NotificationType"⟩,
  ⟨7522, "notification_delivered", "NotificationType"⟩,
  ⟨7523, "notification_failed", "NotificationType"⟩,
  ⟨7524, "notification_bounced", "NotificationType"⟩,
  ⟨7525, "notification_read", "NotificationType"⟩,
  ⟨7540, "system_notification", "NotificationType"⟩,
  ⟨7541, "user_notification", "NotificationType"⟩,
  ⟨7542, "admin_notification", "NotificationType"⟩,
  ⟨7543, "broadcast_notification", "NotificationType"⟩,
  ⟨7544, "scheduled_notification", "NotificationType"⟩,
  ⟨7560, "subscription_created", "NotificationType"⟩,
  ⟨7561, "subscription_updated", "NotificationType"⟩,
  ⟨7562, "subscription_deleted", "NotificationType"⟩,
  ⟨7563, "preference_updated", "NotificationType"⟩,
  ⟨7564, "do_not_disturb", "NotificationType"⟩,
  ⟨7800, "performance_baseline", "PerformanceEvent"⟩,
  ⟨7801, "performance_degraded", "PerformanceEvent"⟩,
  ⟨7802, "performance_improved", "PerformanceEvent"⟩,
  ⟨7803, "performance_optimal", "PerformanceEvent"⟩,
  ⟨7804, "sla_met", "PerformanceEvent"⟩,
  ⟨7805, "sla_breach", "PerformanceEvent"⟩,
  ⟨7820, "optimization_started", "PerformanceEvent"⟩,
  ⟨7821, "optimization_applied", "PerformanceEvent"⟩,
  ⟨7822, "cache_optimized", "PerformanceEvent"⟩,
  ⟨7823, "query_optimized", "PerformanceEvent"⟩,
  ⟨7824, "index_optimized", "PerformanceEvent"⟩,
  ⟨7825, "code_optimized", "PerformanceEvent"⟩,
  ⟨7840, "bottleneck_detected", "PerformanceEvent"⟩,
  ⟨7841, "cpu_bottleneck", "PerformanceEvent"⟩,
  ⟨7842, "memory_bottleneck", "PerformanceEvent"⟩,
  ⟨7843, "io_bottleneck", "PerformanceEvent"⟩,
  ⟨7844, "network_bottleneck", "PerformanceEvent"⟩,
  ⟨7845, "database_bottleneck", "PerformanceEvent"⟩,
  ⟨7860, "load_test_started", "PerformanceEvent"⟩,
  ⟨7861, "stress_test_started", "PerformanceEvent"⟩,
  ⟨7862, "benchmark_completed", "PerformanceEvent"⟩,
  ⟨7863, "performance_regression", "PerformanceEvent"⟩,
  ⟨7864, "performance_passed", "PerformanceEvent"⟩,
  ⟨1100, "create", "Permission"⟩,
  ⟨1101, "read", "Permission"⟩,
  ⟨1102, "update", "Permission"⟩,
  ⟨1103, "delete", "Permission"⟩,
  ⟨1104, "list", "Permission"⟩
]

def rawCodesChunk21 : List RawCode := [
  ⟨1105, "search", "Permission"⟩,
  ⟨1106, "filter", "Permission"⟩,
  ⟨1107, "export", "Permission"⟩,
  ⟨1108, "import", "Permission"⟩,
  ⟨1120, "execute", "Permission"⟩,
  ⟨1121, "approve", "Permission"⟩,
  ⟨1122, "reject", "Permission"⟩,
  ⟨1123, "publish", "Permission"⟩,
  ⟨1124, "unpublish", "Permission"⟩,
  ⟨1125, "archive", "Permission"⟩,
  ⟨1126, "restore", "Permission"⟩,
  ⟨1127, "share", "Permission"⟩,
  ⟨1128, "transfer", "Permission"⟩,
  ⟨1140, "admin_access", "Permission"⟩,
  ⟨1141, "config_manage", "Permission"⟩,
  ⟨1142, "user_manage", "Permission"⟩,
  ⟨1143, "role_manage", "Permission"⟩,
  ⟨1144, "audit_view", "Permission"⟩,
  ⟨1145, "system_monitor", "Permission"⟩,
  ⟨1146, "backup_manage", "Permission"⟩,
  ⟨1147, "api_manage", "Permission"⟩,
  ⟨1160, "resource_allocate", "Permission"⟩,
  ⟨1161, "resource_deallocate", "Permission"⟩,
  ⟨1162, "quota_manage", "Permission"⟩,
  ⟨1163, "limit_override", "Permission"⟩,
  ⟨1164, "priority_access", "Permission"⟩,
  ⟨1165, "exclusive_access", "Permission"⟩,
  ⟨9600, "post_created", "PlatformSpecific"⟩,
  ⟨9601, "post_liked", "PlatformSpecific"⟩,
  ⟨9602, "post_shared", "PlatformSpecific"⟩,
  ⟨9603, "comment_added", "PlatformSpecific"⟩,
  ⟨9604, "follow_user", "PlatformSpecific"⟩,
  ⟨9605, "unfollow_user", "PlatformSpecific"⟩,
  ⟨9620, "course_enrolled", "PlatformSpecific"⟩,
  ⟨9621, "lesson_started", "PlatformSpecific"⟩,
  ⟨9622, "lesson_completed", "PlatformSpecific"⟩,
  ⟨9623, "quiz_submitted", "PlatformSpecific"⟩,
  ⟨9624, "certificate_earned", "PlatformSpecific"⟩,
  ⟨9625, "progress_updated", "PlatformSpecific"⟩,
  ⟨9640, "game_started", "PlatformSpecific"⟩,
  ⟨9641, "level_completed", "PlatformSpecific"⟩,
  ⟨9642, "achievement_unlocked", "PlatformSpecific"⟩,
  ⟨9643, "score_updated", "PlatformSpecific"⟩,
  ⟨9644, "player_joined", "PlatformSpecific"⟩,
  ⟨9645, "player_left", "PlatformSpecific"⟩,
  ⟨9660, "stream_started", "PlatformSpecific"⟩,
  ⟨9661, "stream_paused", "PlatformSpecific"⟩,
  ⟨9662, "stream_resumed", "PlatformSpecific"⟩,
  ⟨9663, "stream_ended", "PlatformSpecific"⟩,
  ⟨9664, "quality_changed", "PlatformSpecific"⟩,
  ⟨9665, "buffer_event", "PlatformSpecific"⟩,
  ⟨8800, "http_get", "ProtocolEvent"⟩,
  ⟨8801, "http_post", "ProtocolEvent"⟩,
  ⟨8802, "http_put", "ProtocolEvent"⟩,
  ⟨8803, "http_delete", "ProtocolEvent"⟩,
  ⟨8804, "http_patch", "ProtocolEvent"⟩,
  ⟨8805, "http_options", "ProtocolEvent"⟩,
  ⟨8820, "ws_connected", "ProtocolEvent"⟩,
  ⟨8821, "ws_message", "ProtocolEvent"⟩,
  ⟨8822, "ws_disconnected", "ProtocolEvent"⟩
]

def rawCodesChunk22 : List RawCode := [
  ⟨8823, "ws_error", "ProtocolEvent"⟩,
  ⟨8824, "ws_ping", "ProtocolEvent"⟩,
  ⟨8825, "ws_pong", "ProtocolEvent"⟩,
  ⟨8840, "grpc_unary", "ProtocolEvent"⟩,
  ⟨8841, "grpc_stream_client", "ProtocolEvent"⟩,
  ⟨8842, "grpc_stream_server", "ProtocolEvent"⟩,
  ⟨8843, "grpc_stream_bidi", "ProtocolEvent"⟩,
  ⟨8844, "grpc_error", "ProtocolEvent"⟩,
  ⟨8860, "gql_query", "ProtocolEvent"⟩,
  ⟨8861, "gql_mutation", "ProtocolEvent"⟩,
  ⟨8862, "gql_subscription", "ProtocolEvent"⟩,
  ⟨8863, "gql_error", "ProtocolEvent"⟩,
  ⟨8864, "gql_validation", "ProtocolEvent"⟩,
  ⟨1800, "threat_detected", "SecurityEvent"⟩,
  ⟨1801, "attack_detected", "SecurityEvent"⟩,
  ⟨1802, "intrusion_detected", "SecurityEvent"⟩,
  ⟨1803, "malware_detected", "SecurityEvent"⟩,
  ⟨1804, "phishing_detected", "SecurityEvent"⟩,
  ⟨1805, "sql_injection_detected", "SecurityEvent"⟩,
  ⟨1806, "xss_detected", "SecurityEvent"⟩,
  ⟨1807, "csrf_detected", "SecurityEvent"⟩,
  ⟨1820, "threat_blocked", "SecurityEvent"⟩,
  ⟨1821, "ip_blacklisted", "SecurityEvent"⟩,
  ⟨1822, "ip_whitelisted", "SecurityEvent"⟩,
  ⟨1823, "firewall_rule_added", "SecurityEvent"⟩,
  ⟨1824, "firewall_rule_removed", "SecurityEvent"⟩,
  ⟨1825, "security_alert", "SecurityEvent"⟩,
  ⟨1826, "incident_created", "SecurityEvent"⟩,
  ⟨1827, "incident_resolved", "SecurityEvent"⟩,
  ⟨1840, "data_encrypted", "SecurityEvent"⟩,
  ⟨1841, "data_decrypted", "SecurityEvent"⟩,
  ⟨1842, "key_generated", "SecurityEvent"⟩,
  ⟨1843, "key_rotated", "SecurityEvent"⟩,
  ⟨1844, "key_expired", "SecurityEvent"⟩,
  ⟨1845, "key_revoked", "SecurityEvent"⟩,
  ⟨1846, "certificate_issued", "SecurityEvent"⟩,
  ⟨1847, "certificate_expired", "SecurityEvent"⟩,
  ⟨1848, "certificate_renewed", "SecurityEvent"⟩,
  ⟨1860, "compliance_check_passed", "SecurityEvent"⟩,
  ⟨1861, "compliance_check_failed", "SecurityEvent"⟩,
  ⟨1862, "audit_trail_created", "SecurityEvent"⟩,
  ⟨1863, "data_retention_applied", "SecurityEvent"⟩,
  ⟨1864, "data_purged", "SecurityEvent"⟩,
  ⟨1865, "gdpr_request", "SecurityEvent"⟩,
  ⟨1866, "privacy_violation", "SecurityEvent"⟩,
  ⟨1600, "session_created", "SessionEvent"⟩,
  ⟨1601, "session_validated", "SessionEvent"⟩,
  ⟨1602, "session_invalidated", "SessionEvent"⟩,
  ⟨1603, "session_expired", "SessionEvent"⟩,
  ⟨1604, "session_extended", "SessionEvent"⟩,
  ⟨1605, "session_terminated", "SessionEvent"⟩,
  ⟨1606, "session_hijacked", "SessionEvent"⟩,
  ⟨1620, "session_active", "SessionEvent"⟩,
  ⟨1621, "session_idle", "SessionEvent"⟩,
  ⟨1622, "session_locked", "SessionEvent"⟩,
  ⟨1623, "session_unlocked", "SessionEvent"⟩,
  ⟨1624, "session_migrated", "SessionEvent"⟩,
  ⟨1625, "session_replicated", "SessionEvent"⟩,
  ⟨1640, "session_data_stored", "SessionEvent"⟩,
  ⟨1641, "session_data_retrieved", "SessionEvent"⟩
]

def rawCodesChunk23 : List RawCode := [
  ⟨1642, "session_data_updated", "SessionEvent"⟩,
  ⟨1643, "session_data_deleted", "SessionEvent"⟩,
  ⟨1644, "session_data_encrypted", "SessionEvent"⟩,
  ⟨1645, "session_data_decrypted", "SessionEvent"⟩,
  ⟨600, "state_created", "StateChangeEvent"⟩,
  ⟨601, "state_initialized", "StateChangeEvent"⟩,
  ⟨602, "state_activated", "StateChangeEvent"⟩,
  ⟨603, "state_deactivated", "StateChangeEvent"⟩,
  ⟨604, "state_updated", "StateChangeEvent"⟩,
  ⟨605, "state_deleted", "StateChangeEvent"⟩,
  ⟨606, "state_archived", "StateChangeEvent"⟩,
  ⟨607, "state_restored", "StateChangeEvent"⟩,
  ⟨620, "state_transition_start", "StateChangeEvent"⟩,
  ⟨621, "state_transition_complete", "StateChangeEvent"⟩,
  ⟨622, "state_transition_failed", "StateChangeEvent"⟩,
  ⟨623, "state_validated", "StateChangeEvent"⟩,
  ⟨624, "state_invalid", "StateChangeEvent"⟩,
  ⟨625, "state_locked", "StateChangeEvent"⟩,
  ⟨626, "state_unlocked", "StateChangeEvent"⟩,
  ⟨627, "state_rolled_back", "StateChangeEvent"⟩,
  ⟨640, "state_saved", "StateChangeEvent"⟩,
  ⟨641, "state_loaded", "StateChangeEvent"⟩,
  ⟨642, "state_cached", "StateChangeEvent"⟩,
  ⟨643, "state_flushed", "StateChangeEvent"⟩,
  ⟨644, "state_synchronized", "StateChangeEvent"⟩,
  ⟨645, "state_replicated", "StateChangeEvent"⟩,
  ⟨646, "state_backed_up", "StateChangeEvent"⟩,
  ⟨647, "checkpoint_created", "StateChangeEvent"⟩,
  ⟨660, "state_consistent", "StateChangeEvent"⟩,
  ⟨661, "state_inconsistent", "StateChangeEvent"⟩,
  ⟨662, "state_converged", "StateChangeEvent"⟩,
  ⟨663, "state_diverged", "StateChangeEvent"⟩,
  ⟨664, "conflict_detected", "StateChangeEvent"⟩,
  ⟨665, "conflict_resolved", "StateChangeEvent"⟩,
  ⟨666, "merge_completed", "StateChangeEvent"⟩,
  ⟨667, "split_completed", "StateChangeEvent"⟩,
  ⟨4200, "hot_storage", "StorageType"⟩,
  ⟨4201, "warm_storage", "StorageType"⟩,
  ⟨4202, "cold_storage", "StorageType"⟩,
  ⟨4203, "archive_storage", "StorageType"⟩,
  ⟨4204, "cache_storage", "StorageType"⟩,
  ⟨4220, "block_storage", "StorageType"⟩,
  ⟨4221, "file_storage", "StorageType"⟩,
  ⟨4222, "object_storage", "StorageType"⟩,
  ⟨4223, "tape_storage", "StorageType"⟩,
  ⟨4224, "memory_storage", "StorageType"⟩,
  ⟨4240, "nfs", "StorageType"⟩,
  ⟨4241, "smb", "StorageType"⟩,
  ⟨4242, "iscsi", "StorageType"⟩,
  ⟨4243, "fc", "StorageType"⟩,
  ⟨4244, "s3", "StorageType"⟩,
  ⟨4245, "swift", "StorageType"⟩,
  ⟨4260, "deduplication", "StorageType"⟩,
  ⟨4261, "compression", "StorageType"⟩,
  ⟨4262, "encryption", "StorageType"⟩,
  ⟨4263, "replication", "StorageType"⟩,
  ⟨4264, "snapshot", "StorageType"⟩,
  ⟨4265, "tiering", "StorageType"⟩,
  ⟨100, "system_startup", "SystemEvent"⟩,
  ⟨101, "system_ready", "SystemEvent"⟩
]

def rawCodesChunk24 : List RawCode := [
  ⟨102, "system_shutdown", "SystemEvent"⟩,
  ⟨103, "system_restart", "SystemEvent"⟩,
  ⟨104, "system_upgrade", "SystemEvent"⟩,
  ⟨105, "system_maintenance", "SystemEvent"⟩,
  ⟨106, "system_health_check", "SystemEvent"⟩,
  ⟨107, "system_backup", "SystemEvent"⟩,
  ⟨108, "system_restore", "SystemEvent"⟩,
  ⟨120, "component_registered", "SystemEvent"⟩,
  ⟨121, "component_started", "SystemEvent"⟩,
  ⟨122, "component_stopped", "SystemEvent"⟩,
  ⟨123, "component_failed", "SystemEvent"⟩,
  ⟨124, "component_recovered", "SystemEvent"⟩,
  ⟨125, "component_updated", "SystemEvent"⟩,
  ⟨126, "component_removed", "SystemEvent"⟩,
  ⟨140, "config_loaded", "SystemEvent"⟩,
  ⟨141, "config_changed", "SystemEvent"⟩,
  ⟨142, "config_validated", "SystemEvent"⟩,
  ⟨143, "config_invalid", "SystemEvent"⟩,
  ⟨144, "config_reloaded", "SystemEvent"⟩,
  ⟨145, "feature_enabled", "SystemEvent"⟩,
  ⟨146, "feature_disabled", "SystemEvent"⟩,
  ⟨160, "resource_allocated", "SystemEvent"⟩,
  ⟨161, "resource_released", "SystemEvent"⟩,
  ⟨162, "resource_exhausted", "SystemEvent"⟩,
  ⟨163, "resource_scaled", "SystemEvent"⟩,
  ⟨164, "memory_pressure", "SystemEvent"⟩,
  ⟨165, "cpu_throttled", "SystemEvent"⟩,
  ⟨166, "disk_full", "SystemEvent"⟩,
  ⟨900, "metric_recorded", "SystemMetadataEvent"⟩,
  ⟨901, "metric_aggregated", "SystemMetadataEvent"⟩,
  ⟨902, "threshold_exceeded", "SystemMetadataEvent"⟩,
  ⟨903, "threshold_normal", "SystemMetadataEvent"⟩,
  ⟨904, "anomaly_detected", "SystemMetadataEvent"⟩,
  ⟨905, "trend_identified", "SystemMetadataEvent"⟩,
  ⟨920, "audit_log_created", "SystemMetadataEvent"⟩,
  ⟨921, "compliance_check", "SystemMetadataEvent"⟩,
  ⟨922, "policy_violation", "SystemMetadataEvent"⟩,
  ⟨923, "access_logged", "SystemMetadataEvent"⟩,
  ⟨924, "change_tracked", "SystemMetadataEvent"⟩,
  ⟨940, "health_check_passed", "SystemMetadataEvent"⟩,
  ⟨941, "health_check_failed", "SystemMetadataEvent"⟩,
  ⟨942, "alert_triggered", "SystemMetadataEvent"⟩,
  ⟨943, "alert_resolved", "SystemMetadataEvent"⟩,
  ⟨944, "probe_succeeded", "SystemMetadataEvent"⟩,
  ⟨945, "probe_failed", "SystemMetadataEvent"⟩,
  ⟨960, "garbage_collected", "SystemMetadataEvent"⟩,
  ⟨961, "cache_cleared", "SystemMetadataEvent"⟩,
  ⟨962, "index_rebuilt", "SystemMetadataEvent"⟩,
  ⟨963, "statistics_updated", "SystemMetadataEvent"⟩,
  ⟨964, "maintenance_completed", "SystemMetadataEvent"⟩,
  ⟨8400, "stripe_integration", "ThirdPartyService"⟩,
  ⟨8401, "paypal_integration", "ThirdPartyService"⟩,
  ⟨8402, "square_integration", "ThirdPartyService"⟩,
  ⟨8403, "payment_gateway", "ThirdPartyService"⟩,
  ⟨8404, "crypto_payment", "ThirdPartyService"⟩,
  ⟨8420, "aws_service", "ThirdPartyService"⟩,
  ⟨8421, "azure_service", "ThirdPartyService"⟩,
  ⟨8422, "gcp_service", "ThirdPartyService"⟩,
  ⟨8423, "cloudflare", "ThirdPartyService"⟩,
  ⟨8424, "cdn_service", "ThirdPartyService"⟩
]

def rawCodesChunk25 : List RawCode := [
  ⟨8440, "twilio_sms", "ThirdPartyService"⟩,
  ⟨8441, "sendgrid_email", "ThirdPartyService"⟩,
  ⟨8442, "mailgun", "ThirdPartyService"⟩,
  ⟨8443, "slack_api", "ThirdPartyService"⟩,
  ⟨8444, "discord_api", "ThirdPartyService"⟩,
  ⟨8460, "google_analytics", "ThirdPartyService"⟩,
  ⟨8461, "mixpanel", "ThirdPartyService"⟩,
  ⟨8462, "segment", "ThirdPartyService"⟩,
  ⟨8463, "amplitude", "ThirdPartyService"⟩,
  ⟨8464, "hotjar", "ThirdPartyService"⟩,
  ⟨50, "lowest", "UniversalPriority"⟩,
  ⟨52, "low", "UniversalPriority"⟩,
  ⟨54, "below_normal", "UniversalPriority"⟩,
  ⟨56, "normal", "UniversalPriority"⟩,
  ⟨58, "above_normal", "UniversalPriority"⟩,
  ⟨60, "high", "UniversalPriority"⟩,
  ⟨62, "urgent", "UniversalPriority"⟩,
  ⟨64, "critical", "UniversalPriority"⟩,
  ⟨66, "emergency", "UniversalPriority"⟩,
  ⟨68, "system", "UniversalPriority"⟩,
  ⟨90, "success", "UniversalResult"⟩,
  ⟨91, "partial_success", "UniversalResult"⟩,
  ⟨92, "failure", "UniversalResult"⟩,
  ⟨93, "retry", "UniversalResult"⟩,
  ⟨94, "skip", "UniversalResult"⟩,
  ⟨95, "abort", "UniversalResult"⟩,
  ⟨96, "rollback", "UniversalResult"⟩,
  ⟨70, "trace", "UniversalSeverity"⟩,
  ⟨72, "debug", "UniversalSeverity"⟩,
  ⟨74, "verbose", "UniversalSeverity"⟩,
  ⟨76, "info", "UniversalSeverity"⟩,
  ⟨78, "notice", "UniversalSeverity"⟩,
  ⟨80, "warning", "UniversalSeverity"⟩,
  ⟨82, "error", "UniversalSeverity"⟩,
  ⟨84, "critical", "UniversalSeverity"⟩,
  ⟨86, "alert", "UniversalSeverity"⟩,
  ⟨88, "emergency", "UniversalSeverity"⟩,
  ⟨0, "unknown", "UniversalStatus"⟩,
  ⟨1, "initializing", "UniversalStatus"⟩,
  ⟨2, "initialized", "UniversalStatus"⟩,
  ⟨3, "pending", "UniversalStatus"⟩,
  ⟨4, "queued", "UniversalStatus"⟩,
  ⟨5, "scheduled", "UniversalStatus"⟩,
  ⟨6, "preparing", "UniversalStatus"⟩,
  ⟨7, "ready", "UniversalStatus"⟩,
  ⟨10, "starting", "UniversalStatus"⟩,
  ⟨11, "active", "UniversalStatus"⟩,
  ⟨12, "running", "UniversalStatus"⟩,
  ⟨13, "processing", "UniversalStatus"⟩,
  ⟨14, "executing", "UniversalStatus"⟩,
  ⟨15, "in_progress", "UniversalStatus"⟩,
  ⟨16, "busy", "UniversalStatus"⟩,
  ⟨17, "working", "UniversalStatus"⟩,
  ⟨20, "completing", "UniversalStatus"⟩,
  ⟨21, "completed", "UniversalStatus"⟩,
  ⟨22, "succeeded", "UniversalStatus"⟩,
  ⟨23, "finished", "UniversalStatus"⟩,
  ⟨24, "done", "UniversalStatus"⟩,
  ⟨25, "finalized", "UniversalStatus"⟩,
  ⟨26, "archived", "UniversalStatus"⟩
]

def rawCodesChunk26 : List RawCode := [
  ⟨30, "warning", "UniversalStatus"⟩,
  ⟨31, "error", "UniversalStatus"⟩,
  ⟨32, "failed", "UniversalStatus"⟩,
  ⟨33, "crashed", "UniversalStatus"⟩,
  ⟨34, "timeout", "UniversalStatus"⟩,
  ⟨35, "cancelled", "UniversalStatus"⟩,
  ⟨36, "rejected", "UniversalStatus"⟩,
  ⟨37, "invalid", "UniversalStatus"⟩,
  ⟨38, "corrupted", "UniversalStatus"⟩,
  ⟨40, "paused", "UniversalStatus"⟩,
  ⟨41, "suspended", "UniversalStatus"⟩,
  ⟨42, "blocked", "UniversalStatus"⟩,
  ⟨43, "waiting", "UniversalStatus"⟩,
  ⟨44, "deferred", "UniversalStatus"⟩,
  ⟨45, "on_hold", "UniversalStatus"⟩,
  ⟨46, "hibernated", "UniversalStatus"⟩,
  ⟨200, "user_login", "UserEvent"⟩,
  ⟨201, "user_logout", "UserEvent"⟩,
  ⟨202, "user_register", "UserEvent"⟩,
  ⟨203, "user_verified", "UserEvent"⟩,
  ⟨204, "user_blocked", "UserEvent"⟩,
  ⟨205, "user_unblocked", "UserEvent"⟩,
  ⟨206, "password_changed", "UserEvent"⟩,
  ⟨207, "password_reset", "UserEvent"⟩,
  ⟨208, "two_factor_enabled", "UserEvent"⟩,
  ⟨209, "two_factor_verified", "UserEvent"⟩,
  ⟨220, "session_started", "UserEvent"⟩,
  ⟨221, "session_resumed", "UserEvent"⟩,
  ⟨222, "session_expired", "UserEvent"⟩,
  ⟨223, "session_terminated", "UserEvent"⟩,
  ⟨224, "session_idle", "UserEvent"⟩,
  ⟨225, "session_active", "UserEvent"⟩,
  ⟨240, "user_action", "UserEvent"⟩,
  ⟨241, "user_created", "UserEvent"⟩,
  ⟨242, "user_updated", "UserEvent"⟩,
  ⟨243, "user_deleted", "UserEvent"⟩,
  ⟨244, "user_searched", "UserEvent"⟩,
  ⟨245, "user_filtered", "UserEvent"⟩,
  ⟨246, "user_exported", "UserEvent"⟩,
  ⟨247, "user_imported", "UserEvent"⟩,
  ⟨260, "user_activated", "UserEvent"⟩,
  ⟨261, "user_deactivated", "UserEvent"⟩,
  ⟨262, "user_suspended", "UserEvent"⟩,
  ⟨263, "user_archived", "UserEvent"⟩,
  ⟨264, "role_assigned", "UserEvent"⟩,
  ⟨265, "role_removed", "UserEvent"⟩,
  ⟨266, "permission_granted", "UserEvent"⟩,
  ⟨267, "permission_revoked", "UserEvent"⟩,
  ⟨1000, "anonymous", "UserRole"⟩,
  ⟨1001, "guest", "UserRole"⟩,
  ⟨1002, "user", "UserRole"⟩,
  ⟨1003, "member", "UserRole"⟩,
  ⟨1004, "subscriber", "UserRole"⟩,
  ⟨1005, "contributor", "UserRole"⟩,
  ⟨1006, "moderator", "UserRole"⟩,
  ⟨1007, "administrator", "UserRole"⟩,
  ⟨1008, "super_admin", "UserRole"⟩,
  ⟨1009, "system", "UserRole"⟩,
  ⟨1020, "employee", "UserRole"⟩,
  ⟨1021, "manager", "UserRole"⟩
]

def rawCodesChunk27 : List RawCode := [
  ⟨1022, "director", "UserRole"⟩,
  ⟨1023, "executive", "UserRole"⟩,
  ⟨1024, "owner", "UserRole"⟩,
  ⟨1025, "partner", "UserRole"⟩,
  ⟨1026, "contractor", "UserRole"⟩,
  ⟨1027, "vendor", "UserRole"⟩,
  ⟨1028, "client", "UserRole"⟩,
  ⟨1040, "developer", "UserRole"⟩,
  ⟨1041, "tester", "UserRole"⟩,
  ⟨1042, "analyst", "UserRole"⟩,
  ⟨1043, "designer", "UserRole"⟩,
  ⟨1044, "architect", "UserRole"⟩,
  ⟨1045, "operator", "UserRole"⟩,
  ⟨1046, "support", "UserRole"⟩,
  ⟨1047, "auditor", "UserRole"⟩,
  ⟨1048, "compliance", "UserRole"⟩,
  ⟨1060, "service_account", "UserRole"⟩,
  ⟨1061, "api_client", "UserRole"⟩,
  ⟨1062, "integration", "UserRole"⟩,
  ⟨1063, "scheduler", "UserRole"⟩,
  ⟨1064, "monitor", "UserRole"⟩,
  ⟨1065, "backup_service", "UserRole"⟩,
  ⟨1066, "migration_service", "UserRole"⟩,
  ⟨8600, "webhook_registered", "WebhookEvent"⟩,
  ⟨8601, "webhook_verified", "WebhookEvent"⟩,
  ⟨8602, "webhook_updated", "WebhookEvent"⟩,
  ⟨8603, "webhook_deleted", "WebhookEvent"⟩,
  ⟨8604, "webhook_enabled", "WebhookEvent"⟩,
  ⟨8605, "webhook_disabled", "WebhookEvent"⟩,
  ⟨8620, "webhook_triggered", "WebhookEvent"⟩,
  ⟨8621, "webhook_sent", "WebhookEvent"⟩,
  ⟨8622, "webhook_delivered", "WebhookEvent"⟩,
  ⟨8623, "webhook_failed", "WebhookEvent"⟩,
  ⟨8624, "webhook_retry", "WebhookEvent"⟩,
  ⟨8625, "webhook_timeout", "WebhookEvent"⟩,
  ⟨8640, "signature_verified", "WebhookEvent"⟩,
  ⟨8641, "signature_invalid", "WebhookEvent"⟩,
  ⟨8642, "secret_rotated", "WebhookEvent"⟩,
  ⟨8643, "ip_whitelisted", "WebhookEvent"⟩,
  ⟨8644, "replay_detected", "WebhookEvent"⟩,
  ⟨8660, "endpoint_tested", "WebhookEvent"⟩,
  ⟨8661, "payload_validated", "WebhookEvent"⟩,
  ⟨8662, "filter_applied", "WebhookEvent"⟩,
  ⟨8663, "transformation_applied", "WebhookEvent"⟩,
  ⟨8664, "batch_webhook", "WebhookEvent"⟩,
  ⟨300, "workflow_created", "WorkflowEvent"⟩,
  ⟨301, "workflow_started", "WorkflowEvent"⟩,
  ⟨302, "workflow_paused", "WorkflowEvent"⟩,
  ⟨303, "workflow_resumed", "WorkflowEvent"⟩,
  ⟨304, "workflow_completed", "WorkflowEvent"⟩,
  ⟨305, "workflow_failed", "WorkflowEvent"⟩,
  ⟨306, "workflow_cancelled", "WorkflowEvent"⟩,
  ⟨307, "workflow_timeout", "WorkflowEvent"⟩,
  ⟨308, "workflow_retry", "WorkflowEvent"⟩,
  ⟨320, "task_created", "WorkflowEvent"⟩,
  ⟨321, "task_assigned", "WorkflowEvent"⟩,
  ⟨322, "task_started", "WorkflowEvent"⟩,
  ⟨323, "task_progress", "WorkflowEvent"⟩,
  ⟨324, "task_completed", "WorkflowEvent"⟩,
  ⟨325, "task_failed", "WorkflowEvent"⟩
]

def rawCodesChunk28 : List RawCode := [
  ⟨326, "task_skipped", "WorkflowEvent"⟩,
  ⟨327, "task_delegated", "WorkflowEvent"⟩,
  ⟨340, "process_initiated", "WorkflowEvent"⟩,
  ⟨341, "process_approved", "WorkflowEvent"⟩,
  ⟨342, "process_rejected", "WorkflowEvent"⟩,
  ⟨343, "process_escalated", "WorkflowEvent"⟩,
  ⟨344, "process_automated", "WorkflowEvent"⟩,
  ⟨345, "step_completed", "WorkflowEvent"⟩,
  ⟨346, "checkpoint_reached", "WorkflowEvent"⟩,
  ⟨347, "milestone_achieved", "WorkflowEvent"⟩,
  ⟨360, "decision_required", "WorkflowEvent"⟩,
  ⟨361, "decision_made", "WorkflowEvent"⟩,
  ⟨362, "decision_deferred", "WorkflowEvent"⟩,
  ⟨363, "approval_requested", "WorkflowEvent"⟩,
  ⟨364, "approval_granted", "WorkflowEvent"⟩,
  ⟨365, "approval_denied", "WorkflowEvent"⟩,
  ⟨366, "condition_met", "WorkflowEvent"⟩,
  ⟨367, "condition_failed", "WorkflowEvent"⟩,
  ⟨6200, "orchestration_started", "WorkflowOrchestration"⟩,
  ⟨6201, "orchestration_paused", "WorkflowOrchestration"⟩,
  ⟨6202, "orchestration_resumed", "WorkflowOrchestration"⟩,
  ⟨6203, "orchestration_completed", "WorkflowOrchestration"⟩,
  ⟨6204, "orchestration_failed", "WorkflowOrchestration"⟩,
  ⟨6205, "orchestration_timeout", "WorkflowOrchestration"⟩,
  ⟨6220, "branch_evaluated", "WorkflowOrchestration"⟩,
  ⟨6221, "condition_checked", "WorkflowOrchestration"⟩,
  ⟨6222, "loop_started", "WorkflowOrchestration"⟩,
  ⟨6223, "loop_iteration", "WorkflowOrchestration"⟩,
  ⟨6224, "loop_completed", "WorkflowOrchestration"⟩,
  ⟨6225, "parallel_split", "WorkflowOrchestration"⟩,
  ⟨6226, "parallel_join", "WorkflowOrchestration"⟩,
  ⟨6240, "task_scheduled", "WorkflowOrchestration"⟩,
  ⟨6241, "task_dispatched", "WorkflowOrchestration"⟩,
  ⟨6242, "task_claimed", "WorkflowOrchestration"⟩,
  ⟨6243, "task_released", "WorkflowOrchestration"⟩,
  ⟨6244, "task_escalated", "WorkflowOrchestration"⟩,
  ⟨6245, "task_timed_out", "WorkflowOrchestration"⟩,
  ⟨6260, "state_persisted", "WorkflowOrchestration"⟩,
  ⟨6261, "state_restored", "WorkflowOrchestration"⟩,
  ⟨6262, "checkpoint_created", "WorkflowOrchestration"⟩,
  ⟨6263, "rollback_initiated", "WorkflowOrchestration"⟩,
  ⟨6264, "compensation_triggered", "WorkflowOrchestration"⟩
]

/-- Every `IntEnum` member discovered in `universal_integer_system.py`,
in discovery order (`dir()` enumerates the enum classes alphabetically;
members iterate in definition order; within-class aliases — second and
later names bound to an already-used value — are skipped by enum
iteration, exactly as `_discover_all_codes` sees them). -/
def actualRawCodes : List RawCode :=
  rawCodesChunk0 ++ rawCodesChunk1 ++ rawCodesChunk2 ++ rawCodesChunk3 ++ rawCodesChunk4 ++ rawCodesChunk5 ++ rawCodesChunk6 ++ rawCodesChunk7 ++ rawCodesChunk8 ++ rawCodesChunk9 ++ rawCodesChunk10 ++ rawCodesChunk11 ++ rawCodesChunk12 ++ rawCodesChunk13 ++ rawCodesChunk14 ++ rawCodesChunk15 ++ rawCodesChunk16 ++ rawCodesChunk17 ++ rawCodesChunk18 ++ rawCodesChunk19 ++ rawCodesChunk20 ++ rawCodesChunk21 ++ rawCodesChunk22 ++ rawCodesChunk23 ++ rawCodesChunk24 ++ rawCodesChunk25 ++ rawCodesChunk26 ++ rawCodesChunk27 ++ rawCodesChunk28

/-! ## Translator state and core operations -/

/-- The mutable state of a `StreamlinedDiscoveryTranslator`: the code
registry built at construction, the two lazy caches, and the statistics
counters.  `discovery_time` (wall clock) is not modelled; `discovery_errors`
is zero for the actual module (see `discoverAllCodes`). -/
structure TranslatorState where
  codeRegistry : List (Int × CodeInfo)
  translationCache : List (Int × String)
  systemCache : List (Int × String)
  totalTranslations : Nat
  cacheHits : Nat

/-- A freshly constructed translator over the given discovered members:
empty caches, zeroed counters. -/
def freshTranslator (raw : List RawCode) : TranslatorState :=
  ⟨discoverAllCodes raw, [], [], 0, 0⟩

/-- The translator instance the program actually constructs
(`streamlined_translator`). -/
def initialTranslator : TranslatorState :=
  freshTranslator actualRawCodes

/-- `translate_code`: count the call, serve from the cache (counting the
hit), otherwise translate from the registry or synthesize the
`"unknown_{system}_{code}"` fallback, and cache the result. -/
def translateCode (s : TranslatorState) (code : Int) : String × TranslatorState :=
  let s₁ : TranslatorState := { s with totalTranslations := s.totalTranslations + 1 }
  match s₁.translationCache.lookup code with
  | some t => (t, { s₁ with cacheHits := s₁.cacheHits + 1 })
  | Option.none =>
    let t : String :=
      match s₁.codeRegistry.lookup code with
      | some info => info.name
      | Option.none => "unknown_" ++ determineSystem code ++ "_" ++ toString code
    (t, { s₁ with translationCache := assocSet s₁.translationCache code t })

/-- `get_system_for_code`: separately cached classification. -/
def getSystemForCode (s : TranslatorState) (code : Int) : String × TranslatorState :=
  match s.systemCache.lookup code with
  | some sys => (sys, s)
  | Option.none =>
    let sys : String :=
      match s.codeRegistry.lookup code with
      | some info => info.system
      | Option.none => determineSystem code
    (sys, { s with systemCache := assocSet s.systemCache code sys })

/-- `format_code_with_context`: `"{code}({name}) [{system}]"`. -/
def formatCodeWithContext (s : TranslatorState) (code : Int) : String × TranslatorState :=
  let (name, s₁) := translateCode s code
  let (system, s₂) := getSystemForCode s₁ code
  (toString code ++ "(" ++ name ++ ") [" ++ system ++ "]", s₂)

/-- `get_code_info`: full record for a code, synthesized consistently for
unknown codes. -/
def getCodeInfo (s : TranslatorState) (code : Int) : PyVal × TranslatorState :=
  match s.codeRegistry.lookup code with
  | some info =>
    let (formatted, s₁) := formatCodeWithContext s code
    (.dict [(.str "name", .str info.name),
            (.str "enum_class_name", .str info.enumClassName),
            (.str "system", .str info.system),
            (.str "code", .int code),
            (.str "formatted", .str formatted)], s₁)
  | Option.none =>
    let (formatted, s₁) := formatCodeWithContext s code
    (.dict [(.str "code", .int code),
            (.str "name", .str ("unknown_" ++ determineSystem code ++ "_" ++ toString code)),
            (.str "system", .str (determineSystem code)),
            (.str "enum_class_name", .str "Unknown"),
            (.str "formatted", .str formatted)], s₁)

/-- Insert a code-info dict into a list kept ascending by its `"code"`
field (insertion after equal keys keeps Python's stable sort order). -/
def insertByCode (r : PyVal) : List PyVal → List PyVal
  | [] => [r]
  | x :: xs =>
    let keyOf : PyVal → Int := fun v =>
      match pyGet v "code" with
      | some (.int n) => n
      | _ => 0
    if keyOf r < keyOf x then r :: x :: xs else x :: insertByCode r xs

/-- Python `sorted(results, key=lambda x: x["code"])`. -/
def sortByCode (rs : List PyVal) : List PyVal :=
  rs.foldl (fun acc r => insertByCode r acc) []

/-- `find_codes_by_name`: collect `get_code_info` for every registry entry
whose name or defining class name contains the search term
(case-insensitively), sorted ascending by code. -/
def findCodesByName (s : TranslatorState) (term : String) : List PyVal × TranslatorState :=
  let tl := pyLower term
  let step := fun (acc : List PyVal × TranslatorState) (p : Int × CodeInfo) =>
    if strContains p.snd.name tl || strContains (pyLower p.snd.enumClassName) tl then
      let (info, s₁) := getCodeInfo acc.snd p.fst
      (acc.fst ++ [info], s₁)
    else acc
  let (results, s₁) := s.codeRegistry.foldl step ([], s)
  (sortByCode results, s₁)


/-! ## Summary and statistics -/

/-- One-decimal percentage rendering of `num/denom * 100` (the model of
`f"{used/capacity*100:.1f}%"`; computed on the exact rational with
round-half-to-even, which agrees with the float formatting on every value
the summary produces). -/
def fmtPct1 (num denom : Nat) : String :=
  if denom == 0 then "0.0%"
  else
    let t := num * 1000
    let q := t / denom
    let r := t % denom
    let rounded :=
      if 2 * r < denom then q
      else if 2 * r > denom then q + 1
      else if q % 2 == 0 then q else q + 1
    toString (rounded / 10) ++ "." ++ toString (rounded % 10) ++ "%"

/-- Ascending insertion into a sorted integer list. -/
def insertSortedInt (n : Int) : List Int → List Int
  | [] => [n]
  | x :: xs => if n < x then n :: x :: xs else x :: insertSortedInt n xs

/-- Python `sorted` on integers. -/
def sortInts (l : List Int) : List Int :=
  l.foldl (fun acc n => insertSortedInt n acc) []

/-- The code values currently registered (dict keys, insertion order). -/
def registryKeys (s : TranslatorState) : List Int :=
  s.codeRegistry.map Prod.fst

/-- `get_system_summary`: per-range capacity/usage report. -/
def getSystemSummary (s : TranslatorState) : PyVal :=
  .dict (rangeDefinitions.map (fun p =>
    let start := p.snd.start
    let stop := p.snd.stop
    let capacity := stop - start + 1
    let codesInRange := (registryKeys s).filter (fun c => start ≤ c && c ≤ stop)
    let used := codesInRange.length
    (.str p.fst,
     .dict [(.str "range", .str (toString start ++ "-" ++ toString stop)),
            (.str "description", .str p.snd.descr),
            (.str "total_capacity", .int capacity),
            (.str "codes_used", .int used),
            (.str "codes_available", .int (capacity - used)),
            (.str "utilization", .str (fmtPct1 used capacity.toNat)),
            (.str "defined_codes", .list ((sortInts codesInRange).take 10 |>.map PyVal.int))])))

/-- `get_statistics`.  `discovery_time_ms` is a wall-clock reading with no
counterpart in the model and is rendered as the constant `"0.00"`;
`discovery_errors` is 0 for the actual module. -/
def getStatistics (s : TranslatorState) : PyVal :=
  .dict [(.str "total_codes_registered", .int s.codeRegistry.length),
         (.str "total_translations_performed", .int s.totalTranslations),
         (.str "cache_hits", .int s.cacheHits),
         (.str "cache_hit_rate_percent",
          .str (if s.totalTranslations > 0 then fmtPct1 s.cacheHits s.totalTranslations else "0.0%")),
         (.str "discovery_time_ms", .str "0.00"),
         (.str "discovery_errors", .int 0)]

/-! ## Guard rails: `suggest_code_allocation` -/

/-- `any(word in concept_lower for word in words)`. -/
def keywordHit (conceptLower : String) (words : List String) : Bool :=
  words.any (fun w => strContains conceptLower w)

/-- The keyword cascade of `suggest_code_allocation` (first match wins):
suggested system and rationale. -/
def classifyConcept (conceptLower : String) : String × String :=
  if keywordHit conceptLower ["auth", "login", "permission", "role", "security"] then
    ("auth_system", "Authentication-related concepts belong in auth system")
  else if keywordHit conceptLower ["container", "docker", "kubernetes", "infrastructure"] then
    ("infrastructure", "Infrastructure concepts belong in infrastructure range")
  else if keywordHit conceptLower ["database", "storage", "cache", "backup"] then
    ("data_storage", "Data-related concepts belong in data storage")
  else if keywordHit conceptLower ["ai", "ml", "neural", "learning", "agent"] then
    ("ai_ml", "AI/ML concepts belong in AI & ML range")
  else if keywordHit conceptLower ["business", "workflow", "process", "rule"] then
    ("business_logic", "Business concepts belong in business logic")
  else if keywordHit conceptLower ["monitor", "health", "metric", "alert", "log"] then
    ("monitoring", "Monitoring concepts belong in monitoring range")
  else if keywordHit conceptLower ["api", "integration", "webhook", "external"] then
    ("integration", "Integration concepts belong in integration range")
  else if keywordHit conceptLower ["ui", "frontend", "mobile", "app"] then
    ("application", "Application concepts belong in application range")
  else
    ("company_specific", "Custom concepts can use company-specific extension range")

/-- Python `range(a, b)` over integers. -/
def intRange (a b : Int) : List Int :=
  (List.range (b - a).toNat).map (fun i => a + Int.ofNat i)

/-- `{"error": msg}`. -/
def errOnly (msg : String) : PyVal :=
  .dict [(.str "error", .str msg)]

/-- The system the keyword cascade selects for a concept (first component
of `classifyConcept` on the lower-cased text). -/
def suggestedRangeOf (concept : String) : String :=
  (classifyConcept (pyLower concept)).fst

/-- `system_info.get("start", 0)` in `suggest_code_allocation`. -/
def rangeStartOf (sys : String) : Int :=
  match rangeDefinitions.lookup sys with | some r => r.start | Option.none => 0

/-- `system_info.get("end", 0)` in `suggest_code_allocation`. -/
def rangeEndOf (sys : String) : Int :=
  match rangeDefinitions.lookup sys with | some r => r.stop | Option.none => 0

/-- The codes currently registered inside a system's range (the
`existing_codes` list of `suggest_code_allocation`). -/
def existingCodesIn (s : TranslatorState) (sys : String) : List Int :=
  (registryKeys s).filter (fun c => rangeStartOf sys ≤ c && c ≤ rangeEndOf sys)

/-- The free space `(end - start + 1) - len(existing_codes)` of
`suggest_code_allocation`. -/
def availableSpaceIn (s : TranslatorState) (sys : String) : Int :=
  (rangeEndOf sys - rangeStartOf sys + 1) - (existingCodesIn s sys).length

/-- `suggest_code_allocation` on a string concept and an integer size
(the only shapes under which it completes without a `TypeError`; the
dynamic wrapper below handles the rest). -/
def suggestCodeAllocation (s : TranslatorState) (concept : String) (size : Int) : PyVal :=
  if concept == "" || pyLen (pyStrip concept) == 0 then
    errOnly "Concept description cannot be empty"
  else if pyLen concept > 200 then
    errOnly "Concept description too long (max 200 characters)"
  else if size ≤ 0 || size > 100 then
    errOnly "Estimated size must be between 1 and 100"
  else
    let conceptLower := pyLower concept
    let cls := classifyConcept conceptLower
    let suggestedSystem := cls.fst
    let rationale := cls.snd
    let systemInfo := rangeDefinitions.lookup suggestedSystem
    let startRange : Int := rangeStartOf suggestedSystem
    let endRange : Int := rangeEndOf suggestedSystem
    let existingCodes := existingCodesIn s suggestedSystem
    let availableSpace : Int := availableSpaceIn s suggestedSystem
    if availableSpace < size then
      .dict [(.str "error", .str ("Insufficient space in " ++ suggestedSystem)),
             (.str "available_space", .int availableSpace),
             (.str "requested_size", .int size),
             (.str "suggested_alternative", .str "Consider using company_specific or future_expansion range")]
    else
      let startCode : Option Int :=
        (intRange startRange (endRange - size + 2)).find?
          (fun p => (intRange p (p + size)).all (fun c => !existingCodes.contains c))
      .dict [(.str "suggested_system", .str suggestedSystem),
             (.str "rationale", .str rationale),
             (.str "range_start", .int startRange),
             (.str "range_end", .int endRange),
             (.str "suggested_start_code",
              match startCode with | some c => .int c | Option.none => .none),
             (.str "estimated_codes_needed", .int size),
             (.str "available_space", .int availableSpace),
             (.str "system_description",
              .str (match systemInfo with | some r => r.descr | Option.none => "Unknown system")),
             (.str "validation_passed", .bool true)]


/-! ## Python rendering (`str`/`repr`) for response messages -/

mutual

/-- Python `repr` for the values we model (string escaping inside quotes is
not reproduced; no modelled string contains a quote). -/
def pyRepr : PyVal → String
  | .none => "None"
  | .bool b => if b then "True" else "False"
  | .int n => toString n
  | .str s => "'" ++ s ++ "'"
  | .list xs => "[" ++ String.intercalate ", " (pyReprList xs) ++ "]"
  | .dict es => "\x7b" ++ String.intercalate ", " (pyReprEntries es) ++ "\x7d"

/-- `repr` of each list element. -/
def pyReprList : List PyVal → List String
  | [] => []
  | x :: xs => pyRepr x :: pyReprList xs

/-- `repr` of each dict entry. -/
def pyReprEntries : List (PyVal × PyVal) → List String
  | [] => []
  | (k, v) :: es => (pyRepr k ++ ": " ++ pyRepr v) :: pyReprEntries es

end

/-- Python `str(x)` (as used by f-strings): the string itself for strings,
`repr` otherwise. -/
def pyStr : PyVal → String
  | .str s => s
  | v => pyRepr v

/-! ## Guard rails: `validate_code_addition` -/

/-- The error-accumulating body of `validate_code_addition`, for argument
shapes that complete without an exception: any hashable `code`, a string
`name`, and a `system` that is either not a recognised range name or comes
with a numeric `code` (the wrapper below routes every other shape to the
exception path).  Guards appear in source order; all violations are
accumulated. -/
def validateBuild (s : TranslatorState) (code : PyVal) (nm : String) (system : PyVal) : PyVal :=
  let err1 : List String :=
    match pyNum code with
    | some n =>
      match s.codeRegistry.lookup n with
      | some info =>
        ["Code " ++ pyStr code ++ " already exists with name '" ++ info.name ++ "' - codes are immutable"]
      | Option.none => []
    | Option.none => []
  let err2 : List String :=
    match system with
    | .str sys =>
      match rangeDefinitions.lookup sys with
      | some r =>
        match pyNum code with
        | some n =>
          if r.start ≤ n && n ≤ r.stop then []
          else ["Code " ++ pyStr code ++ " is outside valid range for system '" ++ sys ++
                "' (" ++ toString r.start ++ "-" ++ toString r.stop ++ ")"]
        | Option.none => []
      | Option.none => ["System '" ++ sys ++ "' is not a valid system"]
    | other => ["System '" ++ pyStr other ++ "' is not a valid system"]
  let err3a : List String :=
    if nm == "" || pyLen (pyStrip nm) == 0 then ["Name cannot be empty"] else []
  let err3b : List String :=
    if pyLen nm > 100 then ["Name too long (max 100 characters)"] else []
  let err4 : List String :=
    s.codeRegistry.filterMap (fun p =>
      if p.snd.name == pyLower nm && pyEq (.str p.snd.system) system then
        some ("Name '" ++ nm ++ "' already exists in system '" ++ pyStr system ++
              "' with code " ++ toString p.fst)
      else Option.none)
  let err5 : List String :=
    let cleaned := nm.data.filter (fun c => c != '_' && c != '-')
    if !cleaned.isEmpty && cleaned.all Char.isAlphanum then []
    else ["Name contains invalid characters (only letters, numbers, _, - allowed)"]
  let errors := err1 ++ err2 ++ err3a ++ err3b ++ err4 ++ err5
  .dict [(.str "valid", .bool errors.isEmpty),
         (.str "errors", .list (errors.map PyVal.str)),
         (.str "code", code),
         (.str "name", .str nm),
         (.str "system", system)]

/-- `validate_code_addition` as called from the string command surface:
integer code, string name and system (these shapes never raise). -/
def validateCodeAddition (s : TranslatorState) (code : Int) (name system : String) : PyVal :=
  validateBuild s (.int code) name (.str system)

/-- `validate_code_addition` on arbitrary Python arguments as reachable
from the structured-request surface.  `.error` models the paths that raise
(`TypeError` from an unhashable `code` or `system` at the membership
checks, `TypeError` from the range-bounds comparison when the system is a
recognised range name but `code` is not numeric, `AttributeError`/`TypeError`
from the name guards when `name` is not a string). -/
def validateCodeAdditionDyn (s : TranslatorState) (code name system : PyVal) :
    Except Unit PyVal :=
  match code with
  | .list _ => .error ()
  | .dict _ => .error ()
  | _ =>
    match system with
    | .list _ => .error ()
    | .dict _ => .error ()
    | _ =>
      let sysValid : Bool :=
        match system with
        | .str sys => (rangeDefinitions.lookup sys).isSome
        | _ => false
      if sysValid && (pyNum code).isNone then .error ()
      else
        match name with
        | .str nm => .ok (validateBuild s code nm system)
        | _ => .error ()

/-- `suggest_code_allocation` on arbitrary Python arguments as reachable
from the structured-request surface: the concept guards run first (so a
falsy or failing concept answers before `size` is ever inspected), then a
non-numeric `size` raises at the bounds comparison and a truthy non-string
concept raises at `concept_description.strip()`. -/
def suggestCodeAllocationDyn (s : TranslatorState) (concept size : PyVal) :
    Except Unit PyVal :=
  match concept with
  | .str c =>
    if c == "" || pyLen (pyStrip c) == 0 then
      .ok (errOnly "Concept description cannot be empty")
    else if pyLen c > 200 then
      .ok (errOnly "Concept description too long (max 200 characters)")
    else
      match pyNum size with
      | some n => .ok (suggestCodeAllocation s c n)
      | Option.none => .error ()
  | other =>
    if pyTruthy other then .error ()
    else .ok (errOnly "Concept description cannot be empty")

/-! ## Request dispatch (`handle_request` and friends) -/

/-- A uniform `{"status": "error", "error": msg}` response. -/
def mkErr (msg : String) : PyVal :=
  .dict [(.str "status", .str "error"), (.str "error", .str msg)]

/-- `_get_help_response`: the static help document. -/
def helpResponse : PyVal :=
  .dict [(.str "status", .str "success"),
         (.str "request_type", .str "help"),
         (.str "help", .dict [
           (.str "description", .str "Universal Integer Discovery System - Request Handler"),
           (.str "supported_inputs", .dict [
             (.str "integer", .str "Direct code translation (e.g., 1000)"),
             (.str "string_commands", .dict [
               (.str "help or ?", .str "Show this help"),
               (.str "stats", .str "Show system statistics"),
               (.str "summary", .str "Show system summary"),
               (.str "search <term>", .str "Search codes by name"),
               (.str "suggest <concept>", .str "Suggest code allocation"),
               (.str "validate <code> <name> <system>", .str "Validate code addition")]),
             (.str "structured_requests", .dict [
               (.str "format", .dict [
                 (.str "operation", .str "..."),
                 (.str "parameters", .str "...")]),
               (.str "operations", .list [.str "translate", .str "search", .str "suggest",
                 .str "validate", .str "system_info", .str "range_check"])]),
             (.str "batch_requests", .str "List of any supported request types")]),
           (.str "examples", .dict [
             (.str "code_lookup", .int 1000),
             (.str "name_search", .str "search auth"),
             (.str "suggestion", .str "suggest new payment system"),
             (.str "structured", .dict [
               (.str "operation", .str "translate"),
               (.str "code", .int 1000)]),
             (.str "batch", .list [.int 1000, .str "search user",
               .dict [(.str "operation", .str "stats")]])])])]

/-- `_handle_code_request`.  A non-numeric code reaches
`translate_code`, which counts the call and then raises a `TypeError`
(unhashable or unorderable code); the method's own `try/except` converts
that into an error response after the counter increment.  The exception
text is abbreviated to its type name. -/
def handleCodeRequest (s : TranslatorState) (orig : PyVal) : PyVal × TranslatorState :=
  match pyNum orig with
  | some n =>
    let (translation, s₁) := translateCode s n
    let (system, s₂) := getSystemForCode s₁ n
    let (formatted, s₃) := formatCodeWithContext s₂ n
    let (info, s₄) := getCodeInfo s₃ n
    (.dict [(.str "status", .str "success"),
            (.str "request_type", .str "code_translation"),
            (.str "code", orig),
            (.str "translation", .str translation),
            (.str "system", .str system),
            (.str "formatted", .str formatted),
            (.str "detailed_info", info)], s₄)
  | Option.none =>
    (.dict [(.str "status", .str "error"),
            (.str "error", .str "Code translation failed: TypeError"),
            (.str "code", orig)],
     { s with totalTranslations := s.totalTranslations + 1 })

/-- `_handle_string_request`: command parsing over the lower-cased,
stripped request, with slicing performed on the original string exactly as
in the source. -/
def handleStringRequest (s : TranslatorState) (request : String) : PyVal × TranslatorState :=
  let rl := pyStrip (pyLower request)
  if pyStartsWith rl "help" || rl == "?" then
    (helpResponse, s)
  else if pyStartsWith rl "stats" || rl == "statistics" then
    (.dict [(.str "status", .str "success"),
            (.str "request_type", .str "statistics"),
            (.str "data", getStatistics s)], s)
  else if pyStartsWith rl "summary" || rl == "systems" then
    (.dict [(.str "status", .str "success"),
            (.str "request_type", .str "system_summary"),
            (.str "data", getSystemSummary s)], s)
  else if pyStartsWith rl "search " then
    let term := pyDrop request 7
    let (results, s₁) := findCodesByName s term
    (.dict [(.str "status", .str "success"),
            (.str "request_type", .str "name_search"),
            (.str "search_term", .str term),
            (.str "results", .list results),
            (.str "count", .int results.length)], s₁)
  else if pyStartsWith rl "suggest " then
    let concept := pyDrop request 8
    (.dict [(.str "status", .str "success"),
            (.str "request_type", .str "code_suggestion"),
            (.str "concept", .str concept),
            (.str "suggestion", suggestCodeAllocation s concept 10)], s)
  else if pyStartsWith rl "validate " then
    match pySplit (pyDrop request 9) with
    | p0 :: p1 :: p2 :: _ =>
      match pyIntParse p0 with
      | some code =>
        (.dict [(.str "status", .str "success"),
                (.str "request_type", .str "validation"),
                (.str "validation_result", validateCodeAddition s code p1 p2)], s)
      | Option.none =>
        (mkErr "Invalid validation format. Use: validate <code> <name> <system>", s)
    | _ =>
      (mkErr "Validation requires: code, name, and system", s)
  else if pyIsDigit request then
    handleCodeRequest s (.int (Int.ofNat (digitsToNat request.data 0)))
  else
    let (results, s₁) := findCodesByName s request
    (.dict [(.str "status", .str "success"),
            (.str "request_type", .str "name_search"),
            (.str "search_term", .str request),
            (.str "results", .list results),
            (.str "count", .int results.length)], s₁)

/-- `_handle_structured_request`.  `.error` models the operations that let
an exception escape to `handle_request`'s outer `try` (nothing in those
paths mutates the translator before raising). -/
def handleStructuredRequest (s : TranslatorState) (es : List (PyVal × PyVal)) :
    Except Unit (PyVal × TranslatorState) :=
  let req := PyVal.dict es
  let operation := (pyGet req "operation").getD (.str "unknown")
  if pyEq operation (.str "translate") then
    match (pyGet req "code").getD .none with
    | .none => .ok (mkErr "Missing 'code' parameter", s)
    | c => .ok (handleCodeRequest s c)
  else if pyEq operation (.str "search") then
    let t1 := (pyGet req "term").getD .none
    let term := if pyTruthy t1 then t1 else (pyGet req "search_term").getD .none
    if pyTruthy term then
      match term with
      | .str t =>
        let (results, s₁) := findCodesByName s t
        .ok (.dict [(.str "status", .str "success"),
                    (.str "request_type", .str "name_search"),
                    (.str "search_term", .str t),
                    (.str "results", .list results),
                    (.str "count", .int results.length)], s₁)
      | _ => .error ()
    else .ok (mkErr "Missing 'term' parameter", s)
  else if pyEq operation (.str "suggest") then
    let concept := (pyGet req "concept").getD .none
    let size := (pyGet req "size").getD (.int 10)
    if pyTruthy concept then
      match suggestCodeAllocationDyn s concept size with
      | .ok suggestion =>
        .ok (.dict [(.str "status", .str "success"),
                    (.str "request_type", .str "code_suggestion"),
                    (.str "concept", concept),
                    (.str "size", size),
                    (.str "suggestion", suggestion)], s)
      | .error e => .error e
    else .ok (mkErr "Missing 'concept' parameter", s)
  else if pyEq operation (.str "validate") then
    let code := (pyGet req "code").getD .none
    let name := (pyGet req "name").getD .none
    let system := (pyGet req "system").getD .none
    let codeNotNone : Bool := match code with | .none => false | _ => true
    if codeNotNone && pyTruthy name && pyTruthy system then
      match validateCodeAdditionDyn s code name system with
      | .ok v =>
        .ok (.dict [(.str "status", .str "success"),
                    (.str "request_type", .str "validation"),
                    (.str "validation_result", v)], s)
      | .error e => .error e
    else .ok (mkErr "Missing required parameters: code, name, system", s)
  else if pyEq operation (.str "system_info") then
    let systemName := (pyGet req "system").getD .none
    if pyTruthy systemName then
      match systemName with
      | .list _ => .error ()
      | .dict _ => .error ()
      | .str sys =>
        match pyGet (getSystemSummary s) sys with
        | some info =>
          .ok (.dict [(.str "status", .str "success"),
                      (.str "request_type", .str "system_info"),
                      (.str "system", .str sys),
                      (.str "info", info)], s)
        | Option.none =>
          .ok (.dict [(.str "status", .str "error"),
                      (.str "error", .str ("System '" ++ sys ++ "' not found")),
                      (.str "available_systems",
                       .list (rangeDefinitions.map (fun p => .str p.fst)))], s)
      | other =>
        .ok (.dict [(.str "status", .str "error"),
                    (.str "error", .str ("System '" ++ pyStr other ++ "' not found")),
                    (.str "available_systems",
                     .list (rangeDefinitions.map (fun p => .str p.fst)))], s)
    else .ok (mkErr "Missing 'system' parameter", s)
  else if pyEq operation (.str "range_check") then
    let code := (pyGet req "code").getD .none
    let system := (pyGet req "system").getD .none
    let codeNotNone : Bool := match code with | .none => false | _ => true
    if codeNotNone && pyTruthy system then
      match system with
      | .list _ => .error ()
      | .dict _ => .error ()
      | .str sys =>
        match rangeDefinitions.lookup sys with
        | some r =>
          match pyNum code with
          | some n =>
            .ok (.dict [(.str "status", .str "success"),
                        (.str "request_type", .str "range_check"),
                        (.str "code", code),
                        (.str "system", system),
                        (.str "valid", .bool (r.start ≤ n && n ≤ r.stop))], s)
          | Option.none => .error ()
        | Option.none =>
          .ok (.dict [(.str "status", .str "success"),
                      (.str "request_type", .str "range_check"),
                      (.str "code", code),
                      (.str "system", system),
                      (.str "valid", .bool false)], s)
      | _ =>
        .ok (.dict [(.str "status", .str "success"),
                    (.str "request_type", .str "range_check"),
                    (.str "code", code),
                    (.str "system", system),
                    (.str "valid", .bool false)], s)
    else .ok (mkErr "Missing 'code' or 'system' parameter", s)
  else
    .ok (.dict [(.str "status", .str "error"),
                (.str "error", .str ("Unknown operation: " ++ pyStr operation)),
                (.str "available_operations",
                 .list [.str "translate", .str "search", .str "suggest",
                        .str "validate", .str "system_info", .str "range_check"])], s)

/-- `r.get("status") == v` (missing status compares unequal, as `None`
does in Python). -/
def statusIs (r : PyVal) (v : String) : Bool :=
  pyEq ((pyGet r "status").getD .none) (.str v)

mutual

/-- `handle_request`: the uniform four-shape dispatch.  The outer
`try/except` surfaces only for structured requests (the one shape whose
handler can raise); its exception text is abbreviated to the type name. -/
def handleRequest (s : TranslatorState) (req : PyVal) : PyVal × TranslatorState :=
  match req with
  | .int n => handleCodeRequest s (.int n)
  | .bool b => handleCodeRequest s (.bool b)
  | .str str => handleStringRequest s str
  | .dict es =>
    match handleStructuredRequest s es with
    | .ok r => r
    | .error _ =>
      (.dict [(.str "status", .str "error"),
              (.str "error", .str "Request processing failed: TypeError"),
              (.str "request_type", .str "dict")], s)
  | .list xs =>
    let (results, s₁) := handleBatchItems s xs 0
    (.dict [(.str "status", .str "success"),
            (.str "request_type", .str "batch"),
            (.str "total_requests", .int xs.length),
            (.str "results", .list results),
            (.str "summary", .dict [
              (.str "successful", .int (results.countP (fun r => statusIs r "success"))),
              (.str "failed", .int (results.countP (fun r => statusIs r "error")))])], s₁)
  | .none =>
    (.dict [(.str "status", .str "error"),
            (.str "error", .str ("Unsupported request type: " ++ pyTypeName .none)),
            (.str "supported_types",
             .list [.str "int", .str "str", .str "dict", .str "list"])], s)

/-- `_handle_batch_request`'s loop: dispatch each element in order through
the whole of `handle_request`, threading the translator state, and tag
each result with its index.  (The loop's own per-item `try/except` is
unreachable: `handle_request` already catches every exception.) -/
def handleBatchItems (s : TranslatorState) (items : List PyVal) (i : Nat) :
    List PyVal × TranslatorState :=
  match items with
  | [] => ([], s)
  | x :: xs =>
    let (r, s₁) := handleRequest s x
    let (rest, s₂) := handleBatchItems s₁ xs (i + 1)
    (pyDictSet r "batch_index" (.int i) :: rest, s₂)

end

/-- The translator state reached after dispatching the first `i` elements
of a batch (used to state what the `i`-th batch result is, independently of
the batch loop's own recursion). -/
def batchStateAt (s : TranslatorState) (xs : List PyVal) (i : Nat) : TranslatorState :=
  (xs.take i).foldl (fun st x => (handleRequest st x).snd) s

/-! ## Self-Sustaining Learning Service (`self_sustaining.py`) -/

/-- `UnknownCodeRecord`: tracking data for a code the registry does not
recognise.  Timestamps are the `time.time()` readings passed in by the
caller (wall clock modelled as explicit arguments). -/
structure UnknownCodeRecord where
  code : Int
  firstSeen : Nat
  lastSeen : Nat
  count : Nat
  contexts : List (Nat × PyVal)

/-- The mutable state of a `RealSelfSustainingService`: the wrapped
discovery translator, the unknown-code map, and the service counters
(`translations`, `unknown_encountered`, `proposals_created`).  The
proposal map and the disk persistence of unknown codes are outside the
claims under verification and are not modelled; a freshly constructed
service in a clean environment (no cache file) starts with an empty
unknown-code map, which is the `freshService` below. -/
structure ServiceState where
  discovery : TranslatorState
  unknownCodes : List (Int × UnknownCodeRecord)
  statTranslations : Nat
  statUnknown : Nat
  statProposals : Nat

/-- A freshly constructed service over a freshly constructed translator. -/
def freshService (raw : List RawCode) : ServiceState :=
  ⟨freshTranslator raw, [], 0, 0, 0⟩

/-- `datetime.fromtimestamp(t).isoformat()`: the model renders the
timestamp in decimal — every claim depends only on *which* timestamp is
rendered, never on the ISO-8601 surface syntax. -/
def isoformat (t : Nat) : String :=
  "ts-" ++ toString t

/-- `_track_unknown_code` at wall-clock reading `t`: create the record
with count 1 on first sight, else increment the count and refresh
`last_seen`; append a truthy context with its own timestamp. -/
def trackUnknownCode (svc : ServiceState) (t : Nat) (code : Int) (ctx : Option PyVal) :
    ServiceState :=
  let updated : UnknownCodeRecord :=
    match svc.unknownCodes.lookup code with
    | Option.none => ⟨code, t, t, 1, []⟩
    | some rec => { rec with count := rec.count + 1, lastSeen := t }
  let withCtx : UnknownCodeRecord :=
    match ctx with
    | some c => if pyTruthy c then { updated with contexts := updated.contexts ++ [(t, c)] } else updated
    | Option.none => updated
  { svc with unknownCodes := assocSet svc.unknownCodes code withCtx }

/-- `translate_with_learning` at wall-clock reading `t`: delegate to the
discovery translator; if the translation is the synthesized `"unknown_…"`
form, track the code and answer with an unknown-status response carrying
`times_seen`/`first_seen`, else answer with a plain known-status
response. -/
def translateWithLearning (svc : ServiceState) (t : Nat) (code : Int) (ctx : Option PyVal) :
    PyVal × ServiceState :=
  let svc₁ : ServiceState := { svc with statTranslations := svc.statTranslations + 1 }
  let (translation, d₁) := translateCode svc₁.discovery code
  let (system, d₂) := getSystemForCode d₁ code
  let svc₂ : ServiceState := { svc₁ with discovery := d₂ }
  if pyStartsWith translation "unknown_" then
    let svc₃ := trackUnknownCode { svc₂ with statUnknown := svc₂.statUnknown + 1 } t code ctx
    let record : UnknownCodeRecord := (svc₃.unknownCodes.lookup code).getD ⟨code, t, t, 1, []⟩
    (.dict [(.str "code", .int code),
            (.str "translation", .str translation),
            (.str "system", .str system),
            (.str "status", .str "unknown"),
            (.str "times_seen", .int record.count),
            (.str "first_seen", .str (isoformat record.firstSeen))], svc₃)
  else
    (.dict [(.str "code", .int code),
            (.str "translation", .str translation),
            (.str "system", .str system),
            (.str "status", .str "known")], svc₂)

/-- `n` successive `translate_with_learning` calls for one code, one per
wall-clock reading in `ts`, collecting the responses. -/
def runLearning (svc : ServiceState) (code : Int) (ts : List Nat) :
    List PyVal × ServiceState :=
  match ts with
  | [] => ([], svc)
  | t :: rest =>
    let (r, svc₁) := translateWithLearning svc t code Option.none
    let (rs, svc₂) := runLearning svc₁ code rest
    (r :: rs, svc₂)

/-! ## Container consumer topic construction (`pulsar_consumer.py`) -/

/-- `ContainerConsumerConfig` (`config.py`): the fields used by the
consumer.  `additional_topics` defaults to Python `None`
(`Option.none` here); `nspace` models the `namespace` field
(`namespace` is a Lean keyword). -/
structure ContainerConsumerConfig where
  container_name : String
  subscription_name : String
  tenant : String
  nspace : String
  pulsar_url : String
  additional_topics : Option (List String)
  max_retries : Int

/-- The topic list built in `ContainerConsumer.__init__`: the container's
own topic first, then (when `additional_topics` is truthy — neither `None`
nor empty) each additional topic, qualified into the same
tenant/namespace when it lacks the `"://"` scheme separator and used
unchanged otherwise. -/
def buildTopics (cfg : ContainerConsumerConfig) : List String :=
  let own := cfg.tenant ++ "://" ++ cfg.nspace ++ "/" ++ cfg.container_name
  let addl : List String :=
    match cfg.additional_topics with
    | Option.none => []
    | some ts =>
      if ts.isEmpty then []
      else ts.map (fun topic =>
        if !strContains topic "://" then
          cfg.tenant ++ "://" ++ cfg.nspace ++ "/" ++ topic
        else topic)
  own :: addl

/-! ## Database configuration defaults (`config.py`, `DatabaseConfig`) -/

/-- A Python configuration value: needed because three `DatabaseConfig`
fields carry trailing commas in the source, so their defaults are
single-element tuples rather than the annotated scalars. -/
inductive ConfVal where
  | str (s : String)
  | pynone
  | bool (b : Bool)
  | tuple1 (v : ConfVal)
deriving DecidableEq

/-- `DatabaseConfig`: `nspace` models the `namespace` field. -/
structure DatabaseConfig where
  max_connections : Int
  url : String
  timeout : Int
  tenant : Option String
  nspace : ConfVal
  auth_token : ConfVal
  enable_tls : ConfVal

/-- `DatabaseConfig()` in an environment where none of
`MAX_CONNECTIONS`, `DATABASE_URL`, `DB_TIMEOUT`, `DB_TENANT` are set:
`max_connections = int("10")`, `url = "sqlite:///integer_codes.db"`,
`timeout = float("30.0")` (integral, modelled as `30`),
`tenant = os.getenv("DB_TENANT") = None`; and — because the source writes
`namespace: str = "code-gen",` / `auth_token: str = None,` /
`enable_tls: bool = False,` with trailing commas — the last three defaults
are the single-element tuples `("code-gen",)`, `(None,)`, `(False,)`. -/
def defaultDatabaseConfig : DatabaseConfig :=
  { max_connections := 10
    url := "sqlite:///integer_codes.db"
    timeout := 30
    tenant := Option.none
    nspace := .tuple1 (.str "code-gen")
    auth_token := .tuple1 .pynone
    enable_tls := .tuple1 (.bool false) }

/-- A translator state whose registry holds the 996 codes 1000–1995 (all
inside the auth range): a concrete state on which the insufficient-space
guard of `suggest_code_allocation` fires. -/
def denseAuthState : TranslatorState :=
  ⟨(List.range 996).map (fun i => ((1000 : Int) + Int.ofNat i, ⟨"n", "C", "auth_system"⟩)),
   [], [], 0, 0⟩

/-! ## Lemmas: string helpers -/

theorem isWhitespace_asciiLower (c : Char) :
    (asciiLower c).isWhitespace = c.isWhitespace := by
  by_cases h1 : (c == 'A') = true
  · have he := eq_of_beq h1; subst he; rfl
  by_cases h2 : (c == 'B') = true
  · have he := eq_of_beq h2; subst he; rfl
  by_cases h3 : (c == 'C') = true
  · have he := eq_of_beq h3; subst he; rfl
  by_cases h4 : (c == 'D') = true
  · have he := eq_of_beq h4; subst he; rfl
  by_cases h5 : (c == 'E') = true
  · have he := eq_of_beq h5; subst he; rfl
  by_cases h6 : (c == 'F') = true
  · have he := eq_of_beq h6; subst he; rfl
  by_cases h7 : (c == 'G') = true
  · have he := eq_of_beq h7; subst he; rfl
  by_cases h8 : (c == 'H') = true
  · have he := eq_of_beq h8; subst he; rfl
  by_cases h9 : (c == 'I') = true
  · have he := eq_of_beq h9; subst he; rfl
  by_cases h10 : (c == 'J') = true
  · have he := eq_of_beq h10; subst he; rfl
  by_cases h11 : (c == 'K') = true
  · have he := eq_of_beq h11; subst he; rfl
  by_cases h12 : (c == 'L') = true
  · have he := eq_of_beq h12; subst he; rfl
  by_cases h13 : (c == 'M') = true
  · have he := eq_of_beq h13; subst he; rfl
  by_cases h14 : (c == 'N') = true
  · have he := eq_of_beq h14; subst he; rfl
  by_cases h15 : (c == 'O') = true
  · have he := eq_of_beq h15; subst he; rfl
  by_cases h16 : (c == 'P') = true
  · have he := eq_of_beq h16; subst he; rfl
  by_cases h17 : (c == 'Q') = true
  · have he := eq_of_beq h17; subst he; rfl
  by_cases h18 : (c == 'R') = true
  · have he := eq_of_beq h18; subst he; rfl
  by_cases h19 : (c == 'S') = true
  · have he := eq_of_beq h19; subst he; rfl
  by_cases h20 : (c == 'T') = true
  · have he := eq_of_beq h20; subst he; rfl
  by_cases h21 : (c == 'U') = true
  · have he := eq_of_beq h21; subst he; rfl
  by_cases h22 : (c == 'V') = true
  · have he := eq_of_beq h22; subst he; rfl
  by_cases h23 : (c == 'W') = true
  · have he := eq_of_beq h23; subst he; rfl
  by_cases h24 : (c == 'X') = true
  · have he := eq_of_beq h24; subst he; rfl
  by_cases h25 : (c == 'Y') = true
  · have he := eq_of_beq h25; subst he; rfl
  by_cases h26 : (c == 'Z') = true
  · have he := eq_of_beq h26; subst he; rfl
  unfold asciiLower
  rw [if_neg h1, if_neg h2, if_neg h3, if_neg h4, if_neg h5, if_neg h6, if_neg h7, if_neg h8, if_neg h9, if_neg h10, if_neg h11, if_neg h12, if_neg h13, if_neg h14, if_neg h15, if_neg h16, if_neg h17, if_neg h18, if_neg h19, if_neg h20, if_neg h21, if_neg h22, if_neg h23, if_neg h24, if_neg h25, if_neg h26]

theorem isPrefixOf_append_self (l m : List Char) : l.isPrefixOf (l ++ m) = true := by
  induction l with
  | nil => simp [List.isPrefixOf]
  | cons c cs ih => simp [List.isPrefixOf, ih]

theorem pyStartsWith_append_self (p t : String) : pyStartsWith (p ++ t) p = true := by
  unfold pyStartsWith
  rw [String.data_append]
  exact isPrefixOf_append_self p.data t.data

theorem isPrefixOf_cons_ne (c₁ c₂ : Char) (l₁ l₂ : List Char) (h : c₁ ≠ c₂) :
    (c₁ :: l₁).isPrefixOf (c₂ :: l₂) = false := by
  simp [List.isPrefixOf, h]

theorem dropWhile_ne_nil_of_exists {p : Char → Bool} (l : List Char)
    (h : ∃ c ∈ l, p c = false) : l.dropWhile p ≠ [] := by
  induction l with
  | nil => simp at h
  | cons c cs ih =>
    rcases h with ⟨d, hd, hdp⟩
    rcases List.mem_cons.mp hd with rfl | hmem
    · simp [List.dropWhile, hdp]
    · by_cases hc : p c
      · simpa [List.dropWhile, hc] using ih ⟨d, hmem, hdp⟩
      · simp [List.dropWhile, hc]

theorem splitWsAux_nil_of_all_ws (l : List Char)
    (h : ∀ c ∈ l, c.isWhitespace = true) : splitWsAux l [] = [] := by
  induction l with
  | nil => rfl
  | cons c cs ih =>
    have hc : c.isWhitespace = true := h c (by simp)
    simp [splitWsAux, hc, List.isEmpty]
    exact ih (fun d hd => h d (by simp [hd]))

theorem exists_nonws_of_pySplit_ne_nil (s : String) (h : pySplit s ≠ []) :
    ∃ c ∈ s.data, c.isWhitespace = false := by
  by_contra hall
  push_neg at hall
  apply h
  unfold pySplit
  apply splitWsAux_nil_of_all_ws
  intro c hc
  have := hall c hc
  simpa using this

theorem dropWhile_append_of_ne_nil {p : Char → Bool} (l₁ l₂ : List Char)
    (h : l₁.dropWhile p ≠ []) :
    (l₁ ++ l₂).dropWhile p = l₁.dropWhile p ++ l₂ := by
  rw [List.dropWhile_append]
  simp [List.isEmpty_iff, h]

/-- Stripping a string of the form `pre ++ tail` whose prefix starts with a
non-whitespace character and whose tail contains a non-whitespace
character keeps the prefix intact and right-strips the tail. -/
theorem pyStrip_append (c : Char) (pd tail : List Char)
    (hc : c.isWhitespace = false)
    (htail : ∃ d ∈ tail, d.isWhitespace = false) :
    pyStrip (String.mk ((c :: pd) ++ tail))
      = String.mk ((c :: pd) ++ (tail.reverse.dropWhile Char.isWhitespace).reverse) := by
  unfold pyStrip
  have h1 : ((c :: pd) ++ tail).dropWhile Char.isWhitespace = (c :: pd) ++ tail := by
    simp [List.dropWhile, hc]
  rw [h1]
  have h2 : ((c :: pd) ++ tail).reverse = tail.reverse ++ (c :: pd).reverse := by
    simp
  rw [h2]
  have h3 : tail.reverse.dropWhile Char.isWhitespace ≠ [] := by
    apply dropWhile_ne_nil_of_exists
    rcases htail with ⟨d, hd, hdw⟩
    exact ⟨d, by simpa using hd, hdw⟩
  rw [dropWhile_append_of_ne_nil _ _ h3]
  simp

/-! ## Lemmas: association-list dictionaries -/

theorem lookup_mapset_self {β : Type} (l : List (Int × β)) (k : Int) (v : β) :
    (l.map (fun p => if p.fst == k then (k, v) else p)).lookup k = some v
      ∨ (l.map (fun p => if p.fst == k then (k, v) else p)).lookup k = l.lookup k := by
  induction l with
  | nil => right; rfl
  | cons p l ih =>
    obtain ⟨pf, pv⟩ := p
    by_cases hp : (pf == k) = true
    · left
      rw [List.map_cons, if_pos hp]
      simp [List.lookup]
    · have hp' : (pf == k) = false := by
        exact Bool.eq_false_iff.mpr hp
      have hne : pf ≠ k := beq_eq_false_iff_ne.mp hp'
      have hk : (k == pf) = false := beq_eq_false_iff_ne.mpr (fun he => hne he.symm)
      rw [List.map_cons, if_neg (show ¬((pf == k) = true) by simp [hp'])]
      rcases ih with ihl | ihr
      · left
        simp only [List.lookup, hk]
        exact ihl
      · right
        simp only [List.lookup, hk]
        exact ihr

theorem lookup_mapset_some_self {β : Type} (l : List (Int × β)) (k : Int) (v : β)
    (h : l.any (fun p => p.fst == k) = true) :
    (l.map (fun p => if p.fst == k then (k, v) else p)).lookup k = some v := by
  induction l with
  | nil => simp at h
  | cons p l ih =>
    obtain ⟨pf, pv⟩ := p
    by_cases hp : (pf == k) = true
    · rw [List.map_cons, if_pos hp]
      simp [List.lookup]
    · have hp' : (pf == k) = false := Bool.eq_false_iff.mpr hp
      have hne : pf ≠ k := beq_eq_false_iff_ne.mp hp'
      have hk : (k == pf) = false := beq_eq_false_iff_ne.mpr (fun he => hne he.symm)
      have h' : l.any (fun p => p.fst == k) = true := by simpa [hp'] using h
      rw [List.map_cons, if_neg (show ¬((pf == k) = true) by simp [hp'])]
      simp only [List.lookup, hk]
      exact ih h'

theorem lookup_mapset_ne {β : Type} (l : List (Int × β)) (k c : Int) (v : β)
    (h : c ≠ k) :
    (l.map (fun p => if p.fst == k then (k, v) else p)).lookup c = l.lookup c := by
  induction l with
  | nil => simp
  | cons p l ih =>
    obtain ⟨pf, pv⟩ := p
    by_cases hp : (pf == k) = true
    · have he := eq_of_beq hp
      subst he
      have hk : (c == pf) = false := beq_eq_false_iff_ne.mpr h
      rw [List.map_cons, if_pos hp]
      simp only [List.lookup, hk]
      exact ih
    · have hp' : (pf == k) = false := Bool.eq_false_iff.mpr hp
      rw [List.map_cons, if_neg (show ¬((pf == k) = true) by simp [hp'])]
      by_cases hc : (c == pf) = true
      · simp only [List.lookup, hc]
      · have hc' : (c == pf) = false := Bool.eq_false_iff.mpr hc
        simp only [List.lookup, hc']
        exact ih

theorem lookup_append_single_self {β : Type} (l : List (Int × β)) (k : Int) (v : β)
    (h : l.any (fun p => p.fst == k) = false) :
    (l ++ [(k, v)]).lookup k = some v := by
  induction l with
  | nil => simp [List.lookup]
  | cons p l ih =>
    obtain ⟨pf, pv⟩ := p
    have hp : (pf == k) = false := by
      by_contra hc
      simp only [Bool.not_eq_false] at hc
      simp [hc] at h
    have hne : pf ≠ k := beq_eq_false_iff_ne.mp hp
    have hk : (k == pf) = false := beq_eq_false_iff_ne.mpr (fun he => hne he.symm)
    have h' : l.any (fun p => p.fst == k) = false := by simpa [hp] using h
    simp only [List.cons_append, List.lookup, hk]
    exact ih h'

theorem lookup_append_single_ne {β : Type} (l : List (Int × β)) (k c : Int) (v : β)
    (h : c ≠ k) :
    (l ++ [(k, v)]).lookup c = l.lookup c := by
  induction l with
  | nil =>
    have hk : (c == k) = false := beq_eq_false_iff_ne.mpr h
    simp [List.lookup, hk]
  | cons p l ih =>
    obtain ⟨pf, pv⟩ := p
    by_cases hc : (c == pf) = true
    · simp only [List.cons_append, List.lookup, hc]
    · have hc' : (c == pf) = false := Bool.eq_false_iff.mpr hc
      simp only [List.cons_append, List.lookup, hc']
      exact ih

theorem lookup_assocSet_self {β : Type} (l : List (Int × β)) (k : Int) (v : β) :
    (assocSet l k v).lookup k = some v := by
  unfold assocSet
  by_cases h : l.any (fun p => p.fst == k) = true
  · simp only [h, if_true]
    exact lookup_mapset_some_self l k v h
  · have h' : l.any (fun p => p.fst == k) = false := Bool.eq_false_iff.mpr h
    simp only [h', Bool.false_eq_true, if_false]
    exact lookup_append_single_self l k v h'

theorem lookup_assocSet_ne {β : Type} (l : List (Int × β)) (k c : Int) (v : β)
    (h : c ≠ k) :
    (assocSet l k v).lookup c = l.lookup c := by
  unfold assocSet
  by_cases ha : l.any (fun p => p.fst == k) = true
  · simp only [ha, if_true]
    exact lookup_mapset_ne l k c v h
  · have ha' : l.any (fun p => p.fst == k) = false := Bool.eq_false_iff.mpr ha
    simp only [ha', Bool.false_eq_true, if_false]
    exact lookup_append_single_ne l k c v h

/-! ## Lemmas: code discovery -/

theorem discover_go_none (raw : List RawCode) (c : Int) :
    ∀ acc : List (Int × CodeInfo), acc.lookup c = Option.none →
      c ∉ raw.map RawCode.value →
      (raw.foldl (fun reg e => assocSet reg e.value (mkCodeInfo e)) acc).lookup c
        = Option.none := by
  induction raw with
  | nil =>
    intro acc hacc _
    simpa using hacc
  | cons e raw ih =>
    intro acc hacc hmem
    simp only [List.map_cons, List.mem_cons, not_or] at hmem
    simp only [List.foldl_cons]
    apply ih
    · rw [lookup_assocSet_ne _ _ _ _ hmem.left]
      exact hacc
    · exact hmem.right

theorem discover_lookup_none (raw : List RawCode) (c : Int)
    (h : c ∉ raw.map RawCode.value) :
    (discoverAllCodes raw).lookup c = Option.none := by
  unfold discoverAllCodes
  exact discover_go_none raw c [] rfl h

theorem discover_go_some (raw : List RawCode) (c : Int) (info : CodeInfo) :
    ∀ acc : List (Int × CodeInfo),
      (raw.foldl (fun reg e => assocSet reg e.value (mkCodeInfo e)) acc).lookup c
        = some info →
      acc.lookup c = some info ∨ ∃ e, e ∈ raw ∧ e.value = c ∧ info = mkCodeInfo e := by
  induction raw with
  | nil =>
    intro acc h
    left
    simpa using h
  | cons e raw ih =>
    intro acc h
    simp only [List.foldl_cons] at h
    rcases ih (assocSet acc e.value (mkCodeInfo e)) h with hacc | ⟨e₂, hm, hv, hi⟩
    · by_cases hc : c = e.value
      · subst hc
        rw [lookup_assocSet_self] at hacc
        right
        exact ⟨e, by simp, rfl, (Option.some.injEq _ _).mp hacc.symm⟩
      · rw [lookup_assocSet_ne _ _ _ _ hc] at hacc
        left
        exact hacc
    · right
      exact ⟨e₂, by simp [hm], hv, hi⟩

theorem discover_lookup_some (raw : List RawCode) (c : Int) (info : CodeInfo)
    (h : (discoverAllCodes raw).lookup c = some info) :
    ∃ e, e ∈ raw ∧ e.value = c ∧ info = mkCodeInfo e := by
  unfold discoverAllCodes at h
  rcases discover_go_some raw c info [] h with h0 | he
  · simp [List.lookup] at h0
  · exact he

/-! ## Lemmas: translator operations on a fresh state -/

theorem getSystemForCode_fresh (raw : List RawCode) (c : Int) :
    (getSystemForCode (freshTranslator raw) c).fst = determineSystem c := by
  unfold getSystemForCode freshTranslator
  cases hreg : (discoverAllCodes raw).lookup c with
  | none => simp [List.lookup, hreg]
  | some info =>
    obtain ⟨e, _, hv, hi⟩ := discover_lookup_some raw c info hreg
    simp [List.lookup, hreg, hi, mkCodeInfo, hv]

theorem translateCode_fresh_unknown (raw : List RawCode) (c : Int)
    (h : c ∉ raw.map RawCode.value) :
    (translateCode (freshTranslator raw) c).fst
      = "unknown_" ++ determineSystem c ++ "_" ++ toString c := by
  unfold translateCode freshTranslator
  simp [List.lookup, discover_lookup_none raw c h]

theorem translateCode_fresh_known (raw : List RawCode) (c : Int) (info : CodeInfo)
    (h : (discoverAllCodes raw).lookup c = some info) :
    (translateCode (freshTranslator raw) c).fst = info.name := by
  unfold translateCode freshTranslator
  simp [List.lookup, h]

/-! ## Claim theorems -/

/-- C1: from a freshly constructed translator, calling `translate_code`
twice with the same code returns the same string both times; each call
increments the total-translations counter by exactly 1 (0 → 1 → 2), the
first call leaves the cache-hit counter at 0 and the second call
increments it to 1. -/
theorem translate_code_deterministic_and_counts (raw : List RawCode) (code : Int) :
    (translateCode (freshTranslator raw) code).fst
        = (translateCode (translateCode (freshTranslator raw) code).snd code).fst
      ∧ (translateCode (freshTranslator raw) code).snd.totalTranslations = 1
      ∧ (translateCode (translateCode (freshTranslator raw) code).snd code).snd.totalTranslations = 2
      ∧ (translateCode (freshTranslator raw) code).snd.cacheHits = 0
      ∧ (translateCode (translateCode (freshTranslator raw) code).snd code).snd.cacheHits = 1 := by
  simp [translateCode, freshTranslator, List.lookup, assocSet]

set_option maxRecDepth 100000 in
/-- C2: range classification follows the documented range table
(`999 → system_metadata`, `1000/1999 → auth_system`,
`2000 → infrastructure`, `99999 → future_expansion`), and translating the
unregistered code 99999 synthesizes a fallback that starts with
`"unknown_"` and contains `"99999"`. -/
theorem range_classification_and_unknown_fallback :
    (getSystemForCode initialTranslator 999).fst = "system_metadata"
      ∧ (getSystemForCode initialTranslator 1000).fst = "auth_system"
      ∧ (getSystemForCode initialTranslator 1999).fst = "auth_system"
      ∧ (getSystemForCode initialTranslator 2000).fst = "infrastructure"
      ∧ (getSystemForCode initialTranslator 99999).fst = "future_expansion"
      ∧ pyStartsWith (translateCode initialTranslator 99999).fst "unknown_" = true
      ∧ strContains (translateCode initialTranslator 99999).fst "99999" = true := by
  have h99 : (99999 : Int) ∉ actualRawCodes.map RawCode.value := by decide
  unfold initialTranslator
  have ht := translateCode_fresh_unknown actualRawCodes 99999 h99
  refine ⟨?_, ?_, ?_, ?_, ?_, ?_, ?_⟩
  · rw [getSystemForCode_fresh]; decide
  · rw [getSystemForCode_fresh]; decide
  · rw [getSystemForCode_fresh]; decide
  · rw [getSystemForCode_fresh]; decide
  · rw [getSystemForCode_fresh]; decide
  · rw [ht]; decide
  · rw [ht]; decide

/-- C10: because `bool` is a subclass of `int`, a boolean request is
dispatched as an integer code translation (`True` behaves as code 1,
`False` as code 0, its translation being exactly what `translate_code`
returns for that numeric code) and succeeds with request type
`"code_translation"`, while `None` receives the unsupported-type error. -/
theorem bool_requests_dispatch_as_codes (s : TranslatorState) (b : Bool) :
    pyGet (handleRequest s (.bool b)).fst "status" = some (.str "success")
      ∧ pyGet (handleRequest s (.bool b)).fst "request_type" = some (.str "code_translation")
      ∧ pyGet (handleRequest s (.bool b)).fst "code" = some (.bool b)
      ∧ pyGet (handleRequest s (.bool b)).fst "translation"
          = some (.str (translateCode s (if b then 1 else 0)).fst)
      ∧ pyGet (handleRequest s .none).fst "status" = some (.str "error")
      ∧ pyGet (handleRequest s .none).fst "error"
          = some (.str "Unsupported request type: NoneType") := by
  have hnone₁ : pyGet (handleRequest s .none).fst "status" = some (.str "error") := by
    simp [handleRequest, pyGet, List.find?, pyEq, pyTypeName]
  have hnone₂ : pyGet (handleRequest s .none).fst "error"
      = some (.str "Unsupported request type: NoneType") := by
    simp [handleRequest, pyGet, List.find?, pyEq, pyTypeName]
  have hb : handleRequest s (.bool b) = handleCodeRequest s (.bool b) := by
    simp [handleRequest]
  rw [hb]
  unfold handleCodeRequest
  rcases h1 : translateCode s (if b then 1 else 0) with ⟨t, s₁⟩
  rcases h2 : getSystemForCode s₁ (if b then 1 else 0) with ⟨sys, s₂⟩
  rcases h3 : formatCodeWithContext s₂ (if b then 1 else 0) with ⟨fmt, s₃⟩
  rcases h4 : getCodeInfo s₃ (if b then 1 else 0) with ⟨info, s₄⟩
  simp only [pyNum, h1, h2, h3, h4]
  refine ⟨?_, ?_, ?_, ?_, hnone₁, hnone₂⟩
  all_goals simp [pyGet, List.find?, pyEq]

/-- C4: `suggest_code_allocation` rejects an empty or whitespace-only
concept, a concept longer than 200 characters, and an estimated size
outside [1,100], each with the corresponding error; and when the selected
range's free space is smaller than the requested size it returns an error
naming the available space and the requested size. -/
theorem suggest_code_allocation_guard_rails :
    (∀ (s : TranslatorState) (concept : String) (size : Int),
      (concept = "" ∨ pyLen (pyStrip concept) = 0) →
      suggestCodeAllocation s concept size = errOnly "Concept description cannot be empty")
      ∧ (∀ (s : TranslatorState) (concept : String) (size : Int),
        concept ≠ "" → pyLen (pyStrip concept) ≠ 0 → pyLen concept > 200 →
        suggestCodeAllocation s concept size
          = errOnly "Concept description too long (max 200 characters)")
      ∧ (∀ (s : TranslatorState) (concept : String) (size : Int),
        concept ≠ "" → pyLen (pyStrip concept) ≠ 0 → pyLen concept ≤ 200 →
        (size ≤ 0 ∨ size > 100) →
        suggestCodeAllocation s concept size
          = errOnly "Estimated size must be between 1 and 100")
      ∧ (∀ (s : TranslatorState) (concept : String) (size : Int),
        concept ≠ "" → pyLen (pyStrip concept) ≠ 0 → pyLen concept ≤ 200 →
        0 < size → size ≤ 100 →
        availableSpaceIn s (suggestedRangeOf concept) < size →
        suggestCodeAllocation s concept size
          = .dict [(.str "error", .str ("Insufficient space in " ++ suggestedRangeOf concept)),
                   (.str "available_space", .int (availableSpaceIn s (suggestedRangeOf concept))),
                   (.str "requested_size", .int size),
                   (.str "suggested_alternative",
                    .str "Consider using company_specific or future_expansion range")]) := by
  refine ⟨?_, ?_, ?_, ?_⟩
  · intro s concept size h
    unfold suggestCodeAllocation
    have hc : (concept == "" || pyLen (pyStrip concept) == 0) = true := by
      rcases h with h | h <;> simp [h]
    rw [if_pos hc]
  · intro s concept size h1 h2 h3
    unfold suggestCodeAllocation
    have hc : (concept == "" || pyLen (pyStrip concept) == 0) = false := by
      simp [h1, h2]
    rw [if_neg (by simp [hc]), if_pos h3]
  · intro s concept size h1 h2 h3 h4
    unfold suggestCodeAllocation
    have hc : (concept == "" || pyLen (pyStrip concept) == 0) = false := by
      simp [h1, h2]
    have hs : (decide (size ≤ 0) || decide (size > 100)) = true := by
      rcases h4 with h | h <;> simp [h]
    rw [if_neg (by simp [hc]), if_neg (by omega), if_pos (by simpa using hs)]
  · intro s concept size h1 h2 h3 h4 h5 h6
    unfold suggestCodeAllocation
    have hc : (concept == "" || pyLen (pyStrip concept) == 0) = false := by
      simp [h1, h2]
    have hs : (decide (size ≤ 0) || decide (size > 100)) = false := by
      simp
      omega
    rw [if_neg (by simp [hc]), if_neg (by omega), if_neg (by simpa using hs)]
    simp only [suggestedRangeOf] at h6
    rw [if_pos h6]
    simp [suggestedRangeOf]

/-- C5: a valid concept is classified by keyword matching on the
lower-cased text with first match winning in the fixed priority order
(the `suggested_system` of the result is always `classifyConcept`'s
choice); a concept matching no keyword group resolves to
`"company_specific"`; `"new authentication method"` resolves to
`"auth_system"`. -/
theorem suggest_code_allocation_classification :
    (∀ (s : TranslatorState) (concept : String) (size : Int),
      concept ≠ "" → pyLen (pyStrip concept) ≠ 0 → pyLen concept ≤ 200 →
      0 < size → size ≤ 100 →
      ¬(availableSpaceIn s (suggestedRangeOf concept) < size) →
      pyGet (suggestCodeAllocation s concept size) "suggested_system"
        = some (.str (suggestedRangeOf concept)))
      ∧ (∀ concept : String,
        keywordHit (pyLower concept) ["auth", "login", "permission", "role", "security"] = false →
        keywordHit (pyLower concept) ["container", "docker", "kubernetes", "infrastructure"] = false →
        keywordHit (pyLower concept) ["database", "storage", "cache", "backup"] = false →
        keywordHit (pyLower concept) ["ai", "ml", "neural", "learning", "agent"] = false →
        keywordHit (pyLower concept) ["business", "workflow", "process", "rule"] = false →
        keywordHit (pyLower concept) ["monitor", "health", "metric", "alert", "log"] = false →
        keywordHit (pyLower concept) ["api", "integration", "webhook", "external"] = false →
        keywordHit (pyLower concept) ["ui", "frontend", "mobile", "app"] = false →
        suggestedRangeOf concept = "company_specific")
      ∧ pyGet (suggestCodeAllocation (freshTranslator []) "new authentication method" 5)
          "suggested_system" = some (.str "auth_system")
      ∧ pyGet (suggestCodeAllocation (freshTranslator []) "totally generic widget thing" 10)
          "suggested_system" = some (.str "company_specific") := by
  refine ⟨?_, ?_, ?_, ?_⟩
  · intro s concept size h1 h2 h3 h4 h5 h6
    unfold suggestCodeAllocation
    have hc : (concept == "" || pyLen (pyStrip concept) == 0) = false := by
      simp [h1, h2]
    have hs : (decide (size ≤ 0) || decide (size > 100)) = false := by
      simp
      omega
    rw [if_neg (by simp [hc]), if_neg (by omega), if_neg (by simpa using hs)]
    simp only [suggestedRangeOf] at h6
    rw [if_neg h6]
    simp [pyGet, List.find?, pyEq, suggestedRangeOf]
  · intro concept h1 h2 h3 h4 h5 h6 h7 h8
    unfold suggestedRangeOf classifyConcept
    simp [h1, h2, h3, h4, h5, h6, h7, h8]
  · rfl
  · rfl

/-- C8: the consumer's topic list starts with the container's own
`{tenant}://{namespace}/{container_name}` topic; with no additional topics
it is exactly that singleton; each additional topic is qualified into the
same tenant/namespace when it lacks `"://"` and used unchanged
otherwise. -/
theorem consumer_topic_list (cfg : ContainerConsumerConfig) :
    (buildTopics cfg).head?
        = some (cfg.tenant ++ "://" ++ cfg.nspace ++ "/" ++ cfg.container_name)
      ∧ (cfg.additional_topics = Option.none →
        buildTopics cfg = [cfg.tenant ++ "://" ++ cfg.nspace ++ "/" ++ cfg.container_name])
      ∧ (∀ ts, cfg.additional_topics = some ts →
        (buildTopics cfg).length = 1 + (if ts.isEmpty then 0 else ts.length)
        ∧ ∀ (i : Nat) (t : String), ts[i]? = some t →
            (buildTopics cfg)[i + 1]?
              = some (if strContains t "://" then t
                      else cfg.tenant ++ "://" ++ cfg.nspace ++ "/" ++ t)) := by
  refine ⟨?_, ?_, ?_⟩
  · simp [buildTopics]
  · intro h
    simp [buildTopics, h]
  · intro ts hts
    constructor
    · by_cases he : ts.isEmpty
      · simp [buildTopics, hts, he]
      · simp [buildTopics, hts, he]
        omega
    · intro i t hit
      have hne : ts.isEmpty = false := by
        cases ts with
        | nil => simp at hit
        | cons a l => rfl
      simp only [buildTopics, hts, hne, Bool.false_eq_true, if_false]
      simp only [List.getElem?_cons_succ, List.getElem?_map, hit, Option.map_some]
      by_cases hs : strContains t "://"
      · simp [hs]
      · simp [hs]

/-- C9 (defect evaluation): a default-constructed `DatabaseConfig` has the
documented scalar defaults for max connections, URL and timeout, but —
because of trailing commas in the source — its `namespace`, `auth_token`
and `enable_tls` defaults are the single-element tuples `("code-gen",)`,
`(None,)` and `(False,)` rather than the annotated scalars. -/
theorem database_config_defaults_are_tuples :
    defaultDatabaseConfig.max_connections = 10
      ∧ defaultDatabaseConfig.url = "sqlite:///integer_codes.db"
      ∧ defaultDatabaseConfig.timeout = 30
      ∧ defaultDatabaseConfig.tenant = Option.none
      ∧ defaultDatabaseConfig.nspace = ConfVal.tuple1 (ConfVal.str "code-gen")
      ∧ defaultDatabaseConfig.nspace ≠ ConfVal.str "code-gen"
      ∧ defaultDatabaseConfig.auth_token = ConfVal.tuple1 ConfVal.pynone
      ∧ defaultDatabaseConfig.auth_token ≠ ConfVal.pynone
      ∧ defaultDatabaseConfig.enable_tls = ConfVal.tuple1 (ConfVal.bool false)
      ∧ defaultDatabaseConfig.enable_tls ≠ ConfVal.bool false := by
  refine ⟨rfl, rfl, rfl, rfl, rfl, by decide, rfl, by decide, rfl, by decide⟩

/-! ## Lemmas: reaching the `validate` branch of the string handler -/

theorem startsWith_mk_cons_ne (c : Char) (l : List Char) (p : String) (c₂ : Char)
    (l₂ : List Char) (hp : p.data = c₂ :: l₂) (hne : c₂ ≠ c) :
    pyStartsWith (String.mk (c :: l)) p = false := by
  unfold pyStartsWith
  show p.data.isPrefixOf (c :: l) = false
  rw [hp]
  exact isPrefixOf_cons_ne c₂ c l₂ l hne

theorem beq_mk_cons_ne (c : Char) (l : List Char) (t : String) (c₂ : Char)
    (l₂ : List Char) (ht : t.data = c₂ :: l₂) (hne : c ≠ c₂) :
    (String.mk (c :: l) == t) = false := by
  rw [beq_eq_false_iff_ne]
  intro he
  have hd := congrArg String.data he
  rw [ht] at hd
  exact hne (List.cons.injEq c l c₂ l₂ ▸ hd).left

/-- With at least one token after the `"validate "` prefix, the string
handler reaches the `validate` branch: three or more tokens with an
integer first token yield the success/validation response (tokens beyond
the third ignored), a non-integer first token yields the invalid-format
error, one or two tokens yield the missing-parts error. -/
theorem handleString_validate_branch (s : TranslatorState) (rest : String)
    (h : pySplit rest ≠ []) :
    handleStringRequest s ("validate " ++ rest)
      = (match pySplit rest with
         | p0 :: p1 :: p2 :: _ =>
           (match pyIntParse p0 with
            | some code =>
              PyVal.dict [(.str "status", .str "success"),
                          (.str "request_type", .str "validation"),
                          (.str "validation_result", validateCodeAddition s code p1 p2)]
            | Option.none =>
              mkErr "Invalid validation format. Use: validate <code> <name> <system>")
         | _ => mkErr "Validation requires: code, name, and system", s) := by
  obtain ⟨d, hd, hdw⟩ := exists_nonws_of_pySplit_ne_nil rest h
  have hlow : pyLower ("validate " ++ rest) = String.mk ("validate ".data ++ (pyLower rest).data) := by
    unfold pyLower
    rw [String.data_append, List.map_append]
    rfl
  have hex : ∃ c ∈ (pyLower rest).data, c.isWhitespace = false := by
    refine ⟨asciiLower d, ?_, ?_⟩
    · exact List.mem_map_of_mem asciiLower hd
    · rw [isWhitespace_asciiLower]
      exact hdw
  have hstrip : pyStrip (pyLower ("validate " ++ rest))
      = String.mk ("validate ".data
          ++ ((pyLower rest).data.reverse.dropWhile Char.isWhitespace).reverse) := by
    rw [hlow]
    exact pyStrip_append 'v' "alidate ".data (pyLower rest).data (by decide) hex
  have hdrop : pyDrop ("validate " ++ rest) 9 = rest := by
    unfold pyDrop
    rw [String.data_append]
    rw [show (9 : Nat) = "validate ".data.length from rfl, List.drop_left]
  unfold handleStringRequest
  rw [hstrip]
  have hm : String.mk ("validate ".data
        ++ ((pyLower rest).data.reverse.dropWhile Char.isWhitespace).reverse)
      = String.mk ('v' :: ("alidate ".data
        ++ ((pyLower rest).data.reverse.dropWhile Char.isWhitespace).reverse)) := rfl
  rw [hm]
  simp only []
  rw [startsWith_mk_cons_ne _ _ "help" 'h' "elp".data rfl (by decide)]
  rw [beq_mk_cons_ne _ _ "?" '?' [] rfl (by decide)]
  rw [startsWith_mk_cons_ne _ _ "stats" 's' "tats".data rfl (by decide)]
  rw [beq_mk_cons_ne _ _ "statistics" 's' "tatistics".data rfl (by decide)]
  rw [startsWith_mk_cons_ne _ _ "summary" 's' "ummary".data rfl (by decide)]
  rw [beq_mk_cons_ne _ _ "systems" 's' "ystems".data rfl (by decide)]
  rw [startsWith_mk_cons_ne _ _ "search " 's' "earch ".data rfl (by decide)]
  rw [startsWith_mk_cons_ne _ _ "suggest " 's' "uggest ".data rfl (by decide)]
  rw [show pyStartsWith (String.mk ('v' :: ("alidate ".data
        ++ ((pyLower rest).data.reverse.dropWhile Char.isWhitespace).reverse))) "validate "
      = true from isPrefixOf_append_self "validate ".data _]
  rw [hdrop]
  simp only [Bool.false_or, Bool.or_false, Bool.false_eq_true, if_false, if_true]
  cases pySplit rest with
  | nil => rfl
  | cons p0 ps =>
    cases ps with
    | nil => rfl
    | cons p1 ps₂ =>
      cases ps₂ with
      | nil => rfl
      | cons p2 ps₃ =>
        cases hip : pyIntParse p0 with
        | none => simp [hip]
        | some code => simp [hip]

/-- C7 counterexample: `"validate 10 a b c"` has four tokens after the
prefix — not exactly three — yet the handler returns a success/validation
response, so the exactly-three-token reading of the claim is false. -/
theorem validate_four_tokens_still_succeeds :
    (pySplit (pyDrop "validate 10 a b c" 9)).length = 4
      ∧ pyGet (handleStringRequest initialTranslator "validate 10 a b c").fst "status"
          = some (.str "success")
      ∧ pyGet (handleStringRequest initialTranslator "validate 10 a b c").fst "request_type"
          = some (.str "validation") := by
  refine ⟨rfl, ?_, ?_⟩
  all_goals
    rw [show ("validate 10 a b c" : String) = "validate " ++ "10 a b c" from rfl,
        handleString_validate_branch initialTranslator "10 a b c" (by decide)]
  all_goals rfl

/-- C7 (amended): for `"validate <rest>"` with at least one token in the
remainder, the handler returns a success/validation response exactly when
the remainder has three or more whitespace-separated tokens whose first
parses as an integer (tokens beyond the third are ignored); a non-integer
first token yields the invalid-format error and one or two tokens yield
the missing-parts error. -/
theorem validate_command_token_contract (s : TranslatorState) (rest : String)
    (h : pySplit rest ≠ []) :
    (∀ (p0 p1 p2 : String) (ps : List String) (code : Int),
        pySplit rest = p0 :: p1 :: p2 :: ps → pyIntParse p0 = some code →
        handleStringRequest s ("validate " ++ rest)
          = (.dict [(.str "status", .str "success"),
                    (.str "request_type", .str "validation"),
                    (.str "validation_result", validateCodeAddition s code p1 p2)], s))
      ∧ (∀ (p0 p1 p2 : String) (ps : List String),
        pySplit rest = p0 :: p1 :: p2 :: ps → pyIntParse p0 = Option.none →
        handleStringRequest s ("validate " ++ rest)
          = (mkErr "Invalid validation format. Use: validate <code> <name> <system>", s))
      ∧ ((pySplit rest).length < 3 →
        handleStringRequest s ("validate " ++ rest)
          = (mkErr "Validation requires: code, name, and system", s)) := by
  have hb := handleString_validate_branch s rest h
  refine ⟨?_, ?_, ?_⟩
  · intro p0 p1 p2 ps code hsp hip
    rw [hb, hsp]
    simp [hip]
  · intro p0 p1 p2 ps hsp hip
    rw [hb, hsp]
    simp [hip]
  · intro hlen
    rw [hb]
    cases hsp : pySplit rest with
    | nil => rfl
    | cons p0 ps =>
      cases ps with
      | nil => rfl
      | cons p1 ps₂ =>
        cases ps₂ with
        | nil => rfl
        | cons p2 ps₃ =>
          rw [hsp] at hlen
          simp at hlen
          omega

/-! ## Lemmas: the learning service -/

theorem pyStartsWith_unknown_fallback (d t : String) :
    pyStartsWith ("unknown_" ++ d ++ "_" ++ t) "unknown_" = true := by
  unfold pyStartsWith
  simp only [String.data_append, List.append_assoc]
  exact isPrefixOf_append_self _ _

theorem getSystemForCode_preserves_tcache (s : TranslatorState) (c : Int) :
    (getSystemForCode s c).snd.translationCache = s.translationCache := by
  unfold getSystemForCode
  cases s.systemCache.lookup c with
  | none => cases s.codeRegistry.lookup c <;> rfl
  | some sys => rfl

/-- One `translate_with_learning` call on a state whose translation cache
already holds the synthesized unknown translation and whose unknown-code
map already holds a record: the response is an unknown-status response
carrying the incremented count and the original first-seen time, and the
state's record is updated in place. -/
theorem translateWithLearning_cached (svc : ServiceState) (code : Int) (t : Nat)
    (u : String) (r : UnknownCodeRecord)
    (hu : svc.discovery.translationCache.lookup code = some u)
    (hpre : pyStartsWith u "unknown_" = true)
    (hr : svc.unknownCodes.lookup code = some r) :
    pyGet (translateWithLearning svc t code Option.none).fst "status" = some (.str "unknown")
      ∧ pyGet (translateWithLearning svc t code Option.none).fst "times_seen"
          = some (.int (Int.ofNat (r.count + 1)))
      ∧ pyGet (translateWithLearning svc t code Option.none).fst "first_seen"
          = some (.str (isoformat r.firstSeen))
      ∧ (translateWithLearning svc t code Option.none).snd.unknownCodes.lookup code
          = some { r with count := r.count + 1, lastSeen := t }
      ∧ (translateWithLearning svc t code Option.none).snd.discovery.translationCache.lookup code
          = some u := by
  have htc : translateCode svc.discovery code
      = (u, { svc.discovery with
                totalTranslations := svc.discovery.totalTranslations + 1,
                cacheHits := svc.discovery.cacheHits + 1 }) := by
    unfold translateCode
    simp only [hu]
  unfold translateWithLearning
  simp only []
  rw [htc]
  rcases hgs : getSystemForCode { svc.discovery with
      totalTranslations := svc.discovery.totalTranslations + 1,
      cacheHits := svc.discovery.cacheHits + 1 } code with ⟨sys, d₂⟩
  simp only [hpre, if_true]
  unfold trackUnknownCode
  simp only [hr]
  simp only [lookup_assocSet_self, Option.getD_some]
  refine ⟨?_, ?_, ?_, ?_, ?_⟩
  · simp [pyGet, List.find?, pyEq]
  · simp [pyGet, List.find?, pyEq]
  · simp [pyGet, List.find?, pyEq]
  · simp [lookup_assocSet_self]
  · have hd₂ : d₂.translationCache = svc.discovery.translationCache := by
      have := getSystemForCode_preserves_tcache { svc.discovery with
        totalTranslations := svc.discovery.totalTranslations + 1,
        cacheHits := svc.discovery.cacheHits + 1 } code
      rw [hgs] at this
      exact this
    simp [hd₂, hu]

/-- The first `translate_with_learning` call for a code that is neither
cached nor registered nor yet tracked: unknown-status response with count
1 and `first_seen = t`, and the state afterwards caches the synthesized
translation and holds the fresh record. -/
theorem translateWithLearning_miss (svc : ServiceState) (code : Int) (t : Nat)
    (hcache : svc.discovery.translationCache.lookup code = Option.none)
    (hreg : svc.discovery.codeRegistry.lookup code = Option.none)
    (hrec : svc.unknownCodes.lookup code = Option.none) :
    pyGet (translateWithLearning svc t code Option.none).fst "status" = some (.str "unknown")
      ∧ pyGet (translateWithLearning svc t code Option.none).fst "times_seen" = some (.int 1)
      ∧ pyGet (translateWithLearning svc t code Option.none).fst "first_seen"
          = some (.str (isoformat t))
      ∧ (translateWithLearning svc t code Option.none).snd.unknownCodes.lookup code
          = some ⟨code, t, t, 1, []⟩
      ∧ (translateWithLearning svc t code Option.none).snd.discovery.translationCache.lookup code
          = some ("unknown_" ++ determineSystem code ++ "_" ++ toString code) := by
  have htc : translateCode svc.discovery code
      = ("unknown_" ++ determineSystem code ++ "_" ++ toString code,
         { svc.discovery with
             totalTranslations := svc.discovery.totalTranslations + 1,
             translationCache := assocSet svc.discovery.translationCache code
               ("unknown_" ++ determineSystem code ++ "_" ++ toString code) }) := by
    unfold translateCode
    simp only [hcache, hreg]
  unfold translateWithLearning
  simp only []
  rw [htc]
  rcases hgs : getSystemForCode { svc.discovery with
      totalTranslations := svc.discovery.totalTranslations + 1,
      translationCache := assocSet svc.discovery.translationCache code
        ("unknown_" ++ determineSystem code ++ "_" ++ toString code) } code with ⟨sys, d₂⟩
  simp only [pyStartsWith_unknown_fallback, if_true]
  unfold trackUnknownCode
  simp only [hrec]
  simp only [lookup_assocSet_self, Option.getD_some]
  refine ⟨?_, ?_, ?_, ?_, ?_⟩
  · simp [pyGet, List.find?, pyEq]
  · simp [pyGet, List.find?, pyEq]
  · simp [pyGet, List.find?, pyEq]
  · simp [lookup_assocSet_self]
  · have hd₂ : d₂.translationCache
        = assocSet svc.discovery.translationCache code
            ("unknown_" ++ determineSystem code ++ "_" ++ toString code) := by
      have hp := getSystemForCode_preserves_tcache { svc.discovery with
        totalTranslations := svc.discovery.totalTranslations + 1,
        translationCache := assocSet svc.discovery.translationCache code
          ("unknown_" ++ determineSystem code ++ "_" ++ toString code) } code
      rw [hgs] at hp
      exact hp
    simp [hd₂, lookup_assocSet_self]

theorem lookup_assocSet_ne_none {β : Type} (l : List (Int × β)) (k c : Int) (v : β)
    (h : l.lookup c ≠ Option.none) : (assocSet l k v).lookup c ≠ Option.none := by
  by_cases hc : c = k
  · subst hc
    rw [lookup_assocSet_self]
    simp
  · rw [lookup_assocSet_ne _ _ _ _ hc]
    exact h

theorem discover_go_isSome (raw : List RawCode) (c : Int) :
    ∀ acc : List (Int × CodeInfo),
      (c ∈ raw.map RawCode.value ∨ acc.lookup c ≠ Option.none) →
      (raw.foldl (fun reg e => assocSet reg e.value (mkCodeInfo e)) acc).lookup c
        ≠ Option.none := by
  induction raw with
  | nil =>
    intro acc h
    rcases h with h | h
    · simp at h
    · simpa using h
  | cons e raw ih =>
    intro acc h
    simp only [List.foldl_cons]
    apply ih
    rcases h with h | h
    · simp only [List.map_cons, List.mem_cons] at h
      rcases h with h | h
      · right
        subst h
        rw [lookup_assocSet_self]
        simp
      · left
        exact h
    · right
      exact lookup_assocSet_ne_none acc e.value c (mkCodeInfo e) h

theorem discover_lookup_isSome (raw : List RawCode) (c : Int)
    (h : c ∈ raw.map RawCode.value) :
    (discoverAllCodes raw).lookup c ≠ Option.none := by
  unfold discoverAllCodes
  exact discover_go_isSome raw c [] (Or.inl h)

/-- A `translate_with_learning` call for an uncached registered code whose
name does not start with `"unknown_"`: a plain known-status response. -/
theorem translateWithLearning_known (svc : ServiceState) (code : Int) (t : Nat)
    (info : CodeInfo)
    (hcache : svc.discovery.translationCache.lookup code = Option.none)
    (hreg : svc.discovery.codeRegistry.lookup code = some info)
    (hpre : pyStartsWith info.name "unknown_" = false) :
    pyGet (translateWithLearning svc t code Option.none).fst "status"
      = some (.str "known") := by
  have htc : translateCode svc.discovery code
      = (info.name,
         { svc.discovery with
             totalTranslations := svc.discovery.totalTranslations + 1,
             translationCache := assocSet svc.discovery.translationCache code info.name }) := by
    unfold translateCode
    simp only [hcache, hreg]
  unfold translateWithLearning
  simp only []
  rw [htc]
  rcases hgs : getSystemForCode { svc.discovery with
      totalTranslations := svc.discovery.totalTranslations + 1,
      translationCache := assocSet svc.discovery.translationCache code info.name } code
    with ⟨sys, d₂⟩
  simp only [hpre, Bool.false_eq_true, if_false]
  simp [pyGet, List.find?, pyEq]

/-- Unfolding one step of `runLearning` (stated for a symbolic state so
that rewriting never forces evaluation of a concrete registry). -/
theorem runLearning_cons (svc : ServiceState) (code : Int) (t : Nat) (rest : List Nat) :
    runLearning svc code (t :: rest)
      = ((translateWithLearning svc t code Option.none).fst
           :: (runLearning (translateWithLearning svc t code Option.none).snd code rest).fst,
         (runLearning (translateWithLearning svc t code Option.none).snd code rest).snd) := by
  rcases h : translateWithLearning svc t code Option.none with ⟨r, s⟩
  simp [runLearning, h]

/-- Iterating `translate_with_learning` from a state whose cache already
holds an unknown translation and whose map holds a record: every response
is an unknown-status response carrying `times_seen` and `first_seen`, and
the final record accumulates the call count, keeps `first_seen`, and has
`last_seen` either unchanged or equal to one of the call times. -/
theorem runLearning_invariant (code : Int) (u : String)
    (hpre : pyStartsWith u "unknown_" = true) :
    ∀ (ts : List Nat) (svc : ServiceState) (r : UnknownCodeRecord),
      svc.discovery.translationCache.lookup code = some u →
      svc.unknownCodes.lookup code = some r →
      (∀ resp ∈ (runLearning svc code ts).fst,
          pyGet resp "status" = some (.str "unknown")
          ∧ (pyGet resp "times_seen").isSome ∧ (pyGet resp "first_seen").isSome)
      ∧ ∃ rec, (runLearning svc code ts).snd.unknownCodes.lookup code = some rec
          ∧ rec.count = r.count + ts.length
          ∧ rec.firstSeen = r.firstSeen
          ∧ (rec.lastSeen = r.lastSeen ∨ rec.lastSeen ∈ ts) := by
  intro ts
  induction ts with
  | nil =>
    intro svc r hu hr
    constructor
    · intro resp hresp
      simp [runLearning] at hresp
    · exact ⟨r, by simpa [runLearning] using hr, by simp, rfl, Or.inl rfl⟩
  | cons t rest ih =>
    intro svc r hu hr
    obtain ⟨h1, h2, h3, h4, h5⟩ := translateWithLearning_cached svc code t u r hu hpre hr
    rcases hcall : translateWithLearning svc t code Option.none with ⟨resp0, svc₁⟩
    rw [hcall] at h1 h2 h3 h4 h5
    have hrun : runLearning svc code (t :: rest)
        = (resp0 :: (runLearning svc₁ code rest).fst, (runLearning svc₁ code rest).snd) := by
      simp [runLearning, hcall]
    obtain ⟨ihresp, rec, ihrec, ihcount, ihfirst, ihlast⟩ :=
      ih svc₁ { r with count := r.count + 1, lastSeen := t } h5 h4
    rw [hrun]
    constructor
    · intro resp hresp
      rcases List.mem_cons.mp hresp with hhd | htl
      · subst hhd
        exact ⟨h1, by simp [h2], by simp [h3]⟩
      · exact ihresp resp htl
    · refine ⟨rec, ihrec, ?_, ?_, ?_⟩
      · simp only [ihcount]
        simp
        omega
      · exact ihfirst
      · rcases ihlast with hl | hl
        · right
          simp [hl]
        · right
          simp [hl]

theorem freshService_registry (raw : List RawCode) :
    (freshService raw).discovery.codeRegistry = discoverAllCodes raw := rfl

theorem freshService_tcache (raw : List RawCode) :
    (freshService raw).discovery.translationCache = [] := rfl

theorem freshService_unknown (raw : List RawCode) :
    (freshService raw).unknownCodes = [] := rfl

set_option maxRecDepth 100000 in
/-- No discovered member's lower-cased name begins with `"unknown_"`, so
registered codes never take the unknown-status path. -/
theorem actualNamesNotUnknown :
    actualRawCodes.all (fun e => !(pyStartsWith e.name "unknown_")) = true := by
  decide

set_option maxRecDepth 100000 in
/-- C3: starting from a fresh learning service, `n ≥ 1` calls of
`translate_with_learning` on an unregistered code with nondecreasing
wall-clock readings leave an unknown-code record whose count is exactly
`n` and whose `first_seen ≤ last_seen`; every one of those calls answers
with an unknown-status response carrying `times_seen` and `first_seen`;
and a registered code answers with a known-status response. -/
theorem translate_with_learning_unknown_tracking (code : Int) (ts : List Nat)
    (hcode : code ∉ actualRawCodes.map RawCode.value)
    (hne : ts ≠ [])
    (hmono : List.Chain' (fun a b => a ≤ b) ts) :
    (∀ resp ∈ (runLearning (freshService actualRawCodes) code ts).fst,
        pyGet resp "status" = some (.str "unknown")
        ∧ (pyGet resp "times_seen").isSome ∧ (pyGet resp "first_seen").isSome)
      ∧ (∃ rec, (runLearning (freshService actualRawCodes) code ts).snd.unknownCodes.lookup code
            = some rec ∧ rec.count = ts.length ∧ rec.firstSeen ≤ rec.lastSeen)
      ∧ (∀ e : RawCode, e ∈ actualRawCodes →
          pyGet (translateWithLearning (freshService actualRawCodes) 0 e.value Option.none).fst
            "status" = some (.str "known")) := by
  have hknown : ∀ e : RawCode, e ∈ actualRawCodes →
      pyGet (translateWithLearning (freshService actualRawCodes) 0 e.value Option.none).fst
        "status" = some (.str "known") := by
    have hnames := actualNamesNotUnknown
    intro e he
    have hmem : e.value ∈ actualRawCodes.map RawCode.value := List.mem_map_of_mem _ he
    have hsome := discover_lookup_isSome actualRawCodes e.value hmem
    cases hlk : (discoverAllCodes actualRawCodes).lookup e.value with
    | none => exact absurd hlk hsome
    | some info =>
      obtain ⟨e₂, he₂, hv, hi⟩ := discover_lookup_some actualRawCodes e.value info hlk
      have hname₂ : pyStartsWith e₂.name "unknown_" = false := by
        have := List.all_eq_true.mp hnames e₂ he₂
        simpa using this
      have hlk₂ : (freshService actualRawCodes).discovery.codeRegistry.lookup e.value
          = some info := by
        rw [freshService_registry]
        exact hlk
      have hc₂ : (freshService actualRawCodes).discovery.translationCache.lookup e.value
          = Option.none := by
        rw [freshService_tcache]
        rfl
      refine translateWithLearning_known (freshService actualRawCodes) e.value 0 info hc₂ hlk₂ ?_
      rw [hi]
      exact hname₂
  cases ts with
  | nil => exact absurd rfl hne
  | cons t₀ rest =>
    have hregnone : (freshService actualRawCodes).discovery.codeRegistry.lookup code
        = Option.none := by
      rw [freshService_registry]
      exact discover_lookup_none actualRawCodes code hcode
    have hc₀ : (freshService actualRawCodes).discovery.translationCache.lookup code
        = Option.none := by
      rw [freshService_tcache]
      rfl
    have hu₀ : (freshService actualRawCodes).unknownCodes.lookup code = Option.none := by
      rw [freshService_unknown]
      rfl
    obtain ⟨h1, h2, h3, h4, h5⟩ := translateWithLearning_miss (freshService actualRawCodes) code t₀
      hc₀ hregnone hu₀
    rcases hcall : translateWithLearning (freshService actualRawCodes) t₀ code Option.none
      with ⟨resp0, svc₁⟩
    rw [hcall] at h1 h2 h3 h4 h5
    have hrun : runLearning (freshService actualRawCodes) code (t₀ :: rest)
        = (resp0 :: (runLearning svc₁ code rest).fst, (runLearning svc₁ code rest).snd) := by
      rw [runLearning_cons, hcall]
    obtain ⟨ihresp, rec, ihrec, ihcount, ihfirst, ihlast⟩ :=
      runLearning_invariant code ("unknown_" ++ determineSystem code ++ "_" ++ toString code)
        (pyStartsWith_unknown_fallback _ _) rest svc₁ ⟨code, t₀, t₀, 1, []⟩ h5 h4
    have hge : ∀ t ∈ rest, t₀ ≤ t := by
      have hp := List.chain'_iff_pairwise.mp hmono
      exact (List.pairwise_cons.mp hp).1
    rw [hrun]
    refine ⟨?_, ⟨rec, ihrec, ?_, ?_⟩, hknown⟩
    · intro resp hresp
      rcases List.mem_cons.mp hresp with hhd | htl
      · subst hhd
        exact ⟨h1, by simp [h2], by simp [h3]⟩
      · exact ihresp resp htl
    · rw [ihcount]
      simp
      omega
    · rcases ihlast with hl | hl
      · rw [ihfirst, hl]
      · rw [ihfirst]
        exact hge _ hl

/-! ## Lemmas: response status shape -/

theorem statusIs_mkErr (m : String) : statusIs (mkErr m) "error" = true := by
  simp [statusIs, mkErr, pyGet, List.find?, pyEq]

theorem statusIs_handleCodeRequest (s : TranslatorState) (orig : PyVal) :
    statusIs (handleCodeRequest s orig).fst "success" = true
      ∨ statusIs (handleCodeRequest s orig).fst "error" = true := by
  unfold handleCodeRequest
  cases pyNum orig with
  | none => right; simp [statusIs, pyGet, List.find?, pyEq]
  | some n =>
    left
    rcases translateCode s n with ⟨t, s₁⟩
    rcases getSystemForCode s₁ n with ⟨sys, s₂⟩
    rcases formatCodeWithContext s₂ n with ⟨fmt, s₃⟩
    rcases getCodeInfo s₃ n with ⟨info, s₄⟩
    simp [statusIs, pyGet, List.find?, pyEq]

theorem statusIs_handleStringRequest (s : TranslatorState) (request : String) :
    statusIs (handleStringRequest s request).fst "success" = true
      ∨ statusIs (handleStringRequest s request).fst "error" = true := by
  unfold handleStringRequest
  simp only []
  by_cases c1 : (pyStartsWith (pyStrip (pyLower request)) "help"
      || pyStrip (pyLower request) == "?") = true
  · rw [if_pos c1]
    left
    simp [statusIs, helpResponse, pyGet, List.find?, pyEq]
  rw [if_neg c1]
  by_cases c2 : (pyStartsWith (pyStrip (pyLower request)) "stats"
      || pyStrip (pyLower request) == "statistics") = true
  · rw [if_pos c2]
    left
    simp [statusIs, pyGet, List.find?, pyEq]
  rw [if_neg c2]
  by_cases c3 : (pyStartsWith (pyStrip (pyLower request)) "summary"
      || pyStrip (pyLower request) == "systems") = true
  · rw [if_pos c3]
    left
    simp [statusIs, pyGet, List.find?, pyEq]
  rw [if_neg c3]
  by_cases c4 : pyStartsWith (pyStrip (pyLower request)) "search " = true
  · rw [if_pos c4]
    rcases hh : findCodesByName s (pyDrop request 7) with ⟨res, s₁⟩
    left
    simp [statusIs, pyGet, List.find?, pyEq]
  rw [if_neg c4]
  by_cases c5 : pyStartsWith (pyStrip (pyLower request)) "suggest " = true
  · rw [if_pos c5]
    left
    simp [statusIs, pyGet, List.find?, pyEq]
  rw [if_neg c5]
  by_cases c6 : pyStartsWith (pyStrip (pyLower request)) "validate " = true
  · rw [if_pos c6]
    cases pySplit (pyDrop request 9) with
    | nil =>
      right
      simp [statusIs, mkErr, pyGet, List.find?, pyEq]
    | cons p0 ps =>
      cases ps with
      | nil =>
        right
        simp [statusIs, mkErr, pyGet, List.find?, pyEq]
      | cons p1 ps₂ =>
        cases ps₂ with
        | nil =>
          right
          simp [statusIs, mkErr, pyGet, List.find?, pyEq]
        | cons p2 ps₃ =>
          cases hip : pyIntParse p0 with
          | none =>
            right
            simp [hip, statusIs, mkErr, pyGet, List.find?, pyEq]
          | some code =>
            left
            simp [hip, statusIs, pyGet, List.find?, pyEq]
  rw [if_neg c6]
  by_cases c7 : pyIsDigit request = true
  · rw [if_pos c7]
    exact statusIs_handleCodeRequest s _
  rw [if_neg c7]
  rcases hh : findCodesByName s request with ⟨res, s₁⟩
  left
  simp [statusIs, pyGet, List.find?, pyEq]

theorem statusIs_handleStructuredRequest (s : TranslatorState) (es : List (PyVal × PyVal))
    (r : PyVal) (s₁ : TranslatorState)
    (h : handleStructuredRequest s es = .ok (r, s₁)) :
    statusIs r "success" = true ∨ statusIs r "error" = true := by
  unfold handleStructuredRequest at h
  simp only [] at h
  repeat' split at h
  all_goals first
    | (exfalso; exact Except.noConfusion h)
    | (simp only [Except.ok.injEq] at h
       have h2 := congrArg Prod.fst h
       simp only [] at h2
       rw [← h2]
       first
         | exact statusIs_handleCodeRequest s _
         | (left; simp [statusIs, pyGet, List.find?, pyEq]; done)
         | (right; simp [statusIs, mkErr, pyGet, List.find?, pyEq]; done))

theorem find?_map_keyset (es : List (PyVal × PyVal)) (k k₂ : String) (v : PyVal)
    (h : (k == k₂) = false) :
    (es.map (fun p => if pyEq p.fst (.str k) then (p.fst, v) else p)).find?
        (fun p => pyEq p.fst (.str k₂))
      = (es.find? (fun p => pyEq p.fst (.str k₂))).map
          (fun p => if pyEq p.fst (.str k) then (p.fst, v) else p) := by
  induction es with
  | nil => rfl
  | cons p es ih =>
    by_cases hp : pyEq p.fst (.str k) = true
    · have hp₂ : pyEq p.fst (.str k₂) = false := by
        rcases p with ⟨pf, pv⟩
        cases pf <;> simp [pyEq] at hp ⊢
        intro he
        rw [he] at hp
        rw [hp] at h
        simp at h
      simp only [List.map_cons]
      rw [if_pos hp]
      rw [List.find?_cons_of_neg _ (by simp [hp₂]),
          List.find?_cons_of_neg _ (by simp [hp₂])]
      exact ih
    · have hp' : pyEq p.fst (.str k) = false := Bool.eq_false_iff.mpr hp
      simp only [List.map_cons]
      rw [if_neg hp]
      by_cases hp₂ : pyEq p.fst (.str k₂) = true
      · rw [List.find?_cons_of_pos _ (by simpa using hp₂),
            List.find?_cons_of_pos _ (by simpa using hp₂)]
        simp [if_neg hp]
      · have hp₂' : pyEq p.fst (.str k₂) = false := Bool.eq_false_iff.mpr hp₂
        rw [List.find?_cons_of_neg _ (by simp [hp₂']),
            List.find?_cons_of_neg _ (by simp [hp₂'])]
        exact ih

theorem pyEq_str_excl (pf : PyVal) (k k₂ : String) (h : (k == k₂) = false)
    (h₂ : pyEq pf (.str k₂) = true) : pyEq pf (.str k) = false := by
  cases pf <;> simp [pyEq] at h₂ ⊢
  intro he
  rw [← he, h₂] at h
  simp at h

/-- Setting one key of a response dict leaves every other key's lookup
unchanged (`result["batch_index"] = i` does not disturb `"status"`). -/
theorem pyGet_dictSet_other (r : PyVal) (k k₂ : String) (v : PyVal)
    (h : (k == k₂) = false) :
    pyGet (pyDictSet r k v) k₂ = pyGet r k₂ := by
  cases r with
  | dict es =>
    simp only [pyDictSet]
    by_cases ha : es.any (fun p => pyEq p.fst (.str k)) = true
    · rw [if_pos ha]
      show ((es.map (fun p => if pyEq p.fst (.str k) then (p.fst, v) else p)).find?
          (fun p => pyEq p.fst (.str k₂))).map Prod.snd
        = (es.find? (fun p => pyEq p.fst (.str k₂))).map Prod.snd
      rw [find?_map_keyset es k k₂ v h]
      cases hf : es.find? (fun p => pyEq p.fst (.str k₂)) with
      | none => rfl
      | some p =>
        have hpred := List.find?_some hf
        have hne := pyEq_str_excl p.fst k k₂ h hpred
        simp [hne]
    · rw [if_neg ha]
      show ((es ++ [(PyVal.str k, v)]).find? (fun p => pyEq p.fst (.str k₂))).map Prod.snd
        = (es.find? (fun p => pyEq p.fst (.str k₂))).map Prod.snd
      rw [List.find?_append]
      have hsingle : (([(PyVal.str k, v)] : List (PyVal × PyVal)).find?
            (fun p => pyEq p.fst (.str k₂)))
          = Option.none := by
        simp [List.find?, pyEq, h]
      rw [hsingle]
      cases es.find? (fun p => pyEq p.fst (.str k₂)) <;> rfl
  | none => rfl
  | bool b => rfl
  | int n => rfl
  | str t => rfl
  | list xs => rfl

theorem statusIs_excl (r : PyVal) (hs : statusIs r "success" = true)
    (he : statusIs r "error" = true) : False := by
  unfold statusIs at hs he
  cases h : (pyGet r "status").getD .none <;> rw [h] at hs he <;>
    simp [pyEq] at hs he
  rw [hs] at he
  exact absurd he (by decide)

theorem statusIs_isDict (r : PyVal) (v : String) (h : statusIs r v = true) :
    ∃ es, r = PyVal.dict es := by
  cases r with
  | dict es => exact ⟨es, rfl⟩
  | none => simp [statusIs, pyGet, pyEq] at h
  | bool b => simp [statusIs, pyGet, pyEq] at h
  | int n => simp [statusIs, pyGet, pyEq] at h
  | str t => simp [statusIs, pyGet, pyEq] at h
  | list xs => simp [statusIs, pyGet, pyEq] at h

theorem statusIs_dictSet (r : PyVal) (v : PyVal) (w : String) :
    statusIs (pyDictSet r "batch_index" v) w = statusIs r w := by
  unfold statusIs
  rw [pyGet_dictSet_other r "batch_index" "status" v (by decide)]

theorem countP_statusIs_split (l : List PyVal)
    (h : ∀ r ∈ l, statusIs r "success" = true ∨ statusIs r "error" = true) :
    l.countP (fun r => statusIs r "success")
      + l.countP (fun r => statusIs r "error") = l.length := by
  induction l with
  | nil => simp
  | cons a t ih =>
    have ha := h a (by simp)
    have ht := ih (fun r hr => h r (by simp [hr]))
    rcases ha with hs | he
    · have he' : ¬ statusIs a "error" = true := fun hb => statusIs_excl a hs hb
      simp [List.countP_cons, hs, he']
      omega
    · by_cases hs' : statusIs a "success" = true
      · exact absurd he (fun hb => statusIs_excl a hs' hb)
      · simp [List.countP_cons, he, hs']
        omega

/-- After `d[k] = v` on a dict, `d.get(k)` returns `v`. -/
theorem pyGet_dictSet_self (es : List (PyVal × PyVal)) (k : String) (v : PyVal) :
    pyGet (pyDictSet (.dict es) k v) k = some v := by
  induction es with
  | nil => simp [pyDictSet, pyGet, List.find?, pyEq]
  | cons p t ih =>
    by_cases hp : pyEq p.fst (.str k) = true
    · have hany : ((p :: t).any fun q => pyEq q.fst (.str k)) = true := by
        simp [List.any_cons, hp]
      show pyGet (pyDictSet (.dict (p :: t)) k v) k = some v
      simp only [pyDictSet, hany, if_true]
      show (((p :: t).map (fun q => if pyEq q.fst (.str k) then (q.fst, v) else q)).find?
          (fun q => pyEq q.fst (.str k))).map Prod.snd = some v
      rw [List.map_cons, if_pos hp]
      simp only [List.find?_cons, hp, cond_true]
      rfl
    · have hanyc : ((p :: t).any fun q => pyEq q.fst (.str k))
          = (t.any fun q => pyEq q.fst (.str k)) := by
        simp [List.any_cons, hp]
      by_cases ht : (t.any fun q => pyEq q.fst (.str k)) = true
      · have ih' := ih
        simp only [pyDictSet, ht, if_true] at ih'
        show pyGet (pyDictSet (.dict (p :: t)) k v) k = some v
        simp only [pyDictSet, hanyc, ht, if_true]
        show (((p :: t).map (fun q => if pyEq q.fst (.str k) then (q.fst, v) else q)).find?
            (fun q => pyEq q.fst (.str k))).map Prod.snd = some v
        rw [List.map_cons, if_neg hp]
        have hpf : pyEq p.fst (PyVal.str k) = false := by simp [hp]
        simp only [List.find?_cons, hpf, cond_false]
        exact ih'
      · have ih' := ih
        simp only [pyDictSet, ht, if_false] at ih'
        show pyGet (pyDictSet (.dict (p :: t)) k v) k = some v
        simp only [pyDictSet, hanyc, ht, if_false]
        show (((p :: t) ++ [(PyVal.str k, v)]).find?
            (fun q => pyEq q.fst (.str k))).map Prod.snd = some v
        rw [List.cons_append]
        have hpf : pyEq p.fst (PyVal.str k) = false := by simp [hp]
        simp only [List.find?_cons, hpf, cond_false]
        exact ih'

/-- Every response of `handle_request` carries status `"success"` or
`"error"`. -/
theorem handleRequest_status (s : TranslatorState) (req : PyVal) :
    statusIs (handleRequest s req).fst "success" = true
      ∨ statusIs (handleRequest s req).fst "error" = true := by
  cases req with
  | int n => exact statusIs_handleCodeRequest s _
  | bool b => exact statusIs_handleCodeRequest s _
  | str t => exact statusIs_handleStringRequest s t
  | dict es =>
    have hd : handleRequest s (.dict es)
        = (match handleStructuredRequest s es with
           | .ok r => r
           | .error _ =>
             (.dict [(.str "status", .str "error"),
                     (.str "error", .str "Request processing failed: TypeError"),
                     (.str "request_type", .str "dict")], s)) := rfl
    rw [hd]
    cases hh : handleStructuredRequest s es with
    | ok r =>
      rcases r with ⟨r, s₁⟩
      exact statusIs_handleStructuredRequest s es r s₁ hh
    | error e =>
      right
      simp [statusIs, pyGet, List.find?, pyEq]
  | list xs =>
    rcases hb : handleBatchItems s xs 0 with ⟨results, s₁⟩
    left
    show statusIs (handleRequest s (.list xs)).fst "success" = true
    simp only [handleRequest, hb]
    simp [statusIs, pyGet, List.find?, pyEq]
  | none =>
    right
    simp [handleRequest, statusIs, pyGet, List.find?, pyEq]

theorem handleBatchItems_cons (s : TranslatorState) (x : PyVal) (xs : List PyVal) (i : Nat) :
    handleBatchItems s (x :: xs) i =
      (pyDictSet (handleRequest s x).fst "batch_index" (.int i)
         :: (handleBatchItems (handleRequest s x).snd xs (i + 1)).fst,
       (handleBatchItems (handleRequest s x).snd xs (i + 1)).snd) := rfl

theorem batchStateAt_zero (s : TranslatorState) (xs : List PyVal) :
    batchStateAt s xs 0 = s := rfl

theorem batchStateAt_succ (s : TranslatorState) (x : PyVal) (xs : List PyVal) (j : Nat) :
    batchStateAt s (x :: xs) (j + 1) = batchStateAt (handleRequest s x).snd xs j := rfl

/-- The batch loop: one result per item, every result has a definite
status, and the `j`-th result is the full dispatch of the `j`-th item
(run from the state the earlier items left) tagged with index `i + j`. -/
theorem handleBatchItems_spec (xs : List PyVal) : ∀ (s : TranslatorState) (i : Nat),
    (handleBatchItems s xs i).fst.length = xs.length
    ∧ (∀ r ∈ (handleBatchItems s xs i).fst,
        statusIs r "success" = true ∨ statusIs r "error" = true)
    ∧ (∀ j x, xs[j]? = some x →
        (handleBatchItems s xs i).fst[j]? =
          some (pyDictSet (handleRequest (batchStateAt s xs j) x).fst
                  "batch_index" (.int (i + j)))) := by
  induction xs with
  | nil =>
    intro s i
    refine ⟨rfl, ?_, ?_⟩
    · intro r hr
      exact absurd hr (by simp [handleBatchItems])
    · intro j x hx
      exact absurd hx (by simp)
  | cons y t ih =>
    intro s i
    rcases ih (handleRequest s y).snd (i + 1) with ⟨ihlen, ihst, ihidx⟩
    refine ⟨?_, ?_, ?_⟩
    · rw [handleBatchItems_cons]
      simp only [List.length_cons, ihlen]
    · intro r hr
      rw [handleBatchItems_cons] at hr
      rcases List.mem_cons.mp hr with hr | hr
      · rw [hr, statusIs_dictSet, statusIs_dictSet]
        exact handleRequest_status s y
      · exact ihst r hr
    · intro j x hx
      cases j with
      | zero =>
        simp only [List.getElem?_cons_zero, Option.some.injEq] at hx
        rw [handleBatchItems_cons]
        simp only [List.getElem?_cons_zero, Option.some.injEq]
        rw [batchStateAt_zero, ← hx]
        norm_num
      | succ j' =>
        simp only [List.getElem?_cons_succ] at hx
        rw [handleBatchItems_cons]
        simp only [List.getElem?_cons_succ]
        rw [batchStateAt_succ]
        have hi := ihidx j' x hx
        rw [hi]
        have harith : ((i + 1 : Nat) : Int) + (j' : Int)
            = (i : Int) + ((j' + 1 : Nat) : Int) := by push_cast; ring
        rw [harith]

/-- C6: every list request dispatches as a batch: the response has status
`"success"` and request_type `"batch"`, `total_requests` is the list's
length, the `results` list has one entry per item, the `j`-th entry is the
whole dispatch applied to the `j`-th item (run from the state the earlier
items left) tagged with `batch_index` `j` (and reads back `batch_index`
`j`), the summary's `successful` and `failed` counts sum to the list's
length, and an exception raised by a structured item is reported as that
item's error result while the other items are still processed. -/
theorem batch_dispatch (s : TranslatorState) (xs : List PyVal) :
    statusIs (handleRequest s (.list xs)).fst "success" = true
    ∧ pyGet (handleRequest s (.list xs)).fst "request_type" = some (.str "batch")
    ∧ pyGet (handleRequest s (.list xs)).fst "total_requests"
        = some (.int (xs.length : Int))
    ∧ (∃ results : List PyVal,
        pyGet (handleRequest s (.list xs)).fst "results" = some (.list results)
        ∧ results.length = xs.length
        ∧ (∀ j x, xs[j]? = some x →
            results[j]? = some (pyDictSet (handleRequest (batchStateAt s xs j) x).fst
                                  "batch_index" (.int (j : Int)))
              ∧ pyGet (pyDictSet (handleRequest (batchStateAt s xs j) x).fst
                         "batch_index" (.int (j : Int))) "batch_index"
                  = some (.int (j : Int)))
        ∧ pyGet (handleRequest s (.list xs)).fst "summary"
            = some (.dict [(.str "successful",
                      .int (results.countP (fun r => statusIs r "success"))),
                    (.str "failed",
                      .int (results.countP (fun r => statusIs r "error")))])
        ∧ results.countP (fun r => statusIs r "success")
            + results.countP (fun r => statusIs r "error") = xs.length
        ∧ (∀ j es, xs[j]? = some (.dict es) →
            handleStructuredRequest (batchStateAt s xs j) es = .error () →
            results[j]? = some (pyDictSet
              (.dict [(.str "status", .str "error"),
                      (.str "error", .str "Request processing failed: TypeError"),
                      (.str "request_type", .str "dict")])
              "batch_index" (.int (j : Int))))) := by
  rcases handleBatchItems_spec xs s 0 with ⟨hlen, hst, hidx⟩
  have hidx0 : ∀ j x, xs[j]? = some x →
      (handleBatchItems s xs 0).fst[j]? =
        some (pyDictSet (handleRequest (batchStateAt s xs j) x).fst
                "batch_index" (.int (j : Int))) := by
    intro j x hx
    have h0 := hidx j x hx
    norm_num at h0
    exact h0
  have hl : handleRequest s (.list xs)
      = (.dict [(.str "status", .str "success"),
                (.str "request_type", .str "batch"),
                (.str "total_requests", .int xs.length),
                (.str "results", .list (handleBatchItems s xs 0).fst),
                (.str "summary", .dict [
                  (.str "successful",
                   .int ((handleBatchItems s xs 0).fst.countP
                           (fun r => statusIs r "success"))),
                  (.str "failed",
                   .int ((handleBatchItems s xs 0).fst.countP
                           (fun r => statusIs r "error")))])],
         (handleBatchItems s xs 0).snd) := rfl
  refine ⟨?_, ?_, ?_, (handleBatchItems s xs 0).fst, ?_, hlen, ?_, ?_,
          (countP_statusIs_split _ hst).trans hlen, ?_⟩
  · rw [hl]; simp [statusIs, pyGet, List.find?, pyEq]
  · rw [hl]; simp [pyGet, List.find?, pyEq]
  · rw [hl]; simp [pyGet, List.find?, pyEq]
  · rw [hl]; simp [pyGet, List.find?, pyEq]
  · intro j x hx
    refine ⟨hidx0 j x hx, ?_⟩
    rcases handleRequest_status (batchStateAt s xs j) x with hsu | her
    · rcases statusIs_isDict _ _ hsu with ⟨es, heq⟩
      rw [heq]
      exact pyGet_dictSet_self es "batch_index" (.int (j : Int))
    · rcases statusIs_isDict _ _ her with ⟨es, heq⟩
      rw [heq]
      exact pyGet_dictSet_self es "batch_index" (.int (j : Int))
  · rw [hl]; simp [pyGet, List.find?, pyEq]
  · intro j es hjx herr
    have h0 := hidx0 j (.dict es) hjx
    have hd : (handleRequest (batchStateAt s xs j) (.dict es)).fst
        = .dict [(.str "status", .str "error"),
                 (.str "error", .str "Request processing failed: TypeError"),
                 (.str "request_type", .str "dict")] := by
      have he : handleRequest (batchStateAt s xs j) (.dict es)
          = (match handleStructuredRequest (batchStateAt s xs j) es with
             | .ok r => r
             | .error _ =>
               (.dict [(.str "status", .str "error"),
                       (.str "error", .str "Request processing failed: TypeError"),
                       (.str "request_type", .str "dict")],
                batchStateAt s xs j)) := rfl
      rw [he, herr]
    rw [hd] at h0
    exact h0

set_option maxRecDepth 100000 in
theorem validate_command_token_contract_witness :
    handleStringRequest initialTranslator ("validate " ++ "10 a b")
      = (.dict [(.str "status", .str "success"),
                (.str "request_type", .str "validation"),
                (.str "validation_result",
                 validateCodeAddition initialTranslator 10 "a" "b")], initialTranslator) :=
  (validate_command_token_contract initialTranslator "10 a b" (by decide)).1
    "10" "a" "b" [] 10 (by decide) (by decide)

set_option maxRecDepth 100000 in
theorem translate_with_learning_unknown_tracking_witness :
    ∃ rec, (runLearning (freshService actualRawCodes) 88888
          [3, 4, 5]).snd.unknownCodes.lookup 88888
        = some rec ∧ rec.count = 3 ∧ rec.firstSeen ≤ rec.lastSeen :=
  (translate_with_learning_unknown_tracking 88888 [3, 4, 5] (by decide) (by decide)
    (by norm_num [List.chain'_cons, List.chain'_singleton])).2.1
